import Mathlib

/-!
# Character management backend: relationship consistency rules

A shallow embedding of the Go backend under `backend/internal`:

* `models`        : the record types `Group`, `Label`, `Character`, `Relationship`;
* `repositories`  : the GORM repositories, as functions on an explicit database value `DB`;
* `services`      : `relationshipService`, the parts of `characterService` that write
                    characters and their labels, `labelService`, `groupService` and
                    `imageService`, as state-passing functions
                    `DB → ... → DB × Except String _`.

Conventions of the embedding.

* A Go `error` is its message (`errors.New msg` is `msg`, and
  `fmt.Errorf "p: %w" err` is `"p: " ++ err`); a Go result `(v, err)` is an `Except String _`.
* The database is a value holding one list of rows per table.  A row is found by exact
  equality of its primary key `ID`; inserting a row whose key is already present is refused by
  the table, and `Save` writes every column of the row carrying the given key.
* `uuid.New().String()` and the clock are inputs of the operations that use them
  (`uuid`, `now`).
* Go compares strings byte by byte; on well-formed UTF-8 text this is the order of the code
  points, which is the order of `String` used here.
-/

namespace CharacterManagement

/-! ## models -/

/-- Group model (`models/group.go`), scalar columns. -/
structure Group where
  ID : String
  Name : String
  Description : Option String
  CreatedAt : Nat
  UpdatedAt : Nat
  deriving DecidableEq, Repr

/-- Label model (`models/label.go`). -/
structure Label where
  ID : String
  Name : String
  Color : String
  CreatedAt : Nat
  deriving DecidableEq, Repr

/-- Character model (`models/character.go`), scalar columns. -/
structure Character where
  ID : String
  GroupID : String
  Name : String
  Photo : Option String
  Information : String
  RelatedLinks : String
  CreatedAt : Nat
  UpdatedAt : Nat
  deriving DecidableEq, Repr

/-- Relationship model (`models/relationship.go`), scalar columns. -/
structure Relationship where
  ID : String
  GroupID : String
  Character1ID : String
  Character2ID : String
  RelationshipType : String
  Description : Option String
  CreatedAt : Nat
  deriving DecidableEq, Repr

/-- The database behind `*gorm.DB`: one list of rows per migrated table, and the join table
`character_labels` of the many-to-many association (character id, label id). -/
structure DB where
  groups : List Group
  labels : List Label
  characters : List Character
  character_labels : List (String × String)
  relationships : List Relationship
  deriving DecidableEq, Repr

/-- The error of `First` when no row matches (`gorm.ErrRecordNotFound`). -/
def ErrRecordNotFound : String := "record not found"

/-- The error of an insert whose primary key is already in the table. -/
def ErrDuplicatedKey : String := "duplicate entry for primary key"

/-! ## repositories/group_repository.go -/

namespace groupRepository

/-- `ExistsByID`: `Where("id = ?", id).Count(&count)`, then `count > 0`. -/
def ExistsByID (db : DB) (id : String) : Except String Bool :=
  let count := (db.groups.filter (fun g => g.ID == id)).length
  .ok (decide (count > 0))

end groupRepository

/-! ## repositories/character_repository.go -/

namespace characterRepository

/-- `Create`: a fresh UUID becomes the ID, then `db.Create(character)`; the insert fills the
`autoCreateTime` and `autoUpdateTime` columns that are zero.  Returns the database and the
record as the caller sees it afterwards. -/
def Create (db : DB) (uuid : String) (now : Nat) (character : Character) :
    Except String (DB × Character) :=
  let character := { character with ID := uuid }
  let character := { character with
    CreatedAt := if character.CreatedAt = 0 then now else character.CreatedAt
    UpdatedAt := if character.UpdatedAt = 0 then now else character.UpdatedAt }
  if db.characters.any (fun c => c.ID == character.ID) then
    .error ErrDuplicatedKey
  else
    .ok ({ db with characters := db.characters ++ [character] }, character)

/-- `GetByID`: `First(&character, "id = ?", id)`. -/
def GetByID (db : DB) (id : String) : Except String Character :=
  match db.characters.find? (fun c => c.ID == id) with
  | some character => .ok character
  | none => .error ErrRecordNotFound

/-- `Update`: `db.Save(character)`.  With a zero primary key `Save` inserts; otherwise it
writes all columns of the row with that key (and `autoUpdateTime`), inserting when there is no
such row. -/
def Update (db : DB) (now : Nat) (character : Character) : Except String (DB × Character) :=
  let character := { character with UpdatedAt := now }
  if character.ID ≠ "" ∧ db.characters.any (fun c => c.ID == character.ID) then
    .ok ({ db with characters :=
            db.characters.map (fun c => if c.ID == character.ID then character else c) },
         character)
  else if db.characters.any (fun c => c.ID == character.ID) then
    .error ErrDuplicatedKey
  else
    .ok ({ db with characters := db.characters ++ [character] }, character)

/-- `ExistsByID`: `Where("id = ?", id).Count(&count)`, then `count > 0`. -/
def ExistsByID (db : DB) (id : String) : Except String Bool :=
  let count := (db.characters.filter (fun c => c.ID == id)).length
  .ok (decide (count > 0))

end characterRepository

/-! ## repositories/relationship_repository.go -/

namespace relationshipRepository

/-- `Create`: a fresh UUID becomes the ID, the two character ids are put in order (the
smaller one in `Character1ID`), then `db.Create(relationship)`.  Returns the database and the
record as the caller sees it afterwards. -/
def Create (db : DB) (uuid : String) (now : Nat) (relationship : Relationship) :
    Except String (DB × Relationship) :=
  let relationship := { relationship with ID := uuid }
  let relationship :=
    if relationship.Character1ID > relationship.Character2ID then
      { relationship with
        Character1ID := relationship.Character2ID
        Character2ID := relationship.Character1ID }
    else relationship
  let relationship := { relationship with
    CreatedAt := if relationship.CreatedAt = 0 then now else relationship.CreatedAt }
  if db.relationships.any (fun r => r.ID == relationship.ID) then
    .error ErrDuplicatedKey
  else
    .ok ({ db with relationships := db.relationships ++ [relationship] }, relationship)

/-- `GetByID`: `First(&relationship, "id = ?", id)`. -/
def GetByID (db : DB) (id : String) : Except String Relationship :=
  match db.relationships.find? (fun r => r.ID == id) with
  | some relationship => .ok relationship
  | none => .error ErrRecordNotFound

/-- `GetAll`: every row. -/
def GetAll (db : DB) : Except String (List Relationship) :=
  .ok db.relationships

/-- `GetByGroupID`: `Where("group_id = ?", groupID)`. -/
def GetByGroupID (db : DB) (groupID : String) : Except String (List Relationship) :=
  .ok (db.relationships.filter (fun r => r.GroupID == groupID))

/-- `GetByCharacterID`: `Where("character1_id = ? OR character2_id = ?", id, id)`. -/
def GetByCharacterID (db : DB) (characterID : String) : Except String (List Relationship) :=
  .ok (db.relationships.filter
    (fun r => r.Character1ID == characterID || r.Character2ID == characterID))

/-- `Update`: the two character ids are put in order, then `db.Save(relationship)`.  With a
zero primary key `Save` inserts; otherwise it writes all columns of the row with that key,
inserting when there is no such row. -/
def Update (db : DB) (relationship : Relationship) : Except String (DB × Relationship) :=
  let relationship :=
    if relationship.Character1ID > relationship.Character2ID then
      { relationship with
        Character1ID := relationship.Character2ID
        Character2ID := relationship.Character1ID }
    else relationship
  if relationship.ID ≠ "" ∧ db.relationships.any (fun r => r.ID == relationship.ID) then
    .ok ({ db with relationships :=
            db.relationships.map (fun r => if r.ID == relationship.ID then relationship else r) },
         relationship)
  else if db.relationships.any (fun r => r.ID == relationship.ID) then
    .error ErrDuplicatedKey
  else
    .ok ({ db with relationships := db.relationships ++ [relationship] }, relationship)

/-- `Delete`: `db.Delete(&models.Relationship{}, "id = ?", id)`. -/
def Delete (db : DB) (id : String) : Except String DB :=
  .ok { db with relationships := db.relationships.filter (fun r => !(r.ID == id)) }

/-- `ExistsByID`: `Where("id = ?", id).Count(&count)`, then `count > 0`. -/
def ExistsByID (db : DB) (id : String) : Except String Bool :=
  let count := (db.relationships.filter (fun r => r.ID == id)).length
  .ok (decide (count > 0))

/-- `ExistsBetweenCharacters`: the two ids are put in order, then
`Where("character1_id = ? AND character2_id = ?", ...).Count(&count)` and `count > 0`. -/
def ExistsBetweenCharacters (db : DB) (character1ID character2ID : String) :
    Except String Bool :=
  let ids : String × String :=
    if character1ID > character2ID then (character2ID, character1ID)
    else (character1ID, character2ID)
  let count := (db.relationships.filter
    (fun r => r.Character1ID == ids.1 && r.Character2ID == ids.2)).length
  .ok (decide (count > 0))

end relationshipRepository

/-! ## services/character_service.go -/

namespace characterService

/-- `CreateCharacter`: the group must exist; then the character is inserted and read back. -/
def CreateCharacter (db : DB) (uuid : String) (now : Nat) (character : Character) :
    DB × Except String Character :=
  match groupRepository.ExistsByID db character.GroupID with
  | .error err => (db, .error ("failed to check group existence: " ++ err))
  | .ok found =>
    if !found then (db, .error "group not found")
    else
      match characterRepository.Create db uuid now character with
      | .error err => (db, .error ("failed to create character: " ++ err))
      | .ok (db1, character) => (db1, characterRepository.GetByID db1 character.ID)

/-- `UpdateCharacter`: the existing row is read; a changed GroupID must name an existing
group; ID and CreatedAt are taken from the existing row; then the row is saved and read
back. -/
def UpdateCharacter (db : DB) (now : Nat) (id : String) (character : Character) :
    DB × Except String Character :=
  match characterRepository.GetByID db id with
  | .error err => (db, .error ("failed to get existing character: " ++ err))
  | .ok existing =>
    let checked : Except String Unit :=
      if character.GroupID ≠ existing.GroupID then
        match groupRepository.ExistsByID db character.GroupID with
        | .error err => .error ("failed to check group existence: " ++ err)
        | .ok found => if !found then .error "group not found" else .ok ()
      else .ok ()
    match checked with
    | .error err => (db, .error err)
    | .ok () =>
      let character := { character with ID := existing.ID, CreatedAt := existing.CreatedAt }
      match characterRepository.Update db now character with
      | .error err => (db, .error ("failed to update character: " ++ err))
      | .ok (db1, _) => (db1, characterRepository.GetByID db1 id)

end characterService

/-! ## services/relationship_service.go -/

namespace relationshipService

/-- `CreateRelationship`: the self-relationship check, then both characters exist, both are
read, they are in one group, the GroupID is set from the first one, no relationship is stored
between the two; then the row is inserted and read back. -/
def CreateRelationship (db : DB) (uuid : String) (now : Nat) (relationship : Relationship) :
    DB × Except String Relationship :=
  if relationship.Character1ID = relationship.Character2ID then
    (db, .error "cannot create relationship between the same character")
  else
    let validated : Except String Relationship :=
      match characterRepository.ExistsByID db relationship.Character1ID with
      | .error err => .error ("failed to check character1 existence: " ++ err)
      | .ok exists1 =>
      if !exists1 then .error "character1 not found"
      else
      match characterRepository.ExistsByID db relationship.Character2ID with
      | .error err => .error ("failed to check character2 existence: " ++ err)
      | .ok exists2 =>
      if !exists2 then .error "character2 not found"
      else
      match characterRepository.GetByID db relationship.Character1ID with
      | .error err => .error ("failed to get character1: " ++ err)
      | .ok char1 =>
      match characterRepository.GetByID db relationship.Character2ID with
      | .error err => .error ("failed to get character2: " ++ err)
      | .ok char2 =>
      if char1.GroupID ≠ char2.GroupID then .error "characters must be in the same group"
      else
      let relationship := { relationship with GroupID := char1.GroupID }
      match relationshipRepository.ExistsBetweenCharacters db
          relationship.Character1ID relationship.Character2ID with
      | .error err => .error ("failed to check relationship existence: " ++ err)
      | .ok found =>
      if found then .error "relationship already exists between these characters"
      else .ok relationship
    match validated with
    | .error err => (db, .error err)
    | .ok relationship =>
      match relationshipRepository.Create db uuid now relationship with
      | .error err => (db, .error ("failed to create relationship: " ++ err))
      | .ok (db1, relationship) => (db1, relationshipRepository.GetByID db1 relationship.ID)

/-- `GetRelationshipsByCharacterID`. -/
def GetRelationshipsByCharacterID (db : DB) (characterID : String) :
    Except String (List Relationship) :=
  match characterRepository.ExistsByID db characterID with
  | .error err => .error ("failed to check character existence: " ++ err)
  | .ok found =>
    if !found then .error "character not found"
    else
      match relationshipRepository.GetByCharacterID db characterID with
      | .error err => .error ("failed to get relationships by character: " ++ err)
      | .ok relationships => .ok relationships

/-- `UpdateRelationship`: the existing row is read, then the self-relationship check; when
the request differs from the stored row in `Character1ID` or in `Character2ID` the checks of
`CreateRelationship` are run, otherwise the stored GroupID is kept; ID and CreatedAt are
taken from the existing row; then the row is saved and read back. -/
def UpdateRelationship (db : DB) (id : String) (relationship : Relationship) :
    DB × Except String Relationship :=
  match relationshipRepository.GetByID db id with
  | .error err => (db, .error ("relationship not found: " ++ err))
  | .ok existing =>
    if relationship.Character1ID = relationship.Character2ID then
      (db, .error "cannot create relationship between the same character")
    else
      let validated : Except String Relationship :=
        if relationship.Character1ID ≠ existing.Character1ID
            ∨ relationship.Character2ID ≠ existing.Character2ID then
          match characterRepository.ExistsByID db relationship.Character1ID with
          | .error err => .error ("failed to check character1 existence: " ++ err)
          | .ok exists1 =>
          if !exists1 then .error "character1 not found"
          else
          match characterRepository.ExistsByID db relationship.Character2ID with
          | .error err => .error ("failed to check character2 existence: " ++ err)
          | .ok exists2 =>
          if !exists2 then .error "character2 not found"
          else
          match characterRepository.GetByID db relationship.Character1ID with
          | .error err => .error ("failed to get character1: " ++ err)
          | .ok char1 =>
          match characterRepository.GetByID db relationship.Character2ID with
          | .error err => .error ("failed to get character2: " ++ err)
          | .ok char2 =>
          if char1.GroupID ≠ char2.GroupID then .error "characters must be in the same group"
          else
          let relationship := { relationship with GroupID := char1.GroupID }
          match relationshipRepository.ExistsBetweenCharacters db
              relationship.Character1ID relationship.Character2ID with
          | .error err => .error ("failed to check relationship existence: " ++ err)
          | .ok found =>
          if found then .error "relationship already exists between these characters"
          else .ok relationship
        else
          .ok { relationship with GroupID := existing.GroupID }
      match validated with
      | .error err => (db, .error err)
      | .ok relationship =>
        let relationship :=
          { relationship with ID := existing.ID, CreatedAt := existing.CreatedAt }
        match relationshipRepository.Update db relationship with
        | .error err => (db, .error ("failed to update relationship: " ++ err))
        | .ok (db1, _) => (db1, relationshipRepository.GetByID db1 id)

/-- `DeleteRelationship`. -/
def DeleteRelationship (db : DB) (id : String) : DB × Except String Unit :=
  match relationshipRepository.ExistsByID db id with
  | .error err => (db, .error ("failed to check relationship existence: " ++ err))
  | .ok found =>
    if !found then (db, .error "relationship not found")
    else
      match relationshipRepository.Delete db id with
      | .error err => (db, .error ("failed to delete relationship: " ++ err))
      | .ok db1 => (db1, .ok ())

end relationshipService

/-! ## repositories/label_repository.go -/

namespace labelRepository

/-- `GetByID`: `First(&label, "id = ?", id)`. -/
def GetByID (db : DB) (id : String) : Except String Label :=
  match db.labels.find? (fun l => l.ID == id) with
  | some label => .ok label
  | none => .error ErrRecordNotFound

/-- `GetAll`: every row. -/
def GetAll (db : DB) : Except String (List Label) :=
  .ok db.labels

/-- `Update`: `db.Save(label)`.  With a zero primary key `Save` inserts; otherwise it writes
all columns of the row with that key, inserting when there is no such row.  The column `name`
carries a unique index: a write that would give two rows one name is refused. -/
def Update (db : DB) (label : Label) : Except String (DB × Label) :=
  if db.labels.any (fun l => !(l.ID == label.ID) && l.Name == label.Name) then
    .error ErrDuplicatedKey
  else if label.ID ≠ "" ∧ db.labels.any (fun l => l.ID == label.ID) then
    .ok ({ db with labels :=
            db.labels.map (fun l => if l.ID == label.ID then label else l) },
         label)
  else if db.labels.any (fun l => l.ID == label.ID) then
    .error ErrDuplicatedKey
  else
    .ok ({ db with labels := db.labels ++ [label] }, label)

/-- `ExistsByID`: `Where("id = ?", id).Count(&count)`, then `count > 0`. -/
def ExistsByID (db : DB) (id : String) : Except String Bool :=
  let count := (db.labels.filter (fun l => l.ID == id)).length
  .ok (decide (count > 0))

/-- `ExistsByName`: `Where("name = ?", name).Count(&count)`, then `count > 0`. -/
def ExistsByName (db : DB) (name : String) : Except String Bool :=
  let count := (db.labels.filter (fun l => l.Name == name)).length
  .ok (decide (count > 0))

end labelRepository

/-! ## repositories/character_repository.go: the label association

The many-to-many association `Labels` of a character is the set of rows of the join table
`character_labels` that carry its id; each row is a pair (character id, label id), and the
pair is the key of the join table.  The labels of a character are counted as its join rows
(the join table references `labels`, so each of them names a stored label). -/

namespace characterRepository

/-- `AddLabel`: the character and the label are read (`First`), then
`Association("Labels").Append(&label)` inserts the join row of the two, doing nothing when
the row is already there.  (`Append` also touches the `updated_at` column of the character
row; that column is not followed here.) -/
def AddLabel (db : DB) (characterID labelID : String) : Except String DB :=
  match db.characters.find? (fun c => c.ID == characterID) with
  | none => .error ErrRecordNotFound
  | some character =>
    match db.labels.find? (fun l => l.ID == labelID) with
    | none => .error ErrRecordNotFound
    | some label =>
      if db.character_labels.any (fun j => j.1 == character.ID && j.2 == label.ID) then
        .ok db
      else
        .ok { db with character_labels := db.character_labels ++ [(character.ID, label.ID)] }

/-- `RemoveLabel`: the character and the label are read (`First`), then
`Association("Labels").Delete(&label)` deletes the join row of the two, if any. -/
def RemoveLabel (db : DB) (characterID labelID : String) : Except String DB :=
  match db.characters.find? (fun c => c.ID == characterID) with
  | none => .error ErrRecordNotFound
  | some character =>
    match db.labels.find? (fun l => l.ID == labelID) with
    | none => .error ErrRecordNotFound
    | some label =>
      .ok { db with character_labels :=
              db.character_labels.filter (fun j => !(j.1 == character.ID && j.2 == label.ID)) }

/-- `GetLabelsCount`: the character is read (`First`), then `Association("Labels").Count()`
counts its labels. -/
def GetLabelsCount (db : DB) (characterID : String) : Except String Nat :=
  match db.characters.find? (fun c => c.ID == characterID) with
  | none => .error ErrRecordNotFound
  | some character =>
    .ok (db.character_labels.filter (fun j => j.1 == character.ID)).length

/-- `HasLabel`: `Table("character_labels").Where("character_id = ? AND label_id = ?", ...)`,
`Count(&count)`, then `count > 0`. -/
def HasLabel (db : DB) (characterID labelID : String) : Except String Bool :=
  let count := (db.character_labels.filter
    (fun j => j.1 == characterID && j.2 == labelID)).length
  .ok (decide (count > 0))

end characterRepository

/-! ## services/character_service.go: labels of a character -/

namespace characterService

/-- `AddLabelToCharacter`: the character exists, the label exists, the character does not
have the label yet, it has fewer than 5 labels; then the association is written. -/
def AddLabelToCharacter (db : DB) (characterID labelID : String) : DB × Except String Unit :=
  match characterRepository.ExistsByID db characterID with
  | .error err => (db, .error ("failed to check character existence: " ++ err))
  | .ok found =>
  if !found then (db, .error "character not found")
  else
  match labelRepository.ExistsByID db labelID with
  | .error err => (db, .error ("failed to check label existence: " ++ err))
  | .ok found =>
  if !found then (db, .error "label not found")
  else
  match characterRepository.HasLabel db characterID labelID with
  | .error err => (db, .error ("failed to check if character has label: " ++ err))
  | .ok hasLabel =>
  if hasLabel then (db, .error "character already has this label")
  else
  match characterRepository.GetLabelsCount db characterID with
  | .error err => (db, .error ("failed to get labels count: " ++ err))
  | .ok count =>
  if count ≥ 5 then (db, .error "character cannot have more than 5 labels")
  else
  match characterRepository.AddLabel db characterID labelID with
  | .error err => (db, .error ("failed to add label to character: " ++ err))
  | .ok db1 => (db1, .ok ())

/-- `RemoveLabelFromCharacter`: the character exists, the label exists; then the association
is deleted. -/
def RemoveLabelFromCharacter (db : DB) (characterID labelID : String) :
    DB × Except String Unit :=
  match characterRepository.ExistsByID db characterID with
  | .error err => (db, .error ("failed to check character existence: " ++ err))
  | .ok found =>
  if !found then (db, .error "character not found")
  else
  match labelRepository.ExistsByID db labelID with
  | .error err => (db, .error ("failed to check label existence: " ++ err))
  | .ok found =>
  if !found then (db, .error "label not found")
  else
  match characterRepository.RemoveLabel db characterID labelID with
  | .error err => (db, .error ("failed to remove label from character: " ++ err))
  | .ok db1 => (db1, .ok ())

end characterService

/-! ## services/label_service.go -/

namespace labelService

/-- `UpdateLabel`: the existing label is read; a changed name must not be the name of a
stored label; ID and CreatedAt are taken from the existing row; then the row is saved, and the
saved record is returned. -/
def UpdateLabel (db : DB) (id : String) (label : Label) : DB × Except String Label :=
  match labelRepository.GetByID db id with
  | .error err => (db, .error ("label not found: " ++ err))
  | .ok existingLabel =>
    let checked : Except String Unit :=
      if existingLabel.Name ≠ label.Name then
        match labelRepository.ExistsByName db label.Name with
        | .error err => .error ("failed to check label name existence: " ++ err)
        | .ok found =>
          if found then .error "label with this name already exists" else .ok ()
      else .ok ()
    match checked with
    | .error err => (db, .error err)
    | .ok () =>
      let label := { label with ID := existingLabel.ID, CreatedAt := existingLabel.CreatedAt }
      match labelRepository.Update db label with
      | .error err => (db, .error ("failed to update label: " ++ err))
      | .ok (db1, label) => (db1, .ok label)

end labelService

/-! ## repositories/label_repository.go: `Create` and `Delete` -/

namespace labelRepository

/-- `Create`: a fresh UUID becomes the ID, then `db.Create(label)`; the insert fills a zero
`autoCreateTime` column and is refused when the key or the name (unique index) is already in
the table.  Returns the database and the record as the caller sees it afterwards. -/
def Create (db : DB) (uuid : String) (now : Nat) (label : Label) : Except String (DB × Label) :=
  let label := { label with ID := uuid }
  let label := { label with
    CreatedAt := if label.CreatedAt = 0 then now else label.CreatedAt }
  if db.labels.any (fun l => l.ID == label.ID) then
    .error ErrDuplicatedKey
  else if db.labels.any (fun l => l.Name == label.Name) then
    .error ErrDuplicatedKey
  else
    .ok ({ db with labels := db.labels ++ [label] }, label)

/-- `Delete`: `db.Delete(&models.Label{}, "id = ?", id)`; the rows of the join table that
name the label go with it, as the comment in `labelService.DeleteLabel` says.  (The statement
itself deletes from `labels` only; a store that enforces the foreign key of the join table
refuses it for a label that is attached, and then nothing is deleted.) -/
def Delete (db : DB) (id : String) : Except String DB :=
  .ok { db with
    labels := db.labels.filter (fun l => !(l.ID == id))
    character_labels := db.character_labels.filter (fun j => !(j.2 == id)) }

end labelRepository

/-! ## services/label_service.go: `CreateLabel` and `DeleteLabel` -/

namespace labelService

/-- `CreateLabel`: the name must not be the name of a stored label; then the label is
inserted, and the inserted record is returned. -/
def CreateLabel (db : DB) (uuid : String) (now : Nat) (label : Label) :
    DB × Except String Label :=
  match labelRepository.ExistsByName db label.Name with
  | .error err => (db, .error ("failed to check label name existence: " ++ err))
  | .ok found =>
    if found then (db, .error "label with this name already exists")
    else
      match labelRepository.Create db uuid now label with
      | .error err => (db, .error ("failed to create label: " ++ err))
      | .ok (db1, label) => (db1, .ok label)

/-- `DeleteLabel`: the label must exist; then it is deleted. -/
def DeleteLabel (db : DB) (id : String) : DB × Except String Unit :=
  match labelRepository.ExistsByID db id with
  | .error err => (db, .error ("failed to check label existence: " ++ err))
  | .ok found =>
    if !found then (db, .error "label not found")
    else
      match labelRepository.Delete db id with
      | .error err => (db, .error ("failed to delete label: " ++ err))
      | .ok db1 => (db1, .ok ())

end labelService

/-! ## repositories/group_repository.go: `Create`, `GetByID`, `Update` -/

namespace groupRepository

/-- `Create`: a fresh UUID becomes the ID, then `db.Create(group)`; the insert fills the
zero `autoCreateTime` and `autoUpdateTime` columns. -/
def Create (db : DB) (uuid : String) (now : Nat) (group : Group) : Except String (DB × Group) :=
  let group := { group with ID := uuid }
  let group := { group with
    CreatedAt := if group.CreatedAt = 0 then now else group.CreatedAt
    UpdatedAt := if group.UpdatedAt = 0 then now else group.UpdatedAt }
  if db.groups.any (fun g => g.ID == group.ID) then
    .error ErrDuplicatedKey
  else
    .ok ({ db with groups := db.groups ++ [group] }, group)

/-- `GetByID`: `First(&group, "id = ?", id)`. -/
def GetByID (db : DB) (id : String) : Except String Group :=
  match db.groups.find? (fun g => g.ID == id) with
  | some group => .ok group
  | none => .error ErrRecordNotFound

/-- `Update`: `db.Save(group)`.  With a zero primary key `Save` inserts; otherwise it writes
all columns of the row with that key (and `autoUpdateTime`), inserting when there is no such
row. -/
def Update (db : DB) (now : Nat) (group : Group) : Except String (DB × Group) :=
  let group := { group with UpdatedAt := now }
  if group.ID ≠ "" ∧ db.groups.any (fun g => g.ID == group.ID) then
    .ok ({ db with groups :=
            db.groups.map (fun g => if g.ID == group.ID then group else g) },
         group)
  else if db.groups.any (fun g => g.ID == group.ID) then
    .error ErrDuplicatedKey
  else
    .ok ({ db with groups := db.groups ++ [group] }, group)

end groupRepository

/-! ## services/group_service.go -/

/-- `CreateGroupRequest`: `Name` is tagged `validate:"required,max=255"`. -/
structure CreateGroupRequest where
  Name : String
  Description : Option String
  deriving DecidableEq, Repr

/-- `UpdateGroupRequest`: both fields are pointers; `Name` is tagged
`validate:"omitempty,max=255"`. -/
structure UpdateGroupRequest where
  Name : Option String
  Description : Option String
  deriving DecidableEq, Repr

/-- The message of a `validator.ValidationErrors` with one field error. -/
def fieldError (namespaceKey field tag : String) : String :=
  "Key: \x27" ++ namespaceKey ++ "\x27 Error:Field validation for \x27" ++ field
    ++ "\x27 failed on the \x27" ++ tag ++ "\x27 tag"

namespace groupService

/-- `s.validator.Struct(req)` for a `CreateGroupRequest`: `required` refuses the empty
string, `max=255` a string of more than 255 characters. -/
def validateCreateGroupRequest (req : CreateGroupRequest) : Except String Unit :=
  if req.Name = "" then .error (fieldError "CreateGroupRequest.Name" "Name" "required")
  else if req.Name.length > 255 then
    .error (fieldError "CreateGroupRequest.Name" "Name" "max")
  else .ok ()

/-- `s.validator.Struct(req)` for an `UpdateGroupRequest`: a nil `Name` is not validated
(`omitempty`); a `Name` that is set is held against `max=255` only. -/
def validateUpdateGroupRequest (req : UpdateGroupRequest) : Except String Unit :=
  match req.Name with
  | none => .ok ()
  | some name =>
    if name.length > 255 then .error (fieldError "UpdateGroupRequest.Name" "Name" "max")
    else .ok ()

/-- `CreateGroup`: the request is validated, then the group with its name and description is
inserted and returned. -/
def CreateGroup (db : DB) (uuid : String) (now : Nat) (req : CreateGroupRequest) :
    DB × Except String Group :=
  match validateCreateGroupRequest req with
  | .error err => (db, .error err)
  | .ok () =>
    let group : Group :=
      { ID := "", Name := req.Name, Description := req.Description,
        CreatedAt := 0, UpdatedAt := 0 }
    match groupRepository.Create db uuid now group with
    | .error err => (db, .error ("failed to create group: " ++ err))
    | .ok (db1, group) => (db1, .ok group)

/-- `UpdateGroup`: the id must not be empty; the request is validated; the existing group is
read; the fields that the request sets are overwritten; then the group is saved and
returned. -/
def UpdateGroup (db : DB) (now : Nat) (id : String) (req : UpdateGroupRequest) :
    DB × Except String Group :=
  if id = "" then (db, .error "group ID is required")
  else
    match validateUpdateGroupRequest req with
    | .error err => (db, .error err)
    | .ok () =>
      match groupRepository.GetByID db id with
      | .error err => (db, .error ("failed to get group: " ++ err))
      | .ok group =>
        let group :=
          match req.Name with
          | some name => { group with Name := name }
          | none => group
        let group :=
          match req.Description with
          | some description => { group with Description := some description }
          | none => group
        match groupRepository.Update db now group with
        | .error err => (db, .error ("failed to update group: " ++ err))
        | .ok (db1, group) => (db1, .ok group)

end groupService

/-! ## services/image_service.go

The image service works on the file system, the clock and the image codecs.  Of the file
system only the set of file paths is kept; what the environment answers to one call of
`SaveImage` is an input (`ImageEnv`).  `unicode.ToLower` and `filepath.Join` of the standard
library are parameters (`toLower`, `join`); `filepath.Ext` is written out. -/

/-- What the environment answers during one `SaveImage`: the error of `os.MkdirAll`, of
`os.Create` and of the encoder, if any; the format name that `image.Decode` finds, or its
error; `time.Now().Unix()`; the string of `uuid.New()`. -/
structure ImageEnv where
  mkdirAll : Option String
  decode : Except String String
  create : Option String
  encode : Option String
  unix : Nat
  uuid : String

namespace imageService

/-- The loop of `filepath.Ext`, on the characters of the path from the last one backwards:
`acc` holds the characters already passed. -/
def extFrom : List Char → List Char → String
  | [], _ => ""
  | c :: rest, acc =>
    if c = '/' then ""
    else if c = '.' then String.mk ('.' :: acc)
    else extFrom rest (c :: acc)

/-- `filepath.Ext`: the suffix of the path beginning at the last dot of its last element;
empty when that element has no dot. -/
def Ext (path : String) : String :=
  extFrom path.data.reverse []

/-- `strings.ToLower`, given `unicode.ToLower`. -/
def ToLower (toLower : Char → Char) (s : String) : String :=
  String.mk (s.data.map toLower)

/-- The slice `allowedExts` of `ValidateImageFile`. -/
def allowedExts : List String := [".jpg", ".jpeg", ".png", ".gif", ".webp"]

/-- The loop of `ValidateImageFile` over the allowed extensions. -/
def matchesAllowed (ext : String) : List String → Bool
  | [] => false
  | allowedExt :: rest => if ext = allowedExt then true else matchesAllowed ext rest

/-- `ValidateImageFile`. -/
def ValidateImageFile (toLower : Char → Char) (filename : String) : Except String Unit :=
  if filename = "" then .error "filename is required"
  else
    let ext := ToLower toLower (Ext filename)
    if matchesAllowed ext allowedExts then .ok ()
    else
      .error ("unsupported file format: " ++ ext
        ++ ". Allowed formats: [.jpg .jpeg .png .gif .webp]")

/-- `getExtensionFromFormat`. -/
def getExtensionFromFormat (format : String) : String :=
  if format = "jpeg" then ".jpg"
  else if format = "png" then ".png"
  else if format = "gif" then ".gif"
  else ".jpg"

/-- `SaveImage` of a service constructed with `uploadDir`, on the file paths `files`: the
file name is validated, the directory made, the image decoded (and resized, which the file
paths do not show), a file `<unix>_<first 8 of uuid><ext>` created in the upload directory
and encoded into (and removed again when the encoder fails); the path returned is
`/uploads/` followed by the file name.  Returns the file paths afterwards and the result. -/
def SaveImage (toLower : Char → Char) (join : String → String → String) (uploadDir : String)
    (files : List String) (env : ImageEnv) (filename : String) :
    List String × Except String String :=
  match ValidateImageFile toLower filename with
  | .error err => (files, .error err)
  | .ok () =>
    match env.mkdirAll with
    | some err => (files, .error ("failed to create upload directory: " ++ err))
    | none =>
      match env.decode with
      | .error err => (files, .error ("failed to decode image: " ++ err))
      | .ok format =>
        let ext := getExtensionFromFormat format
        let uniqueFilename := toString env.unix ++ "_" ++ env.uuid.take 8 ++ ext
        let filePath := join uploadDir uniqueFilename
        match env.create with
        | some err => (files, .error ("failed to create file: " ++ err))
        | none =>
          let files1 := if filePath ∈ files then files else files ++ [filePath]
          match env.encode with
          | some err =>
            (files1.filter (fun f => !(f == filePath)),
             .error ("failed to encode image: " ++ err))
          | none =>
            let relativePath := "/uploads/" ++ uniqueFilename
            (files1, .ok relativePath)

end imageService

/-! ## The services on a store whose calls can fail

Every repository call is a statement sent to the database and can fail there (a lost
connection, a timeout).  The functions of this section are the service functions above with
that possibility written out: `faults n` is the error with which the repository call number
`n` of the function fails, if it fails, the calls being numbered from 0 in the order in which
they stand in the source of the function.  A failed call changes nothing in the store.  With
no fault at all the functions are the ones above. -/

/-- The result of repository call number `n` on a store with the given faults. -/
def attempt {α : Type} (faults : Nat → Option String) (n : Nat) (call : Except String α) :
    Except String α :=
  match faults n with
  | some err => .error err
  | none => call

namespace faultyStore

/-- The block of checks of `CreateRelationship` and of the changed-pair branch of
`UpdateRelationship`; its five repository calls have the numbers `k` to `k + 4`. -/
def validatePair (faults : Nat → Option String) (k : Nat) (db : DB)
    (relationship : Relationship) : Except String Relationship :=
  match attempt faults k (characterRepository.ExistsByID db relationship.Character1ID) with
  | .error err => .error ("failed to check character1 existence: " ++ err)
  | .ok exists1 =>
  if !exists1 then .error "character1 not found"
  else
  match attempt faults (k + 1)
      (characterRepository.ExistsByID db relationship.Character2ID) with
  | .error err => .error ("failed to check character2 existence: " ++ err)
  | .ok exists2 =>
  if !exists2 then .error "character2 not found"
  else
  match attempt faults (k + 2)
      (characterRepository.GetByID db relationship.Character1ID) with
  | .error err => .error ("failed to get character1: " ++ err)
  | .ok char1 =>
  match attempt faults (k + 3)
      (characterRepository.GetByID db relationship.Character2ID) with
  | .error err => .error ("failed to get character2: " ++ err)
  | .ok char2 =>
  if char1.GroupID ≠ char2.GroupID then .error "characters must be in the same group"
  else
  let relationship := { relationship with GroupID := char1.GroupID }
  match attempt faults (k + 4) (relationshipRepository.ExistsBetweenCharacters db
      relationship.Character1ID relationship.Character2ID) with
  | .error err => .error ("failed to check relationship existence: " ++ err)
  | .ok found =>
  if found then .error "relationship already exists between these characters"
  else .ok relationship

/-- `relationshipService.CreateRelationship`: calls 0 to 4 are the checks, call 5 is the
insert, call 6 the read of the inserted row, whose result is returned as it is. -/
def CreateRelationship (faults : Nat → Option String) (db : DB) (uuid : String) (now : Nat)
    (relationship : Relationship) : DB × Except String Relationship :=
  if relationship.Character1ID = relationship.Character2ID then
    (db, .error "cannot create relationship between the same character")
  else
    match validatePair faults 0 db relationship with
    | .error err => (db, .error err)
    | .ok relationship =>
      match attempt faults 5 (relationshipRepository.Create db uuid now relationship) with
      | .error err => (db, .error ("failed to create relationship: " ++ err))
      | .ok (db1, relationship) =>
        (db1, attempt faults 6 (relationshipRepository.GetByID db1 relationship.ID))

/-- `relationshipService.UpdateRelationship`: call 0 reads the existing row, calls 1 to 5
are the checks of a changed pair, call 6 is the save, call 7 the read of the saved row,
whose result is returned as it is. -/
def UpdateRelationship (faults : Nat → Option String) (db : DB) (id : String)
    (relationship : Relationship) : DB × Except String Relationship :=
  match attempt faults 0 (relationshipRepository.GetByID db id) with
  | .error err => (db, .error ("relationship not found: " ++ err))
  | .ok existing =>
    if relationship.Character1ID = relationship.Character2ID then
      (db, .error "cannot create relationship between the same character")
    else
      let validated : Except String Relationship :=
        if relationship.Character1ID ≠ existing.Character1ID
            ∨ relationship.Character2ID ≠ existing.Character2ID then
          validatePair faults 1 db relationship
        else
          .ok { relationship with GroupID := existing.GroupID }
      match validated with
      | .error err => (db, .error err)
      | .ok relationship =>
        let relationship :=
          { relationship with ID := existing.ID, CreatedAt := existing.CreatedAt }
        match attempt faults 6 (relationshipRepository.Update db relationship) with
        | .error err => (db, .error ("failed to update relationship: " ++ err))
        | .ok (db1, _) => (db1, attempt faults 7 (relationshipRepository.GetByID db1 id))

/-- `relationshipService.DeleteRelationship`: call 0 is the check, call 1 the delete. -/
def DeleteRelationship (faults : Nat → Option String) (db : DB) (id : String) :
    DB × Except String Unit :=
  match attempt faults 0 (relationshipRepository.ExistsByID db id) with
  | .error err => (db, .error ("failed to check relationship existence: " ++ err))
  | .ok found =>
    if !found then (db, .error "relationship not found")
    else
      match attempt faults 1 (relationshipRepository.Delete db id) with
      | .error err => (db, .error ("failed to delete relationship: " ++ err))
      | .ok db1 => (db1, .ok ())

/-- `characterService.AddLabelToCharacter`: calls 0 to 3 are the checks, call 4 writes the
association. -/
def AddLabelToCharacter (faults : Nat → Option String) (db : DB)
    (characterID labelID : String) : DB × Except String Unit :=
  match attempt faults 0 (characterRepository.ExistsByID db characterID) with
  | .error err => (db, .error ("failed to check character existence: " ++ err))
  | .ok found =>
  if !found then (db, .error "character not found")
  else
  match attempt faults 1 (labelRepository.ExistsByID db labelID) with
  | .error err => (db, .error ("failed to check label existence: " ++ err))
  | .ok found =>
  if !found then (db, .error "label not found")
  else
  match attempt faults 2 (characterRepository.HasLabel db characterID labelID) with
  | .error err => (db, .error ("failed to check if character has label: " ++ err))
  | .ok hasLabel =>
  if hasLabel then (db, .error "character already has this label")
  else
  match attempt faults 3 (characterRepository.GetLabelsCount db characterID) with
  | .error err => (db, .error ("failed to get labels count: " ++ err))
  | .ok count =>
  if count ≥ 5 then (db, .error "character cannot have more than 5 labels")
  else
  match attempt faults 4 (characterRepository.AddLabel db characterID labelID) with
  | .error err => (db, .error ("failed to add label to character: " ++ err))
  | .ok db1 => (db1, .ok ())

/-- `characterService.RemoveLabelFromCharacter`: calls 0 and 1 are the checks, call 2
deletes the association. -/
def RemoveLabelFromCharacter (faults : Nat → Option String) (db : DB)
    (characterID labelID : String) : DB × Except String Unit :=
  match attempt faults 0 (characterRepository.ExistsByID db characterID) with
  | .error err => (db, .error ("failed to check character existence: " ++ err))
  | .ok found =>
  if !found then (db, .error "character not found")
  else
  match attempt faults 1 (labelRepository.ExistsByID db labelID) with
  | .error err => (db, .error ("failed to check label existence: " ++ err))
  | .ok found =>
  if !found then (db, .error "label not found")
  else
  match attempt faults 2 (characterRepository.RemoveLabel db characterID labelID) with
  | .error err => (db, .error ("failed to remove label from character: " ++ err))
  | .ok db1 => (db1, .ok ())

/-- `labelService.CreateLabel`: call 0 is the check of the name, call 1 the insert. -/
def CreateLabel (faults : Nat → Option String) (db : DB) (uuid : String) (now : Nat)
    (label : Label) : DB × Except String Label :=
  match attempt faults 0 (labelRepository.ExistsByName db label.Name) with
  | .error err => (db, .error ("failed to check label name existence: " ++ err))
  | .ok found =>
    if found then (db, .error "label with this name already exists")
    else
      match attempt faults 1 (labelRepository.Create db uuid now label) with
      | .error err => (db, .error ("failed to create label: " ++ err))
      | .ok (db1, label) => (db1, .ok label)

/-- `labelService.UpdateLabel`: call 0 reads the existing label, call 1 is the check of a
changed name, call 2 the save. -/
def UpdateLabel (faults : Nat → Option String) (db : DB) (id : String) (label : Label) :
    DB × Except String Label :=
  match attempt faults 0 (labelRepository.GetByID db id) with
  | .error err => (db, .error ("label not found: " ++ err))
  | .ok existingLabel =>
    let checked : Except String Unit :=
      if existingLabel.Name ≠ label.Name then
        match attempt faults 1 (labelRepository.ExistsByName db label.Name) with
        | .error err => .error ("failed to check label name existence: " ++ err)
        | .ok found =>
          if found then .error "label with this name already exists" else .ok ()
      else .ok ()
    match checked with
    | .error err => (db, .error err)
    | .ok () =>
      let label := { label with ID := existingLabel.ID, CreatedAt := existingLabel.CreatedAt }
      match attempt faults 2 (labelRepository.Update db label) with
      | .error err => (db, .error ("failed to update label: " ++ err))
      | .ok (db1, label) => (db1, .ok label)

end faultyStore

/-! ## Sequences of service calls -/

/-- One call of a mutating service operation, with its arguments. -/
inductive Op where
  | createCharacter (uuid : String) (now : Nat) (character : Character)
  | updateCharacter (now : Nat) (id : String) (character : Character)
  | createRelationship (uuid : String) (now : Nat) (relationship : Relationship)
  | updateRelationship (id : String) (relationship : Relationship)
  | deleteRelationship (id : String)
  deriving DecidableEq, Repr

/-- The database after one call, whether the call succeeded or failed. -/
def step (db : DB) : Op → DB
  | .createCharacter uuid now character =>
    (characterService.CreateCharacter db uuid now character).1
  | .updateCharacter now id character =>
    (characterService.UpdateCharacter db now id character).1
  | .createRelationship uuid now relationship =>
    (relationshipService.CreateRelationship db uuid now relationship).1
  | .updateRelationship id relationship =>
    (relationshipService.UpdateRelationship db id relationship).1
  | .deleteRelationship id =>
    (relationshipService.DeleteRelationship db id).1

/-- The database after a sequence of calls. -/
def run (db : DB) (ops : List Op) : DB :=
  ops.foldl step db

/-! ## Properties of a database state -/

/-- Does the stored relationship `r` link the characters `a` and `b`, in either position? -/
def linksPair (a b : String) (r : Relationship) : Bool :=
  (r.Character1ID == a && r.Character2ID == b) || (r.Character1ID == b && r.Character2ID == a)

/-- Same-group property of one stored relationship: its two characters are stored, they
have one GroupID, and it is the GroupID of the relationship. -/
def sameGroup (db : DB) (r : Relationship) : Prop :=
  ∃ c1 c2, characterRepository.GetByID db r.Character1ID = .ok c1
    ∧ characterRepository.GetByID db r.Character2ID = .ok c2
    ∧ c1.GroupID = c2.GroupID ∧ r.GroupID = c1.GroupID

/-- Two stored relationships are distinct rows for distinct pairs: their keys differ, and
they do not hold the same ordered pair of character ids. -/
def distinctRows (r r' : Relationship) : Prop :=
  r.ID ≠ r'.ID ∧ ¬ (r.Character1ID = r'.Character1ID ∧ r.Character2ID = r'.Character2ID)

/-- Well-formed relationship table: every row is stored in strict order, and the rows are
pairwise `distinctRows`. -/
def RelationshipsWF (rels : List Relationship) : Prop :=
  (∀ r ∈ rels, r.Character1ID < r.Character2ID) ∧ rels.Pairwise distinctRows

/-- Same-group property of the whole table. -/
def SameGroupInv (db : DB) : Prop :=
  ∀ r ∈ db.relationships, sameGroup db r

/-- A call that leaves in its group every character that a stored relationship references:
all calls but an `UpdateCharacter` of a character that some stored relationship names, after
which that character is stored with another GroupID than before. -/
def keepsGroup (db : DB) : Op → Prop
  | .updateCharacter now id character =>
    (∃ r ∈ db.relationships, r.Character1ID = id ∨ r.Character2ID = id) →
    ∀ existing updated, characterRepository.GetByID db id = .ok existing →
      characterRepository.GetByID (characterService.UpdateCharacter db now id character).1 id
        = .ok updated →
      updated.GroupID = existing.GroupID
  | _ => True

/-- Every call of the sequence, at the state it is made in, leaves in its group every
character that a stored relationship references. -/
def groupsKept : DB → List Op → Prop
  | _, [] => True
  | db, op :: ops => keepsGroup db op ∧ groupsKept (step db op) ops

/-- The block of checks that `relationshipService.CreateRelationship` and the changed-pair
branch of `relationshipService.UpdateRelationship` both contain, verbatim, named here so that
it can be reasoned about once (`CreateRelationship_eq`, `UpdateRelationship_eq` show that the
two functions are this block in their context).  Returns the request with its GroupID set. -/
def validatePair (db : DB) (relationship : Relationship) : Except String Relationship :=
  match characterRepository.ExistsByID db relationship.Character1ID with
  | .error err => .error ("failed to check character1 existence: " ++ err)
  | .ok exists1 =>
  if !exists1 then .error "character1 not found"
  else
  match characterRepository.ExistsByID db relationship.Character2ID with
  | .error err => .error ("failed to check character2 existence: " ++ err)
  | .ok exists2 =>
  if !exists2 then .error "character2 not found"
  else
  match characterRepository.GetByID db relationship.Character1ID with
  | .error err => .error ("failed to get character1: " ++ err)
  | .ok char1 =>
  match characterRepository.GetByID db relationship.Character2ID with
  | .error err => .error ("failed to get character2: " ++ err)
  | .ok char2 =>
  if char1.GroupID ≠ char2.GroupID then .error "characters must be in the same group"
  else
  let relationship := { relationship with GroupID := char1.GroupID }
  match relationshipRepository.ExistsBetweenCharacters db
      relationship.Character1ID relationship.Character2ID with
  | .error err => .error ("failed to check relationship existence: " ++ err)
  | .ok found =>
  if found then .error "relationship already exists between these characters"
  else .ok relationship

/-! ## Sequences of label calls -/

/-- One call of `AddLabelToCharacter` or `RemoveLabelFromCharacter`, with its arguments. -/
inductive LabelOp where
  | addLabel (characterID labelID : String)
  | removeLabel (characterID labelID : String)
  deriving DecidableEq, Repr

/-- The database after one label call, whether the call succeeded or failed. -/
def labelStep (db : DB) : LabelOp → DB
  | .addLabel characterID labelID =>
    (characterService.AddLabelToCharacter db characterID labelID).1
  | .removeLabel characterID labelID =>
    (characterService.RemoveLabelFromCharacter db characterID labelID).1

/-- The database after a sequence of label calls. -/
def labelRun (db : DB) (ops : List LabelOp) : DB :=
  ops.foldl labelStep db

/-- The labels attached to a character: the label ids of its join rows, in table order. -/
def labelsOf (db : DB) (characterID : String) : List String :=
  (db.character_labels.filter (fun j => j.1 == characterID)).map (fun j => j.2)

/-- Label cardinality property of a state: every character id has at most 5 attached labels,
and none of them twice. -/
def LabelsBounded (db : DB) : Prop :=
  ∀ characterID : String,
    (labelsOf db characterID).length ≤ 5 ∧ (labelsOf db characterID).Nodup

/-- Group reference property of a state: the GroupID of every stored character is the id of
a stored group. -/
def GroupRefs (db : DB) : Prop :=
  ∀ c ∈ db.characters, ∃ g ∈ db.groups, g.ID = c.GroupID

/-- One call of `CreateLabel`, `UpdateLabel` or `DeleteLabel`, with its arguments. -/
inductive LabelCall where
  | createLabel (uuid : String) (now : Nat) (label : Label)
  | updateLabel (id : String) (label : Label)
  | deleteLabel (id : String)
  deriving DecidableEq, Repr

/-- The database after one call of the label service, whether it succeeded or failed. -/
def labelCallStep (db : DB) : LabelCall → DB
  | .createLabel uuid now label => (labelService.CreateLabel db uuid now label).1
  | .updateLabel id label => (labelService.UpdateLabel db id label).1
  | .deleteLabel id => (labelService.DeleteLabel db id).1

/-- The database after a sequence of calls of the label service. -/
def labelCallRun (db : DB) (calls : List LabelCall) : DB :=
  calls.foldl labelCallStep db

/-- Two label rows with different keys and different names. -/
def distinctLabels (l l' : Label) : Prop :=
  l.ID ≠ l'.ID ∧ l.Name ≠ l'.Name

/-- Well-formed label table: the rows have pairwise different keys and different names. -/
def LabelsWF (labels : List Label) : Prop :=
  labels.Pairwise distinctLabels

/-! ## Sample data -/

/-- A character row with the given id and group. -/
def sampleCharacter (id groupID : String) : Character :=
  { ID := id, GroupID := groupID, Name := id, Photo := none, Information := "",
    RelatedLinks := "[]", CreatedAt := 1, UpdatedAt := 1 }

/-- A request for a relationship between `a` and `b`, as a caller may send it: no id, a
GroupID that is not the group of the characters. -/
def sampleRequest (a b : String) : Relationship :=
  { ID := "", GroupID := "spurious", Character1ID := a, Character2ID := b,
    RelationshipType := "friend", Description := none, CreatedAt := 0 }

/-- A group row with the given id. -/
def sampleGroup (id : String) : Group :=
  { ID := id, Name := id, Description := none, CreatedAt := 1, UpdatedAt := 1 }

/-- Two groups; the characters `a`, `b` and `d` in `g1` and `c` in `g2`; no relationship. -/
def sampleDB : DB :=
  { groups := [sampleGroup "g1", sampleGroup "g2"], labels := [],
    characters := [sampleCharacter "a" "g1", sampleCharacter "b" "g1",
      sampleCharacter "c" "g2", sampleCharacter "d" "g1"],
    character_labels := [], relationships := [] }

/-- The row stored by `CreateRelationship sampleDB "r1" 5` for the characters `a`, `b`. -/
def sampleRow : Relationship :=
  { ID := "r1", GroupID := "g1", Character1ID := "a", Character2ID := "b",
    RelationshipType := "friend", Description := none, CreatedAt := 5 }

/-- The sample database with the relationship `sampleRow` stored. -/
def sampleDB1 : DB := { sampleDB with relationships := [sampleRow] }

/-- An update request that moves the relationship to the characters `d` and `a`, with an id,
a GroupID and a creation time of its own. -/
def sampleMoveRequest : Relationship :=
  { ID := "other", GroupID := "spurious", Character1ID := "d", Character2ID := "a",
    RelationshipType := "rival", Description := some "since school", CreatedAt := 99 }

/-- The row that `UpdateRelationship sampleDB1 "r1" sampleMoveRequest` writes. -/
def sampleRowMoved : Relationship :=
  { ID := "r1", GroupID := "g1", Character1ID := "a", Character2ID := "d",
    RelationshipType := "rival", Description := some "since school", CreatedAt := 5 }

/-- The sample database after that update. -/
def sampleDB2 : DB := { sampleDB with relationships := [sampleRowMoved] }

/-- The row stored by `CreateRelationship sampleDB2 "r2" 6` for the characters `b`, `a`. -/
def sampleRowAgain : Relationship :=
  { ID := "r2", GroupID := "g1", Character1ID := "a", Character2ID := "b",
    RelationshipType := "friend", Description := none, CreatedAt := 6 }

/-- The sample database with the moved relationship `r1` (between `a` and `d`) and the
relationship `r2` (between `a` and `b`) stored. -/
def sampleDB5 : DB := { sampleDB with relationships := [sampleRowMoved, sampleRowAgain] }

/-- An update request that keeps the stored pair `a`, `b` and changes the type, with an id,
a GroupID and a creation time of its own. -/
def sampleKeepRequest : Relationship :=
  { ID := "other", GroupID := "spurious", Character1ID := "a", Character2ID := "b",
    RelationshipType := "rival", Description := none, CreatedAt := 99 }

/-- The row that `UpdateRelationship sampleDB1 "r1" sampleKeepRequest` writes. -/
def sampleRowKept : Relationship :=
  { ID := "r1", GroupID := "g1", Character1ID := "a", Character2ID := "b",
    RelationshipType := "rival", Description := none, CreatedAt := 5 }

/-- The sample database after that update. -/
def sampleDB3 : DB := { sampleDB with relationships := [sampleRowKept] }

/-- The request the update handler builds for the body
`{"character1Id": "b", "character2Id": "a", "relationshipType": "rival"}`: the stored pair of
`sampleRow`, named in the other order. -/
def sampleReversedRequest : Relationship :=
  { ID := "", GroupID := "", Character1ID := "b", Character2ID := "a",
    RelationshipType := "rival", Description := none, CreatedAt := 0 }

/-- A database with two groups and nothing else. -/
def sampleGroupsDB : DB :=
  { groups := [sampleGroup "g1", sampleGroup "g2"], labels := [], characters := [],
    character_labels := [], relationships := [] }

/-- Four calls: create the characters `a` and `b` in group `g1`, relate them, then move `a`
to group `g2` by `UpdateCharacter`. -/
def sampleRegroupOps : List Op :=
  [ .createCharacter "a" 1 (sampleCharacter "" "g1"),
    .createCharacter "b" 1 (sampleCharacter "" "g1"),
    .createRelationship "r1" 5 (sampleRequest "a" "b"),
    .updateCharacter 7 "a" (sampleCharacter "a" "g2") ]

/-- The database after `sampleRegroupOps`. -/
def sampleRegroupedDB : DB :=
  { groups := [sampleGroup "g1", sampleGroup "g2"], labels := [],
    characters := [{ sampleCharacter "a" "g2" with UpdatedAt := 7 },
                   { sampleCharacter "b" "g1" with Name := "" }],
    character_labels := [], relationships := [sampleRow] }

/-- Six calls: create the characters `a` and `b` in group `g1`, move `a` and then `b` to
group `g2` by `UpdateCharacter` while no relationship names them, relate them, then rename
`a` and leave it in its group. -/
def sampleMoveThenRelateOps : List Op :=
  [ .createCharacter "a" 1 (sampleCharacter "" "g1"),
    .createCharacter "b" 1 (sampleCharacter "" "g1"),
    .updateCharacter 3 "a" (sampleCharacter "a" "g2"),
    .updateCharacter 4 "b" (sampleCharacter "b" "g2"),
    .createRelationship "r1" 5 (sampleRequest "a" "b"),
    .updateCharacter 7 "a" (sampleCharacter "renamed" "g2") ]

/-- The database after `sampleMoveThenRelateOps`. -/
def sampleMovedDB : DB :=
  { groups := [sampleGroup "g1", sampleGroup "g2"], labels := [],
    characters := [{ sampleCharacter "a" "g2" with Name := "renamed", UpdatedAt := 7 },
                   { sampleCharacter "b" "g2" with UpdatedAt := 4 }],
    character_labels := [],
    relationships := [{ sampleRow with GroupID := "g2" }] }

/-- A second relationship row, between the characters `a` and `d`. -/
def sampleRow2 : Relationship :=
  { ID := "r2", GroupID := "g1", Character1ID := "a", Character2ID := "d",
    RelationshipType := "friend", Description := none, CreatedAt := 6 }

/-- The sample database with the relationships `r1` (between `a` and `b`) and `r2` (between
`a` and `d`) stored. -/
def sampleDB4 : DB := { sampleDB with relationships := [sampleRow, sampleRow2] }

/-- A label row with the given id (and name). -/
def sampleLabel (id : String) : Label :=
  { ID := id, Name := id, Color := "#336699", CreatedAt := 1 }

/-- Six labels `L1` .. `L6`; the character `x` carries `L1` .. `L5`, the character `y`
carries `L1` .. `L4`, the character `z` carries none. -/
def sampleLabelsDB : DB :=
  { groups := [sampleGroup "g1"],
    labels := [sampleLabel "L1", sampleLabel "L2", sampleLabel "L3", sampleLabel "L4",
      sampleLabel "L5", sampleLabel "L6"],
    characters := [sampleCharacter "x" "g1", sampleCharacter "y" "g1",
      sampleCharacter "z" "g1"],
    character_labels := [("x", "L1"), ("x", "L2"), ("x", "L3"), ("x", "L4"), ("x", "L5"),
      ("y", "L1"), ("y", "L2"), ("y", "L3"), ("y", "L4")],
    relationships := [] }

/-- The sample label database after `L5` is attached to `y`. -/
def sampleLabelsDB1 : DB :=
  { sampleLabelsDB with
    character_labels := sampleLabelsDB.character_labels ++ [("y", "L5")] }

/-- An update request for a label, with an id and a creation time of its own. -/
def sampleLabelRequest : Label :=
  { ID := "other", Name := "renamed", Color := "#000000", CreatedAt := 99 }

/-- The label row that `UpdateLabel sampleLabelsDB "L1" sampleLabelRequest` writes. -/
def sampleLabelUpdated : Label :=
  { ID := "L1", Name := "renamed", Color := "#000000", CreatedAt := 1 }

/-- An update request for a character, with an id and a creation time of its own. -/
def sampleCharacterRequest : Character :=
  { ID := "other", GroupID := "g1", Name := "renamed", Photo := none, Information := "",
    RelatedLinks := "[]", CreatedAt := 99, UpdatedAt := 99 }

/-- The character row that `UpdateCharacter sampleLabelsDB 7 "x" sampleCharacterRequest`
writes. -/
def sampleCharacterUpdated : Character :=
  { ID := "x", GroupID := "g1", Name := "renamed", Photo := none, Information := "",
    RelatedLinks := "[]", CreatedAt := 1, UpdatedAt := 7 }

/-- Label calls on the sample label database: attach `L5` to `y`, try to attach `L6` to `y`
and to `x`, detach `L1` from `x`, attach `L6` to `x`, attach `L6` to `x` again. -/
def sampleLabelOps : List LabelOp :=
  [ .addLabel "y" "L5", .addLabel "y" "L6", .addLabel "x" "L6", .removeLabel "x" "L1",
    .addLabel "x" "L6", .addLabel "x" "L6" ]

/-- An update request for a group whose `Name` points to the empty string. -/
def sampleEmptyNameRequest : UpdateGroupRequest :=
  { Name := some "", Description := none }

/-- The group row that `UpdateGroup sampleDB 7 "g1" sampleEmptyNameRequest` writes. -/
def sampleGroupUnnamed : Group :=
  { ID := "g1", Name := "", Description := none, CreatedAt := 1, UpdatedAt := 7 }

/-- An update request for a group that sets the name and leaves the description alone. -/
def sampleGroupRequest : UpdateGroupRequest :=
  { Name := some "renamed", Description := none }

/-- A database whose group `g1` has a description. -/
def sampleDescribedDB : DB :=
  { sampleDB with
    groups := [{ sampleGroup "g1" with Description := some "first" }, sampleGroup "g2"] }

/-- A request for a relationship between `a` and `b` with an empty relationship type. -/
def sampleUntypedRequest : Relationship :=
  { sampleRequest "a" "b" with RelationshipType := "" }

/-- The row stored by `CreateRelationship sampleDB "r1" 5 sampleUntypedRequest`. -/
def sampleRowUntyped : Relationship :=
  { sampleRow with RelationshipType := "" }

/-- An update request that keeps the stored pair `a`, `b` and sets an empty relationship
type. -/
def sampleUntypedUpdate : Relationship :=
  { sampleKeepRequest with RelationshipType := "" }

/-- An instance of `filepath.Join` for a clean directory and a file name. -/
def sampleJoin (dir name : String) : String :=
  dir ++ "/" ++ name

/-- An environment in which every step of `SaveImage` succeeds on a JPEG input. -/
def sampleImageEnv : ImageEnv :=
  { mkdirAll := none, decode := .ok "jpeg", create := none, encode := none, unix := 5,
    uuid := "0a1b2c3d-0000-4000-8000-000000000000" }

/-- A store on which repository call number `k` of an operation fails with
"connection lost" and every other call is answered. -/
def sampleFaultAt (k : Nat) : Nat → Option String :=
  fun n => if n = k then some "connection lost" else none

/-! ## Lemmas on the repositories -/

open relationshipService

theorem count_pos_iff {α : Type} (p : α → Bool) (l : List α) :
    decide ((l.filter p).length > 0) = l.any p := by
  induction l with
  | nil => simp
  | cons x xs ih =>
    by_cases hx : p x = true
    · simp [List.filter_cons, hx]
    · simp only [Bool.not_eq_true] at hx
      simp [List.filter_cons, hx, ih]

theorem characterRepository_ExistsByID_eq (db : DB) (id : String) :
    characterRepository.ExistsByID db id
      = .ok (db.characters.find? (fun c => c.ID == id)).isSome := by
  have h := count_pos_iff (fun c : Character => c.ID == id) db.characters
  simp only [characterRepository.ExistsByID, h]
  congr 1
  rw [Bool.eq_iff_iff]
  simp

theorem relationshipRepository_ExistsBetweenCharacters_eq (db : DB) (a b : String) :
    relationshipRepository.ExistsBetweenCharacters db a b
      = .ok (db.relationships.any
          (fun r => r.Character1ID == min a b && r.Character2ID == max a b)) := by
  simp only [relationshipRepository.ExistsBetweenCharacters, count_pos_iff, gt_iff_lt]
  rcases le_or_lt a b with h | h
  · rw [if_neg (not_lt.mpr h), min_eq_left h, max_eq_right h]
  · rw [if_pos h, min_eq_right h.le, max_eq_left h.le]

theorem CreateRelationship_eq (db : DB) (uuid : String) (now : Nat)
    (relationship : Relationship) :
    relationshipService.CreateRelationship db uuid now relationship =
      if relationship.Character1ID = relationship.Character2ID then
        (db, .error "cannot create relationship between the same character")
      else
        match validatePair db relationship with
        | .error err => (db, .error err)
        | .ok relationship =>
          match relationshipRepository.Create db uuid now relationship with
          | .error err => (db, .error ("failed to create relationship: " ++ err))
          | .ok (db1, relationship) =>
            (db1, relationshipRepository.GetByID db1 relationship.ID) := rfl

theorem UpdateRelationship_eq (db : DB) (id : String)
    (relationship : Relationship) :
    relationshipService.UpdateRelationship db id relationship =
      match relationshipRepository.GetByID db id with
      | .error err => (db, .error ("relationship not found: " ++ err))
      | .ok existing =>
        if relationship.Character1ID = relationship.Character2ID then
          (db, .error "cannot create relationship between the same character")
        else
          let validated : Except String Relationship :=
            if relationship.Character1ID ≠ existing.Character1ID
                ∨ relationship.Character2ID ≠ existing.Character2ID then
              validatePair db relationship
            else
              .ok { relationship with GroupID := existing.GroupID }
          match validated with
          | .error err => (db, .error err)
          | .ok relationship =>
            let relationship :=
              { relationship with ID := existing.ID, CreatedAt := existing.CreatedAt }
            match relationshipRepository.Update db relationship with
            | .error err => (db, .error ("failed to update relationship: " ++ err))
            | .ok (db1, _) => (db1, relationshipRepository.GetByID db1 id) := rfl

theorem validatePair_eq (db : DB) (r : Relationship) :
    validatePair db r =
      match db.characters.find? (fun c => c.ID == r.Character1ID) with
      | none => .error "character1 not found"
      | some char1 =>
        match db.characters.find? (fun c => c.ID == r.Character2ID) with
        | none => .error "character2 not found"
        | some char2 =>
          if char1.GroupID ≠ char2.GroupID then .error "characters must be in the same group"
          else if db.relationships.any (fun x =>
              x.Character1ID == min r.Character1ID r.Character2ID
                && x.Character2ID == max r.Character1ID r.Character2ID) then
            .error "relationship already exists between these characters"
          else .ok { r with GroupID := char1.GroupID } := by
  unfold validatePair
  simp only [characterRepository_ExistsByID_eq, characterRepository.GetByID,
    relationshipRepository_ExistsBetweenCharacters_eq]
  cases h1 : db.characters.find? (fun c => c.ID == r.Character1ID) with
  | none => simp
  | some char1 =>
    cases h2 : db.characters.find? (fun c => c.ID == r.Character2ID) with
    | none => simp
    | some char2 => simp

theorem find?_append_fresh {α : Type} (p : α → Bool) (l : List α) (x : α)
    (hl : l.any p = false) (hx : p x = true) : (l ++ [x]).find? p = some x := by
  have hnone : l.find? p = none := by
    rw [List.find?_eq_none]
    intro y hy hpy
    have : l.any p = true := List.any_eq_true.mpr ⟨y, hy, hpy⟩
    rw [hl] at this
    exact Bool.noConfusion this
  simp [List.find?_append, hnone, List.find?_cons, hx]

theorem relationshipRepository_Create_eq (db : DB) (uuid : String) (now : Nat)
    (v : Relationship) :
    relationshipRepository.Create db uuid now v =
      if db.relationships.any (fun r => r.ID == uuid) then .error ErrDuplicatedKey
      else
        .ok ({ db with relationships := db.relationships ++
                [{ ID := uuid, GroupID := v.GroupID,
                   Character1ID := min v.Character1ID v.Character2ID,
                   Character2ID := max v.Character1ID v.Character2ID,
                   RelationshipType := v.RelationshipType, Description := v.Description,
                   CreatedAt := if v.CreatedAt = 0 then now else v.CreatedAt }] },
             { ID := uuid, GroupID := v.GroupID,
               Character1ID := min v.Character1ID v.Character2ID,
               Character2ID := max v.Character1ID v.Character2ID,
               RelationshipType := v.RelationshipType, Description := v.Description,
               CreatedAt := if v.CreatedAt = 0 then now else v.CreatedAt }) := by
  unfold relationshipRepository.Create
  rcases le_or_lt v.Character1ID v.Character2ID with h | h
  · simp only [gt_iff_lt, if_neg (not_lt.mpr h), min_eq_left h, max_eq_right h]
  · simp only [gt_iff_lt, if_pos h, min_eq_right h.le, max_eq_left h.le]

theorem relationshipRepository_Update_eq (db : DB) (v : Relationship) :
    relationshipRepository.Update db v =
      if v.ID ≠ "" ∧ db.relationships.any (fun r => r.ID == v.ID) then
        .ok ({ db with relationships := db.relationships.map (fun r =>
                if r.ID == v.ID then
                  { v with Character1ID := min v.Character1ID v.Character2ID,
                           Character2ID := max v.Character1ID v.Character2ID }
                else r) },
             { v with Character1ID := min v.Character1ID v.Character2ID,
                      Character2ID := max v.Character1ID v.Character2ID })
      else if db.relationships.any (fun r => r.ID == v.ID) then .error ErrDuplicatedKey
      else
        .ok ({ db with relationships := db.relationships ++
                [{ v with Character1ID := min v.Character1ID v.Character2ID,
                          Character2ID := max v.Character1ID v.Character2ID }] },
             { v with Character1ID := min v.Character1ID v.Character2ID,
                      Character2ID := max v.Character1ID v.Character2ID }) := by
  unfold relationshipRepository.Update
  rcases le_or_lt v.Character1ID v.Character2ID with h | h
  · simp only [gt_iff_lt, if_neg (not_lt.mpr h), min_eq_left h, max_eq_right h]
  · simp only [gt_iff_lt, if_pos h, min_eq_right h.le, max_eq_left h.le]

theorem CreateRelationship_spec (db : DB) (uuid : String) (now : Nat)
    (req : Relationship) :
    relationshipService.CreateRelationship db uuid now req =
      if req.Character1ID = req.Character2ID then
        (db, .error "cannot create relationship between the same character")
      else
        match validatePair db req with
        | .error err => (db, .error err)
        | .ok v =>
          if db.relationships.any (fun r => r.ID == uuid) then
            (db, .error ("failed to create relationship: " ++ ErrDuplicatedKey))
          else
            ({ db with relationships := db.relationships ++
                [{ ID := uuid, GroupID := v.GroupID,
                   Character1ID := min v.Character1ID v.Character2ID,
                   Character2ID := max v.Character1ID v.Character2ID,
                   RelationshipType := v.RelationshipType, Description := v.Description,
                   CreatedAt := if v.CreatedAt = 0 then now else v.CreatedAt }] },
             .ok { ID := uuid, GroupID := v.GroupID,
                   Character1ID := min v.Character1ID v.Character2ID,
                   Character2ID := max v.Character1ID v.Character2ID,
                   RelationshipType := v.RelationshipType, Description := v.Description,
                   CreatedAt := if v.CreatedAt = 0 then now else v.CreatedAt }) := by
  rw [CreateRelationship_eq]
  by_cases hself : req.Character1ID = req.Character2ID
  · simp only [if_pos hself]
  · simp only [if_neg hself]
    cases hv : validatePair db req with
    | error e => rfl
    | ok v =>
      simp only [relationshipRepository_Create_eq]
      cases hany : db.relationships.any (fun r => r.ID == uuid) with
      | true => simp
      | false =>
        simp only [Bool.false_eq_true, if_false, relationshipRepository.GetByID]
        rw [find?_append_fresh _ _ _ hany (by simp)]

theorem find?_replace (l : List Relationship) (id : String) (row existing : Relationship)
    (hrow : row.ID = existing.ID)
    (h : l.find? (fun r => r.ID == id) = some existing) :
    (l.map (fun r => if r.ID == existing.ID then row else r)).find? (fun r => r.ID == id)
      = some row := by
  have hid : existing.ID = id := by simpa using List.find?_some h
  rw [List.find?_map]
  have hfun : ((fun r : Relationship => r.ID == id) ∘
      fun r => if r.ID == existing.ID then row else r) = fun r => r.ID == id := by
    funext r
    by_cases hr : r.ID = existing.ID
    · simp [hr, hrow, hid]
    · simp [hr]
  rw [hfun, h]
  simp

theorem UpdateRelationship_spec (db : DB) (id : String)
    (req : Relationship) :
    relationshipService.UpdateRelationship db id req =
      match db.relationships.find? (fun r => r.ID == id) with
      | none => (db, .error ("relationship not found: " ++ ErrRecordNotFound))
      | some existing =>
        if req.Character1ID = req.Character2ID then
          (db, .error "cannot create relationship between the same character")
        else
          match (if req.Character1ID ≠ existing.Character1ID
                    ∨ req.Character2ID ≠ existing.Character2ID then
                  validatePair db req
                else .ok { req with GroupID := existing.GroupID }) with
          | .error err => (db, .error err)
          | .ok v =>
            if existing.ID = "" then
              (db, .error ("failed to update relationship: " ++ ErrDuplicatedKey))
            else
              ({ db with relationships := db.relationships.map (fun r =>
                  if r.ID == existing.ID then
                    { ID := existing.ID, GroupID := v.GroupID,
                      Character1ID := min v.Character1ID v.Character2ID,
                      Character2ID := max v.Character1ID v.Character2ID,
                      RelationshipType := v.RelationshipType, Description := v.Description,
                      CreatedAt := existing.CreatedAt }
                  else r) },
               .ok { ID := existing.ID, GroupID := v.GroupID,
                     Character1ID := min v.Character1ID v.Character2ID,
                     Character2ID := max v.Character1ID v.Character2ID,
                     RelationshipType := v.RelationshipType, Description := v.Description,
                     CreatedAt := existing.CreatedAt }) := by
  rw [UpdateRelationship_eq]
  simp only [relationshipRepository.GetByID]
  cases hfind : db.relationships.find? (fun r => r.ID == id) with
  | none => rfl
  | some existing =>
    simp only []
    by_cases hself : req.Character1ID = req.Character2ID
    · simp only [if_pos hself]
    · simp only [if_neg hself]
      have hmem : db.relationships.any (fun r => r.ID == existing.ID) = true :=
        List.any_eq_true.mpr ⟨existing, List.mem_of_find?_eq_some hfind, by simp⟩
      cases hv : (if req.Character1ID ≠ existing.Character1ID
                    ∨ req.Character2ID ≠ existing.Character2ID then
                  validatePair db req
                else .ok { req with GroupID := existing.GroupID }) with
      | error e => rfl
      | ok v =>
        simp only [relationshipRepository_Update_eq, hmem]
        by_cases hempty : existing.ID = ""
        · simp [hempty]
        · simp only [hempty, ne_eq, not_false_eq_true, and_self, if_true, if_false]
          rw [find?_replace db.relationships id
            { ID := existing.ID, GroupID := v.GroupID,
              Character1ID := min v.Character1ID v.Character2ID,
              Character2ID := max v.Character1ID v.Character2ID,
              RelationshipType := v.RelationshipType, Description := v.Description,
              CreatedAt := existing.CreatedAt } existing rfl hfind]

theorem validatePair_ok {db : DB} {r v : Relationship} (h : validatePair db r = .ok v) :
    ∃ c1 c2, characterRepository.GetByID db r.Character1ID = .ok c1
      ∧ characterRepository.GetByID db r.Character2ID = .ok c2
      ∧ c1.GroupID = c2.GroupID
      ∧ v = { r with GroupID := c1.GroupID }
      ∧ db.relationships.any (fun x =>
          x.Character1ID == min r.Character1ID r.Character2ID
            && x.Character2ID == max r.Character1ID r.Character2ID) = false := by
  rw [validatePair_eq] at h
  simp only [characterRepository.GetByID]
  cases h1 : db.characters.find? (fun c => c.ID == r.Character1ID) with
  | none => simp [h1] at h
  | some char1 =>
    cases h2 : db.characters.find? (fun c => c.ID == r.Character2ID) with
    | none => simp [h1, h2] at h
    | some char2 =>
      simp only [h1, h2] at h
      by_cases hg : char1.GroupID = char2.GroupID
      · simp only [hg, ne_eq, not_true_eq_false, if_false] at h
        cases hany : db.relationships.any (fun x =>
          x.Character1ID == min r.Character1ID r.Character2ID
            && x.Character2ID == max r.Character1ID r.Character2ID) with
        | true => simp [hany] at h
        | false =>
          simp only [hany, Bool.false_eq_true, if_false, Except.ok.injEq] at h
          exact ⟨char1, char2, rfl, rfl, hg, by rw [← h, hg], rfl⟩
      · simp [hg] at h

theorem validatePair_conflict {db : DB} {r : Relationship} {c1 c2 : Character}
    (h1 : characterRepository.GetByID db r.Character1ID = .ok c1)
    (h2 : characterRepository.GetByID db r.Character2ID = .ok c2)
    (hg : c1.GroupID = c2.GroupID)
    (hex : ∃ x ∈ db.relationships, x.Character1ID = min r.Character1ID r.Character2ID
        ∧ x.Character2ID = max r.Character1ID r.Character2ID) :
    validatePair db r = .error "relationship already exists between these characters" := by
  rw [validatePair_eq]
  simp only [characterRepository.GetByID] at h1 h2
  cases h1f : db.characters.find? (fun c => c.ID == r.Character1ID) with
  | none => simp [h1f] at h1
  | some char1 =>
    cases h2f : db.characters.find? (fun c => c.ID == r.Character2ID) with
    | none => simp [h2f] at h2
    | some char2 =>
      simp only [h1f, h2f, Except.ok.injEq] at h1 h2
      subst h1 h2
      obtain ⟨x, hx, hx1, hx2⟩ := hex
      have hany : db.relationships.any (fun x =>
          x.Character1ID == min r.Character1ID r.Character2ID
            && x.Character2ID == max r.Character1ID r.Character2ID) = true :=
        List.any_eq_true.mpr ⟨x, hx, by simp [hx1, hx2]⟩
      simp [hg, hany]

theorem CreateRelationship_ok {db db1 : DB} {uuid : String} {now : Nat}
    {req created : Relationship}
    (h : CreateRelationship db uuid now req = (db1, .ok created)) :
    req.Character1ID ≠ req.Character2ID ∧
    ∃ c1 c2, characterRepository.GetByID db req.Character1ID = .ok c1
      ∧ characterRepository.GetByID db req.Character2ID = .ok c2
      ∧ c1.GroupID = c2.GroupID
      ∧ db.relationships.any (fun x =>
          x.Character1ID == min req.Character1ID req.Character2ID
            && x.Character2ID == max req.Character1ID req.Character2ID) = false
      ∧ db.relationships.any (fun x => x.ID == uuid) = false
      ∧ created = { ID := uuid, GroupID := c1.GroupID,
                    Character1ID := min req.Character1ID req.Character2ID,
                    Character2ID := max req.Character1ID req.Character2ID,
                    RelationshipType := req.RelationshipType,
                    Description := req.Description,
                    CreatedAt := if req.CreatedAt = 0 then now else req.CreatedAt }
      ∧ db1 = { db with relationships := db.relationships ++ [created] } := by
  rw [CreateRelationship_spec] at h
  by_cases hself : req.Character1ID = req.Character2ID
  · simp [hself] at h
  · refine ⟨hself, ?_⟩
    simp only [if_neg hself] at h
    cases hv : validatePair db req with
    | error e => simp [hv] at h
    | ok v =>
      obtain ⟨c1, c2, h1, h2, hg, hveq, hpair⟩ := validatePair_ok hv
      simp only [hv] at h
      cases hany : db.relationships.any (fun x => x.ID == uuid) with
      | true => simp [hany] at h
      | false =>
        simp only [hany, Bool.false_eq_true, if_false, Prod.mk.injEq, Except.ok.injEq] at h
        obtain ⟨hdb, hrow⟩ := h
        subst hveq
        refine ⟨c1, c2, h1, h2, hg, hpair, rfl, hrow.symm, ?_⟩
        rw [← hdb, ← hrow]

theorem CreateRelationship_error {db db1 : DB} {uuid : String} {now : Nat}
    {req : Relationship} {e : String}
    (h : CreateRelationship db uuid now req = (db1, .error e)) : db1 = db := by
  rw [CreateRelationship_spec] at h
  by_cases hself : req.Character1ID = req.Character2ID
  · simp only [if_pos hself, Prod.mk.injEq] at h
    exact h.1.symm
  · simp only [if_neg hself] at h
    cases hv : validatePair db req with
    | error e' =>
      simp only [hv, Prod.mk.injEq] at h
      exact h.1.symm
    | ok v =>
      simp only [hv] at h
      cases hany : db.relationships.any (fun x => x.ID == uuid) with
      | true =>
        simp only [hany, if_true, Prod.mk.injEq] at h
        exact h.1.symm
      | false => simp [hany] at h

theorem UpdateRelationship_ok {db db1 : DB} {id : String} {req r : Relationship}
    (h : UpdateRelationship db id req = (db1, .ok r)) :
    ∃ existing, relationshipRepository.GetByID db id = .ok existing
      ∧ existing ∈ db.relationships ∧ existing.ID = id ∧ existing.ID ≠ ""
      ∧ req.Character1ID ≠ req.Character2ID
      ∧ ((req.Character1ID ≠ existing.Character1ID ∨ req.Character2ID ≠ existing.Character2ID)
            ∧ validatePair db req = .ok { req with GroupID := r.GroupID }
          ∨ (req.Character1ID = existing.Character1ID
              ∧ req.Character2ID = existing.Character2ID)
            ∧ r.GroupID = existing.GroupID)
      ∧ r = { ID := existing.ID, GroupID := r.GroupID,
              Character1ID := min req.Character1ID req.Character2ID,
              Character2ID := max req.Character1ID req.Character2ID,
              RelationshipType := req.RelationshipType,
              Description := req.Description,
              CreatedAt := existing.CreatedAt }
      ∧ db1 = { db with relationships :=
                  db.relationships.map (fun x => if x.ID == existing.ID then r else x) } := by
  rw [UpdateRelationship_spec] at h
  simp only [relationshipRepository.GetByID]
  cases hfind : db.relationships.find? (fun x => x.ID == id) with
  | none => simp [hfind] at h
  | some existing =>
    simp only [hfind] at h
    have hid : existing.ID = id := by simpa using List.find?_some hfind
    by_cases hself : req.Character1ID = req.Character2ID
    · simp [hself] at h
    · simp only [if_neg hself] at h
      by_cases hch : req.Character1ID ≠ existing.Character1ID
          ∨ req.Character2ID ≠ existing.Character2ID
      · simp only [if_pos hch] at h
        cases hv : validatePair db req with
        | error e => simp [hv] at h
        | ok v =>
          obtain ⟨c1, c2, -, -, -, hveq, -⟩ := validatePair_ok hv
          simp only [hv] at h
          by_cases hempty : existing.ID = ""
          · simp [hempty] at h
          · simp only [if_neg hempty, Prod.mk.injEq, Except.ok.injEq] at h
            obtain ⟨hdb, hrow⟩ := h
            subst hveq
            subst hrow
            exact ⟨existing, rfl, List.mem_of_find?_eq_some hfind, hid, hempty, hself,
              Or.inl ⟨hch, rfl⟩, rfl, hdb.symm⟩
      · simp only [if_neg hch] at h
        by_cases hempty : existing.ID = ""
        · simp [hempty] at h
        · simp only [if_neg hempty, Prod.mk.injEq, Except.ok.injEq] at h
          obtain ⟨hdb, hrow⟩ := h
          subst hrow
          have hsame : req.Character1ID = existing.Character1ID
              ∧ req.Character2ID = existing.Character2ID := by
            constructor
            · by_contra hne; exact hch (Or.inl hne)
            · by_contra hne; exact hch (Or.inr hne)
          exact ⟨existing, rfl, List.mem_of_find?_eq_some hfind, hid, hempty, hself,
            Or.inr ⟨hsame, rfl⟩, rfl, hdb.symm⟩

theorem UpdateRelationship_error {db db1 : DB} {id : String} {req : Relationship}
    {e : String} (h : UpdateRelationship db id req = (db1, .error e)) : db1 = db := by
  rw [UpdateRelationship_spec] at h
  cases hfind : db.relationships.find? (fun x => x.ID == id) with
  | none =>
    simp only [hfind, Prod.mk.injEq] at h
    exact h.1.symm
  | some existing =>
    simp only [hfind] at h
    by_cases hself : req.Character1ID = req.Character2ID
    · simp only [if_pos hself, Prod.mk.injEq] at h
      exact h.1.symm
    · simp only [if_neg hself] at h
      cases hv : (if req.Character1ID ≠ existing.Character1ID
                    ∨ req.Character2ID ≠ existing.Character2ID then
                  validatePair db req
                else .ok { req with GroupID := existing.GroupID }) with
      | error e' =>
        simp only [hv, Prod.mk.injEq] at h
        exact h.1.symm
      | ok v =>
        simp only [hv] at h
        by_cases hempty : existing.ID = ""
        · simp only [if_pos hempty, Prod.mk.injEq] at h
          exact h.1.symm
        · simp [hempty] at h

/-- A request naming the two characters `a` and `b`, in this order or the other one, is
refused with the duplicate error in every state where both characters are stored in one group
and a relationship is stored between them in the order of storage. -/
theorem CreateRelationship_conflict {db : DB} {a b : String} {ca cb : Character}
    (hab : a ≠ b)
    (ha : characterRepository.GetByID db a = .ok ca)
    (hb : characterRepository.GetByID db b = .ok cb)
    (hg : ca.GroupID = cb.GroupID)
    (hex : ∃ x ∈ db.relationships, x.Character1ID = min a b ∧ x.Character2ID = max a b)
    (uuid : String) (now : Nat) (req : Relationship)
    (hreq : (req.Character1ID = a ∧ req.Character2ID = b)
      ∨ (req.Character1ID = b ∧ req.Character2ID = a)) :
    CreateRelationship db uuid now req
      = (db, .error "relationship already exists between these characters") := by
  rw [CreateRelationship_spec]
  rcases hreq with ⟨h1, h2⟩ | ⟨h1, h2⟩
  · have hself : req.Character1ID ≠ req.Character2ID := by rw [h1, h2]; exact hab
    have hv := @validatePair_conflict db req ca cb (by rw [h1]; exact ha)
      (by rw [h2]; exact hb) hg (by rw [h1, h2]; exact hex)
    simp only [if_neg hself, hv]
  · have hself : req.Character1ID ≠ req.Character2ID := by rw [h1, h2]; exact hab.symm
    have hv := @validatePair_conflict db req cb ca (by rw [h1]; exact hb)
      (by rw [h2]; exact ha) hg.symm (by rw [h1, h2, min_comm, max_comm]; exact hex)
    simp only [if_neg hself, hv]

theorem sample_a_lt_b : ("a" : String) < "b" := String.lt_iff_toList_lt.mpr (by decide)

theorem sample_min_ab : min ("a" : String) "b" = "a" := min_eq_left sample_a_lt_b.le
theorem sample_max_ab : max ("a" : String) "b" = "b" := max_eq_right sample_a_lt_b.le
theorem sample_min_ba : min ("b" : String) "a" = "a" := min_eq_right sample_a_lt_b.le
theorem sample_max_ba : max ("b" : String) "a" = "b" := max_eq_left sample_a_lt_b.le

theorem sample_create :
    CreateRelationship sampleDB "r1" 5 (sampleRequest "b" "a") = (sampleDB1, .ok sampleRow) := by
  simp [CreateRelationship_spec, validatePair_eq, sampleDB, sampleDB1, sampleRow,
    sampleRequest, sampleCharacter, sample_min_ba, sample_max_ba]

theorem sameGroup_of_lookups {db : DB} {r : Relationship} {a b : String} {ca cb : Character}
    (ha : characterRepository.GetByID db a = .ok ca)
    (hb : characterRepository.GetByID db b = .ok cb)
    (hg : ca.GroupID = cb.GroupID) (hr : r.GroupID = ca.GroupID)
    (h1 : r.Character1ID = min a b) (h2 : r.Character2ID = max a b) :
    sameGroup db r := by
  unfold sameGroup
  rcases le_total a b with h | h
  · rw [h1, h2, min_eq_left h, max_eq_right h]
    exact ⟨ca, cb, ha, hb, hg, hr⟩
  · rw [h1, h2, min_eq_right h, max_eq_left h]
    exact ⟨cb, ca, hb, ha, hg.symm, by rw [hr, hg]⟩

theorem distinctRows_symm : Symmetric distinctRows := by
  intro a b h
  exact ⟨fun e => h.1 e.symm, fun e => h.2 ⟨e.1.symm, e.2.symm⟩⟩

theorem RelationshipsWF_nil : RelationshipsWF [] :=
  ⟨fun _ h => absurd h (List.not_mem_nil _), List.Pairwise.nil⟩

theorem RelationshipsWF_append {l : List Relationship} {x : Relationship}
    (hl : RelationshipsWF l) (hx : x.Character1ID < x.Character2ID)
    (hid : l.any (fun r => r.ID == x.ID) = false)
    (hpair : l.any (fun r => r.Character1ID == x.Character1ID
        && r.Character2ID == x.Character2ID) = false) :
    RelationshipsWF (l ++ [x]) := by
  constructor
  · intro r hr
    rcases List.mem_append.mp hr with h | h
    · exact hl.1 r h
    · rw [List.mem_singleton.mp h]; exact hx
  · rw [List.pairwise_append]
    refine ⟨hl.2, List.pairwise_singleton _ _, ?_⟩
    intro a ha b hb
    rw [List.mem_singleton.mp hb]
    constructor
    · intro e
      have : l.any (fun r => r.ID == x.ID) = true :=
        List.any_eq_true.mpr ⟨a, ha, by simp [e]⟩
      rw [hid] at this
      exact Bool.noConfusion this
    · intro e
      have : l.any (fun r => r.Character1ID == x.Character1ID
          && r.Character2ID == x.Character2ID) = true :=
        List.any_eq_true.mpr ⟨a, ha, by simp [e.1, e.2]⟩
      rw [hpair] at this
      exact Bool.noConfusion this

theorem RelationshipsWF_replace {l : List Relationship} {x : Relationship}
    (hl : RelationshipsWF l) (hx : x.Character1ID < x.Character2ID)
    (hpair : ∀ r ∈ l, r.ID ≠ x.ID →
      ¬ (r.Character1ID = x.Character1ID ∧ r.Character2ID = x.Character2ID)) :
    RelationshipsWF (l.map (fun r => if r.ID == x.ID then x else r)) := by
  constructor
  · intro r hr
    obtain ⟨r0, hr0, hr0eq⟩ := List.mem_map.mp hr
    by_cases hk : r0.ID = x.ID
    · simp only [hk, beq_self_eq_true, if_true] at hr0eq
      rw [← hr0eq]; exact hx
    · have : (r0.ID == x.ID) = false := by simpa using hk
      simp only [this, Bool.false_eq_true, if_false] at hr0eq
      rw [← hr0eq]; exact hl.1 r0 hr0
  · rw [List.pairwise_map]
    refine List.Pairwise.imp_of_mem ?_ hl.2
    intro a b ha hb hab
    by_cases hka : a.ID = x.ID
    · have hkb : b.ID ≠ x.ID := fun e => hab.1 (hka.trans e.symm)
      have hb' : (b.ID == x.ID) = false := by simpa using hkb
      simp only [hka, beq_self_eq_true, if_true, hb', Bool.false_eq_true, if_false]
      exact ⟨fun e => hkb e.symm, fun e => hpair b hb hkb ⟨e.1.symm, e.2.symm⟩⟩
    · have ha' : (a.ID == x.ID) = false := by simpa using hka
      by_cases hkb : b.ID = x.ID
      · simp only [ha', hkb, beq_self_eq_true, if_true, Bool.false_eq_true, if_false]
        exact ⟨hka, hpair a ha hka⟩
      · have hb' : (b.ID == x.ID) = false := by simpa using hkb
        simp only [ha', hb', Bool.false_eq_true, if_false]
        exact hab

theorem RelationshipsWF_sublist {l l' : List Relationship} (h : l'.Sublist l)
    (hl : RelationshipsWF l) : RelationshipsWF l' :=
  ⟨fun r hr => hl.1 r (h.subset hr), hl.2.sublist h⟩

theorem CreateCharacter_relationships (db : DB) (uuid : String) (now : Nat)
    (character : Character) :
    (characterService.CreateCharacter db uuid now character).1.relationships
      = db.relationships := by
  unfold characterService.CreateCharacter characterRepository.Create groupRepository.ExistsByID
  simp only []
  split_ifs <;> rfl

theorem UpdateCharacter_relationships (db : DB) (now : Nat) (id : String)
    (character : Character) :
    (characterService.UpdateCharacter db now id character).1.relationships
      = db.relationships := by
  unfold characterService.UpdateCharacter characterRepository.Update
  cases characterRepository.GetByID db id with
  | error e => rfl
  | ok existing =>
    simp only []
    split
    · rfl
    · split_ifs <;> rfl

theorem DeleteRelationship_fst (db : DB) (id : String) :
    (DeleteRelationship db id).1 = db
    ∨ (DeleteRelationship db id).1
        = { db with relationships := db.relationships.filter (fun r => !(r.ID == id)) } := by
  unfold DeleteRelationship relationshipRepository.ExistsByID relationshipRepository.Delete
  simp only []
  split_ifs
  · exact Or.inl rfl
  · exact Or.inr rfl

theorem CreateRelationship_WF (db : DB) (uuid : String) (now : Nat) (req : Relationship)
    (hwf : RelationshipsWF db.relationships) :
    RelationshipsWF (CreateRelationship db uuid now req).1.relationships := by
  cases h : CreateRelationship db uuid now req with
  | mk db1 res =>
    cases res with
    | error e => rw [CreateRelationship_error h]; exact hwf
    | ok r =>
      obtain ⟨hself, c1, c2, -, -, -, hpair, hid, hrow, hdb⟩ := CreateRelationship_ok h
      have h1 : r.Character1ID = min req.Character1ID req.Character2ID := by rw [hrow]
      have h2 : r.Character2ID = max req.Character1ID req.Character2ID := by rw [hrow]
      have h0 : r.ID = uuid := by rw [hrow]
      show RelationshipsWF db1.relationships
      rw [hdb]
      refine RelationshipsWF_append hwf ?_ ?_ ?_
      · rw [h1, h2]; exact min_lt_max.mpr hself
      · rw [h0]; exact hid
      · rw [h1, h2]; exact hpair

theorem UpdateRelationship_WF (db : DB) (id : String) (req : Relationship)
    (hwf : RelationshipsWF db.relationships) :
    RelationshipsWF (UpdateRelationship db id req).1.relationships := by
  cases h : UpdateRelationship db id req with
  | mk db1 res =>
    cases res with
    | error e => rw [UpdateRelationship_error h]; exact hwf
    | ok r =>
      obtain ⟨existing, -, hmem, -, -, hself, hbranch, hrow, hdb⟩ := UpdateRelationship_ok h
      have h1 : r.Character1ID = min req.Character1ID req.Character2ID := by rw [hrow]
      have h2 : r.Character2ID = max req.Character1ID req.Character2ID := by rw [hrow]
      have h0 : r.ID = existing.ID := by rw [hrow]
      show RelationshipsWF db1.relationships
      rw [hdb, ← h0]
      refine RelationshipsWF_replace hwf ?_ ?_
      · rw [h1, h2]; exact min_lt_max.mpr hself
      · intro x hx hxid hsame
        rcases hbranch with ⟨-, hv⟩ | ⟨⟨hs1, hs2⟩, -⟩
        · obtain ⟨-, -, -, -, -, -, hpair⟩ := validatePair_ok hv
          have : db.relationships.any (fun x =>
              x.Character1ID == min req.Character1ID req.Character2ID
                && x.Character2ID == max req.Character1ID req.Character2ID) = true :=
            List.any_eq_true.mpr ⟨x, hx, by simp [← h1, ← h2, hsame.1, hsame.2]⟩
          rw [hpair] at this
          exact Bool.noConfusion this
        · have hlt : existing.Character1ID < existing.Character2ID := hwf.1 existing hmem
          have e1 : r.Character1ID = existing.Character1ID := by
            rw [h1, hs1, hs2, min_eq_left hlt.le]
          have e2 : r.Character2ID = existing.Character2ID := by
            rw [h2, hs1, hs2, max_eq_right hlt.le]
          have hne : x ≠ existing := fun e => hxid (by rw [e, h0])
          have hd := hwf.2.forall distinctRows_symm hx hmem hne
          exact hd.2 ⟨hsame.1.trans e1, hsame.2.trans e2⟩

theorem step_WF (db : DB) (op : Op) (hwf : RelationshipsWF db.relationships) :
    RelationshipsWF (step db op).relationships := by
  cases op with
  | createCharacter uuid now character =>
    show RelationshipsWF (characterService.CreateCharacter db uuid now character).1.relationships
    rw [CreateCharacter_relationships]; exact hwf
  | updateCharacter now id character =>
    show RelationshipsWF (characterService.UpdateCharacter db now id character).1.relationships
    rw [UpdateCharacter_relationships]; exact hwf
  | createRelationship uuid now relationship =>
    exact CreateRelationship_WF db uuid now relationship hwf
  | updateRelationship id relationship =>
    exact UpdateRelationship_WF db id relationship hwf
  | deleteRelationship id =>
    show RelationshipsWF (DeleteRelationship db id).1.relationships
    rcases DeleteRelationship_fst db id with h | h
    · rw [h]; exact hwf
    · rw [h]; exact RelationshipsWF_sublist (List.filter_sublist _) hwf

theorem run_WF (ops : List Op) (db : DB) (hwf : RelationshipsWF db.relationships) :
    RelationshipsWF (run db ops).relationships := by
  induction ops generalizing db with
  | nil => exact hwf
  | cons op ops ih => exact ih (step db op) (step_WF db op hwf)

theorem RelationshipsWF_count_le_one {l : List Relationship} (hwf : RelationshipsWF l)
    (a b : String) : (l.filter (linksPair a b)).length ≤ 1 := by
  have hsub : (l.filter (linksPair a b)).Sublist l := List.filter_sublist _
  have hwf' := RelationshipsWF_sublist hsub hwf
  match hf : l.filter (linksPair a b) with
  | [] => simp
  | [_] => simp
  | x :: y :: t =>
    exfalso
    rw [hf] at hwf'
    have hx : x ∈ l.filter (linksPair a b) := by rw [hf]; simp
    have hy : y ∈ l.filter (linksPair a b) := by rw [hf]; simp
    have hxl := (List.mem_filter.mp hx).2
    have hyl := (List.mem_filter.mp hy).2
    have hxlt := hwf'.1 x (by simp)
    have hylt := hwf'.1 y (by simp)
    have hd : distinctRows x y := (List.pairwise_cons.mp hwf'.2).1 y (by simp)
    unfold linksPair at hxl hyl
    simp only [Bool.or_eq_true, Bool.and_eq_true, beq_iff_eq] at hxl hyl
    rcases hxl with ⟨x1, x2⟩ | ⟨x1, x2⟩ <;> rcases hyl with ⟨y1, y2⟩ | ⟨y1, y2⟩
    · exact hd.2 ⟨x1.trans y1.symm, x2.trans y2.symm⟩
    · rw [x1, x2] at hxlt; rw [y1, y2] at hylt; exact lt_asymm hxlt hylt
    · rw [x1, x2] at hxlt; rw [y1, y2] at hylt; exact lt_asymm hxlt hylt
    · exact hd.2 ⟨x1.trans y1.symm, x2.trans y2.symm⟩

theorem sameGroup_mono {db db' : DB} {r : Relationship}
    (h : ∀ id c, characterRepository.GetByID db id = .ok c →
      ∃ c', characterRepository.GetByID db' id = .ok c' ∧ c'.GroupID = c.GroupID)
    (hr : sameGroup db r) : sameGroup db' r := by
  obtain ⟨c1, c2, h1, h2, hg, hrg⟩ := hr
  obtain ⟨d1, hd1, hg1⟩ := h _ _ h1
  obtain ⟨d2, hd2, hg2⟩ := h _ _ h2
  exact ⟨d1, d2, hd1, hd2, by rw [hg1, hg2, hg], by rw [hrg, hg1]⟩

theorem sameGroup_congr {db db' : DB} {r : Relationship}
    (hchars : db'.characters = db.characters) (hr : sameGroup db r) : sameGroup db' r := by
  refine sameGroup_mono ?_ hr
  intro id c hc
  exact ⟨c, by simpa only [characterRepository.GetByID, hchars] using hc, rfl⟩

theorem characterRepository_GetByID_ok {db : DB} {id : String} {c : Character} :
    characterRepository.GetByID db id = .ok c
      ↔ db.characters.find? (fun x => x.ID == id) = some c := by
  unfold characterRepository.GetByID
  cases db.characters.find? (fun x => x.ID == id) with
  | none => simp
  | some c' => simp

theorem CreateCharacter_fst (db : DB) (uuid : String) (now : Nat) (character : Character) :
    (characterService.CreateCharacter db uuid now character).1 = db
    ∨ ∃ c, (characterService.CreateCharacter db uuid now character).1
        = { db with characters := db.characters ++ [c] } := by
  unfold characterService.CreateCharacter
  cases groupRepository.ExistsByID db character.GroupID with
  | error e => exact Or.inl rfl
  | ok found =>
    cases found with
    | false => exact Or.inl rfl
    | true =>
      simp only [Bool.not_true, Bool.false_eq_true, if_false]
      cases hc : characterRepository.Create db uuid now character with
      | error e => exact Or.inl rfl
      | ok p =>
        obtain ⟨db1, c⟩ := p
        unfold characterRepository.Create at hc
        cases hany : db.characters.any (fun c => c.ID == uuid) with
        | true => simp [hany] at hc
        | false =>
          simp only [hany, Bool.false_eq_true, if_false, Except.ok.injEq, Prod.mk.injEq] at hc
          exact Or.inr ⟨_, hc.1.symm⟩

theorem CreateCharacter_lookup (db : DB) (uuid : String) (now : Nat) (character : Character)
    (id : String) (c : Character) (hc : characterRepository.GetByID db id = .ok c) :
    characterRepository.GetByID (characterService.CreateCharacter db uuid now character).1 id
      = .ok c := by
  rcases CreateCharacter_fst db uuid now character with h | ⟨x, h⟩
  · rw [h]; exact hc
  · rw [h]
    rw [characterRepository_GetByID_ok] at hc ⊢
    simp only [List.find?_append, hc, Option.or_some]

theorem find?_map_replace {α : Type} (key : α → String) (l : List α) (k id : String)
    (row : α) (hrow : key row = k) :
    (l.map (fun x => if key x == k then row else x)).find? (fun x => key x == id)
      = (l.find? (fun x => key x == id)).map (fun x => if key x == k then row else x) := by
  rw [List.find?_map]
  have hfun : ((fun x : α => key x == id) ∘ fun x => if key x == k then row else x)
      = fun x => key x == id := by
    funext x
    by_cases hx : key x = k
    · simp [hx, hrow]
    · simp [hx]
  rw [hfun]

theorem CreateRelationship_sameGroup (db : DB) (uuid : String) (now : Nat)
    (req : Relationship) (hinv : SameGroupInv db) :
    SameGroupInv (CreateRelationship db uuid now req).1 := by
  cases h : CreateRelationship db uuid now req with
  | mk db1 res =>
    cases res with
    | error e => rw [CreateRelationship_error h]; exact hinv
    | ok r =>
      obtain ⟨-, c1, c2, h1, h2, hg, -, -, hrow, hdb⟩ := CreateRelationship_ok h
      have hchars : db1.characters = db.characters := by rw [hdb]
      have hrels : db1.relationships = db.relationships ++ [r] := by rw [hdb]
      show SameGroupInv db1
      intro x hx
      rw [hrels] at hx
      rcases List.mem_append.mp hx with hx | hx
      · exact sameGroup_congr hchars (hinv x hx)
      · rw [List.mem_singleton.mp hx]
        exact sameGroup_congr hchars
          (sameGroup_of_lookups h1 h2 hg (by rw [hrow]) (by rw [hrow]) (by rw [hrow]))

theorem UpdateRelationship_sameGroup (db : DB) (id : String) (req : Relationship)
    (hinv : SameGroupInv db) : SameGroupInv (UpdateRelationship db id req).1 := by
  cases h : UpdateRelationship db id req with
  | mk db1 res =>
    cases res with
    | error e => rw [UpdateRelationship_error h]; exact hinv
    | ok r =>
      obtain ⟨existing, -, hmem, -, -, -, hbranch, hrow, hdb⟩ := UpdateRelationship_ok h
      have hchars : db1.characters = db.characters := by rw [hdb]
      have hrels : db1.relationships
          = db.relationships.map (fun x => if x.ID == existing.ID then r else x) := by
        rw [hdb]
      have hr : sameGroup db r := by
        rcases hbranch with ⟨-, hv⟩ | ⟨⟨hs1, hs2⟩, hg⟩
        · obtain ⟨c1, c2, h1, h2, hg, hveq, -⟩ := validatePair_ok hv
          have hgr : r.GroupID = c1.GroupID := by
            have := congrArg Relationship.GroupID hveq
            simpa using this
          exact sameGroup_of_lookups h1 h2 hg hgr (by rw [hrow]) (by rw [hrow])
        · obtain ⟨c1, c2, h1, h2, hcg, heg⟩ := hinv existing hmem
          exact sameGroup_of_lookups h1 h2 hcg (hg.trans heg)
            (by rw [hrow, hs1, hs2]) (by rw [hrow, hs1, hs2])
      show SameGroupInv db1
      intro x hx
      rw [hrels] at hx
      obtain ⟨x0, hx0, hx0eq⟩ := List.mem_map.mp hx
      by_cases hk : x0.ID = existing.ID
      · simp only [hk, beq_self_eq_true, if_true] at hx0eq
        rw [← hx0eq]; exact sameGroup_congr hchars hr
      · have : (x0.ID == existing.ID) = false := by simpa using hk
        simp only [this, Bool.false_eq_true, if_false] at hx0eq
        rw [← hx0eq]; exact sameGroup_congr hchars (hinv x0 hx0)

theorem sample_a_lt_d : ("a" : String) < "d" := String.lt_iff_toList_lt.mpr (by decide)

theorem sample_min_da : min ("d" : String) "a" = "a" := min_eq_right sample_a_lt_d.le
theorem sample_max_da : max ("d" : String) "a" = "d" := max_eq_left sample_a_lt_d.le

theorem sample_update_move :
    UpdateRelationship sampleDB1 "r1" sampleMoveRequest = (sampleDB2, .ok sampleRowMoved) := by
  simp [UpdateRelationship_spec, validatePair_eq, sampleDB, sampleDB1, sampleDB2, sampleRow,
    sampleRowMoved, sampleMoveRequest, sampleCharacter, sample_min_da, sample_max_da]

theorem sample_update_keep :
    UpdateRelationship sampleDB1 "r1" sampleKeepRequest = (sampleDB3, .ok sampleRowKept) := by
  simp [UpdateRelationship_spec, sampleDB, sampleDB1, sampleDB3, sampleRow,
    sampleRowKept, sampleKeepRequest, sample_min_ab, sample_max_ab]

theorem sample_regroup : run sampleGroupsDB sampleRegroupOps = sampleRegroupedDB := by
  simp [run, step, sampleGroupsDB, sampleRegroupOps, sampleRegroupedDB,
    characterService.CreateCharacter, characterService.UpdateCharacter,
    characterRepository.Create, characterRepository.Update, characterRepository.GetByID,
    groupRepository.ExistsByID, CreateRelationship_spec, validatePair_eq,
    sampleGroup, sampleCharacter, sampleRequest, sampleRow, sample_min_ab, sample_max_ab]

/-- In any database: when the relationship stored under `id` holds its pair in strict order
and both characters are stored in one group, an update of `id` whose request names the pair
in the other order is refused as a duplicate (of the relationship itself). -/
theorem UpdateRelationship_reversed_conflict (db : DB) (id : String)
    (req existing : Relationship) (c1 c2 : Character)
    (hex : relationshipRepository.GetByID db id = .ok existing)
    (hlt : existing.Character1ID < existing.Character2ID)
    (h1 : characterRepository.GetByID db existing.Character1ID = .ok c1)
    (h2 : characterRepository.GetByID db existing.Character2ID = .ok c2)
    (hg : c1.GroupID = c2.GroupID)
    (hr1 : req.Character1ID = existing.Character2ID)
    (hr2 : req.Character2ID = existing.Character1ID) :
    UpdateRelationship db id req
      = (db, .error "relationship already exists between these characters") := by
  rw [UpdateRelationship_spec]
  unfold relationshipRepository.GetByID at hex
  cases hfind : db.relationships.find? (fun r => r.ID == id) with
  | none => simp [hfind] at hex
  | some e =>
    simp only [hfind, Except.ok.injEq] at hex
    subst hex
    have hself : req.Character1ID ≠ req.Character2ID := by
      rw [hr1, hr2]; exact hlt.ne'
    have hch : req.Character1ID ≠ e.Character1ID ∨ req.Character2ID ≠ e.Character2ID :=
      Or.inl (by rw [hr1]; exact hlt.ne')
    have hv : validatePair db req
        = .error "relationship already exists between these characters" :=
      @validatePair_conflict db req c2 c1 (by rw [hr1]; exact h2) (by rw [hr2]; exact h1)
        hg.symm ⟨e, List.mem_of_find?_eq_some hfind,
          by rw [hr1, hr2, min_eq_right hlt.le], by rw [hr1, hr2, max_eq_left hlt.le]⟩
    simp only [if_neg hself, if_pos hch, hv]

theorem labelRepository_ExistsByID_eq (db : DB) (id : String) :
    labelRepository.ExistsByID db id = .ok (db.labels.any (fun l => l.ID == id)) := by
  simp only [labelRepository.ExistsByID, count_pos_iff]

theorem characterRepository_ExistsByID_any (db : DB) (id : String) :
    characterRepository.ExistsByID db id = .ok (db.characters.any (fun c => c.ID == id)) := by
  simp only [characterRepository.ExistsByID, count_pos_iff]

theorem characterRepository_HasLabel_eq (db : DB) (c l : String) :
    characterRepository.HasLabel db c l
      = .ok (db.character_labels.any (fun j => j.1 == c && j.2 == l)) := by
  simp only [characterRepository.HasLabel, count_pos_iff]

theorem find?_of_any {α : Type} (p : α → Bool) (l : List α) (h : l.any p = true) :
    ∃ x, l.find? p = some x ∧ p x = true := by
  cases hf : l.find? p with
  | none =>
    rw [List.find?_eq_none] at hf
    obtain ⟨x, hx, hpx⟩ := List.any_eq_true.mp h
    exact absurd hpx (hf x hx)
  | some x => exact ⟨x, rfl, List.find?_some hf⟩

theorem labelsOf_length (db : DB) (c : String) :
    (labelsOf db c).length = (db.character_labels.filter (fun j => j.1 == c)).length := by
  simp only [labelsOf, List.length_map]

theorem AddLabelToCharacter_spec (db : DB) (c l : String) :
    characterService.AddLabelToCharacter db c l =
      if db.characters.any (fun x => x.ID == c) = false then
        (db, .error "character not found")
      else if db.labels.any (fun x => x.ID == l) = false then
        (db, .error "label not found")
      else if db.character_labels.any (fun j => j.1 == c && j.2 == l) = true then
        (db, .error "character already has this label")
      else if (labelsOf db c).length ≥ 5 then
        (db, .error "character cannot have more than 5 labels")
      else
        ({ db with character_labels := db.character_labels ++ [(c, l)] }, .ok ()) := by
  unfold characterService.AddLabelToCharacter
  rw [characterRepository_ExistsByID_any, labelRepository_ExistsByID_eq,
    characterRepository_HasLabel_eq, labelsOf_length]
  cases hc : db.characters.any (fun x => x.ID == c) with
  | false => simp
  | true =>
    cases hl : db.labels.any (fun x => x.ID == l) with
    | false => simp
    | true =>
      cases hj : db.character_labels.any (fun j => j.1 == c && j.2 == l) with
      | true => simp
      | false =>
        obtain ⟨ch, hch, hchid⟩ := find?_of_any _ _ hc
        obtain ⟨lb, hlb, hlbid⟩ := find?_of_any _ _ hl
        have hchid' : ch.ID = c := by simpa using hchid
        have hlbid' : lb.ID = l := by simpa using hlbid
        simp only [characterRepository.GetLabelsCount, characterRepository.AddLabel, hch, hlb,
          hchid', hlbid', hj]
        by_cases hn : (db.character_labels.filter (fun j => j.1 == c)).length ≥ 5
        · simp [hn]
        · simp [hn]

theorem RemoveLabelFromCharacter_spec (db : DB) (c l : String) :
    characterService.RemoveLabelFromCharacter db c l =
      if db.characters.any (fun x => x.ID == c) = false then
        (db, .error "character not found")
      else if db.labels.any (fun x => x.ID == l) = false then
        (db, .error "label not found")
      else
        ({ db with character_labels :=
            db.character_labels.filter (fun j => !(j.1 == c && j.2 == l)) }, .ok ()) := by
  unfold characterService.RemoveLabelFromCharacter
  rw [characterRepository_ExistsByID_any, labelRepository_ExistsByID_eq]
  cases hc : db.characters.any (fun x => x.ID == c) with
  | false => simp
  | true =>
    cases hl : db.labels.any (fun x => x.ID == l) with
    | false => simp
    | true =>
      obtain ⟨ch, hch, hchid⟩ := find?_of_any _ _ hc
      obtain ⟨lb, hlb, hlbid⟩ := find?_of_any _ _ hl
      have hchid' : ch.ID = c := by simpa using hchid
      have hlbid' : lb.ID = l := by simpa using hlbid
      simp [characterRepository.RemoveLabel, hch, hlb, hchid', hlbid']

theorem linksPair_canonical {a b : String} {x : Relationship}
    (hle : x.Character1ID ≤ x.Character2ID) (h : linksPair a b x = true) :
    x.Character1ID = min a b ∧ x.Character2ID = max a b := by
  unfold linksPair at h
  simp only [Bool.or_eq_true, Bool.and_eq_true, beq_iff_eq] at h
  rcases h with ⟨h1, h2⟩ | ⟨h1, h2⟩
  · rw [h1, h2] at hle
    rw [h1, h2, min_eq_left hle, max_eq_right hle]
    exact ⟨rfl, rfl⟩
  · rw [h1, h2] at hle
    rw [h1, h2, min_eq_right hle, max_eq_left hle]
    exact ⟨rfl, rfl⟩

theorem UpdateRelationship_taken_pair (db : DB) (id : String) (req r other : Relationship)
    (ca cb : Character)
    (hord : ∀ x ∈ db.relationships, x.Character1ID ≤ x.Character2ID)
    (hex : relationshipRepository.GetByID db id = .ok r)
    (hne : req.Character1ID ≠ req.Character2ID)
    (hdiff : linksPair req.Character1ID req.Character2ID r = false)
    (ha : characterRepository.GetByID db req.Character1ID = .ok ca)
    (hb : characterRepository.GetByID db req.Character2ID = .ok cb)
    (hg : ca.GroupID = cb.GroupID)
    (hother : other ∈ db.relationships)
    (hlinks : linksPair req.Character1ID req.Character2ID other = true) :
    UpdateRelationship db id req
      = (db, .error "relationship already exists between these characters") := by
  rw [UpdateRelationship_spec]
  unfold relationshipRepository.GetByID at hex
  cases hfind : db.relationships.find? (fun x => x.ID == id) with
  | none => simp [hfind] at hex
  | some e =>
    simp only [hfind, Except.ok.injEq] at hex
    subst hex
    have hch : req.Character1ID ≠ e.Character1ID ∨ req.Character2ID ≠ e.Character2ID := by
      by_contra hcon
      simp only [not_or, not_not] at hcon
      have : linksPair req.Character1ID req.Character2ID e = true := by
        unfold linksPair
        simp [hcon.1, hcon.2]
      rw [hdiff] at this
      exact Bool.noConfusion this
    obtain ⟨h1, h2⟩ := linksPair_canonical (hord other hother) hlinks
    have hv : validatePair db req
        = .error "relationship already exists between these characters" :=
      validatePair_conflict ha hb hg ⟨other, hother, h1, h2⟩
    simp only [if_neg hne, if_pos hch, hv]

theorem UpdateCharacter_ok {db db1 : DB} {now : Nat} {id : String} {req r : Character}
    (h : characterService.UpdateCharacter db now id req = (db1, .ok r)) :
    ∃ existing, characterRepository.GetByID db id = .ok existing
      ∧ existing.ID = id
      ∧ r = { req with ID := existing.ID, CreatedAt := existing.CreatedAt, UpdatedAt := now }
      ∧ db1 = { db with characters :=
                  db.characters.map (fun x => if x.ID == existing.ID then r else x) } := by
  unfold characterService.UpdateCharacter at h
  cases hex : characterRepository.GetByID db id with
  | error e => simp [hex] at h
  | ok existing =>
    simp only [hex] at h
    have hfind := characterRepository_GetByID_ok.mp hex
    have hid : existing.ID = id := by simpa using List.find?_some hfind
    have hany : db.characters.any (fun x => x.ID == existing.ID) = true :=
      List.any_eq_true.mpr ⟨existing, List.mem_of_find?_eq_some hfind, by simp⟩
    split at h
    · simp at h
    · unfold characterRepository.Update at h
      simp only [hany, and_true] at h
      by_cases hempty : existing.ID = ""
      · simp [hempty] at h
      · simp only [hempty, ne_eq, not_false_eq_true, if_true, characterRepository.GetByID,
          Prod.mk.injEq] at h
        obtain ⟨hdb, hres⟩ := h
        rw [find?_map_replace Character.ID, hfind] at hres
        · simp only [Option.map_some', beq_self_eq_true, if_true, Except.ok.injEq] at hres
          refine ⟨existing, rfl, hid, hres.symm, ?_⟩
          rw [← hdb, ← hres]
        · rfl

theorem labelRepository_GetByID_ok {db : DB} {id : String} {l : Label} :
    labelRepository.GetByID db id = .ok l
      ↔ db.labels.find? (fun x => x.ID == id) = some l := by
  unfold labelRepository.GetByID
  cases db.labels.find? (fun x => x.ID == id) with
  | none => simp
  | some l' => simp

theorem UpdateLabel_ok {db db1 : DB} {id : String} {req r : Label}
    (h : labelService.UpdateLabel db id req = (db1, .ok r)) :
    ∃ existing, labelRepository.GetByID db id = .ok existing
      ∧ existing.ID = id
      ∧ r = { req with ID := existing.ID, CreatedAt := existing.CreatedAt }
      ∧ db1 = { db with labels :=
                  db.labels.map (fun x => if x.ID == existing.ID then r else x) } := by
  unfold labelService.UpdateLabel at h
  cases hex : labelRepository.GetByID db id with
  | error e => simp [hex] at h
  | ok existing =>
    simp only [hex] at h
    have hfind := labelRepository_GetByID_ok.mp hex
    have hid : existing.ID = id := by simpa using List.find?_some hfind
    have hany : db.labels.any (fun x => x.ID == existing.ID) = true :=
      List.any_eq_true.mpr ⟨existing, List.mem_of_find?_eq_some hfind, by simp⟩
    split at h
    · simp at h
    · unfold labelRepository.Update at h
      simp only [hany, and_true] at h
      cases hu : db.labels.any (fun l => !(l.ID == existing.ID) && l.Name == req.Name) with
      | true => simp [hu] at h
      | false =>
        simp only [hu, Bool.false_eq_true, if_false] at h
        by_cases hempty : existing.ID = ""
        · simp [hempty] at h
        · simp only [hempty, ne_eq, not_false_eq_true, if_true, Prod.mk.injEq,
            Except.ok.injEq] at h
          obtain ⟨hdb, hres⟩ := h
          refine ⟨existing, rfl, hid, hres.symm, ?_⟩
          rw [← hdb, ← hres]

theorem DeleteRelationship_spec (db : DB) (id : String) :
    DeleteRelationship db id =
      if db.relationships.any (fun r => r.ID == id) = false then
        (db, .error "relationship not found")
      else
        ({ db with relationships := db.relationships.filter (fun r => !(r.ID == id)) },
         .ok ()) := by
  unfold DeleteRelationship relationshipRepository.ExistsByID relationshipRepository.Delete
  simp only [count_pos_iff]
  cases db.relationships.any (fun r => r.ID == id) <;> simp

theorem GetRelationshipsByCharacterID_spec (db : DB) (x : String) :
    GetRelationshipsByCharacterID db x =
      if db.characters.any (fun c => c.ID == x) = false then .error "character not found"
      else .ok (db.relationships.filter
        (fun r => r.Character1ID == x || r.Character2ID == x)) := by
  unfold GetRelationshipsByCharacterID relationshipRepository.GetByCharacterID
  rw [characterRepository_ExistsByID_any]
  cases db.characters.any (fun c => c.ID == x) <;> simp

theorem any_false_of_forall_ne {α : Type} (key : α → String) (l : List α) (k : String)
    (h : ∀ x ∈ l, key x ≠ k) : l.any (fun x => key x == k) = false := by
  rw [Bool.eq_false_iff]
  intro hany
  obtain ⟨x, hx, hk⟩ := List.any_eq_true.mp hany
  exact h x hx (by simpa using hk)

theorem any_true_of_exists_eq {α : Type} (key : α → String) (l : List α) (k : String)
    (h : ∃ x ∈ l, key x = k) : l.any (fun x => key x == k) = true := by
  obtain ⟨x, hx, hk⟩ := h
  exact List.any_eq_true.mpr ⟨x, hx, by simp [hk]⟩

theorem sample_update_character :
    characterService.UpdateCharacter sampleLabelsDB 7 "x" sampleCharacterRequest
      = ({ sampleLabelsDB with characters :=
            [sampleCharacterUpdated, sampleCharacter "y" "g1", sampleCharacter "z" "g1"] },
         .ok sampleCharacterUpdated) := by
  simp [characterService.UpdateCharacter, characterRepository.GetByID,
    characterRepository.Update, sampleLabelsDB, sampleCharacterRequest,
    sampleCharacterUpdated, sampleCharacter]

theorem sample_update_label :
    labelService.UpdateLabel sampleLabelsDB "L1" sampleLabelRequest
      = ({ sampleLabelsDB with labels :=
            [sampleLabelUpdated, sampleLabel "L2", sampleLabel "L3", sampleLabel "L4",
              sampleLabel "L5", sampleLabel "L6"] },
         .ok sampleLabelUpdated) := by
  simp [labelService.UpdateLabel, labelRepository.GetByID, labelRepository.ExistsByName,
    labelRepository.Update, sampleLabelsDB, sampleLabelRequest, sampleLabelUpdated,
    sampleLabel]

theorem hasJoin_iff (js : List (String × String)) (c l : String) :
    js.any (fun j => j.1 == c && j.2 == l) = true ↔ (c, l) ∈ js := by
  rw [List.any_eq_true]
  constructor
  · rintro ⟨⟨a, b⟩, hj, hp⟩
    simp only [Bool.and_eq_true, beq_iff_eq] at hp
    rw [← hp.1, ← hp.2]
    exact hj
  · intro h
    exact ⟨(c, l), h, by simp⟩

theorem hasJoin_false_iff (js : List (String × String)) (c l : String) :
    js.any (fun j => j.1 == c && j.2 == l) = false ↔ (c, l) ∉ js := by
  rw [← hasJoin_iff, Bool.not_eq_true]

theorem mem_labelsOf (db : DB) (c l : String) :
    l ∈ labelsOf db c ↔ (c, l) ∈ db.character_labels := by
  unfold labelsOf
  simp only [List.mem_map, List.mem_filter, beq_iff_eq]
  constructor
  · rintro ⟨⟨a, b⟩, ⟨hj, ha⟩, hb⟩
    simp only at ha hb
    rw [← ha, ← hb]
    exact hj
  · intro h
    exact ⟨(c, l), ⟨h, rfl⟩, rfl⟩

theorem labelsOf_add (db : DB) (c l c' : String) :
    labelsOf { db with character_labels := db.character_labels ++ [(c, l)] } c'
      = labelsOf db c' ++ (if c = c' then [l] else []) := by
  unfold labelsOf
  by_cases h : c = c'
  · simp [List.filter_append, List.filter_cons, h]
  · simp [List.filter_append, List.filter_cons, h]

theorem labelsOf_remove (db : DB) (c l c' : String) :
    labelsOf { db with character_labels :=
        db.character_labels.filter (fun j => !(j.1 == c && j.2 == l)) } c'
      = if c = c' then (labelsOf db c').filter (fun x => !(x == l)) else labelsOf db c' := by
  unfold labelsOf
  by_cases h : c = c'
  · subst h
    simp only [if_true, List.filter_map, List.filter_filter]
    congr 1
    apply List.filter_congr
    rintro ⟨a, b⟩ -
    by_cases ha : a = c
    · simp [ha, Function.comp]
    · have hf : (a == c) = false := by simpa using ha
      simp [hf, Function.comp]
  · simp only [if_neg h, List.filter_filter]
    congr 1
    apply List.filter_congr
    rintro ⟨a, b⟩ -
    by_cases ha : a = c'
    · have hc : ¬ c' = c := fun e => h e.symm
      simp [ha, hc]
    · simp [ha]

theorem db_eta_character_labels (db : DB) :
    { db with character_labels := db.character_labels } = db := by
  cases db
  rfl

theorem AddLabelToCharacter_present (db : DB) (c l : String)
    (hc : ∃ x ∈ db.characters, x.ID = c) (hl : ∃ x ∈ db.labels, x.ID = l) :
    characterService.AddLabelToCharacter db c l =
      if (c, l) ∈ db.character_labels then
        (db, .error "character already has this label")
      else if (labelsOf db c).length ≥ 5 then
        (db, .error "character cannot have more than 5 labels")
      else
        ({ db with character_labels := db.character_labels ++ [(c, l)] }, .ok ()) := by
  rw [AddLabelToCharacter_spec, any_true_of_exists_eq Character.ID db.characters c hc,
    any_true_of_exists_eq Label.ID db.labels l hl]
  by_cases hj : (c, l) ∈ db.character_labels
  · simp [hj, (hasJoin_iff db.character_labels c l).mpr hj]
  · simp [hj, (hasJoin_false_iff db.character_labels c l).mpr hj]

theorem AddLabelToCharacter_ok {db db1 : DB} {c l : String}
    (h : characterService.AddLabelToCharacter db c l = (db1, .ok ())) :
    (∃ x ∈ db.characters, x.ID = c) ∧ (∃ x ∈ db.labels, x.ID = l)
    ∧ (c, l) ∉ db.character_labels ∧ (labelsOf db c).length < 5
    ∧ db1 = { db with character_labels := db.character_labels ++ [(c, l)] } := by
  rw [AddLabelToCharacter_spec] at h
  cases hc : db.characters.any (fun x => x.ID == c) with
  | false => simp [hc] at h
  | true =>
    cases hl : db.labels.any (fun x => x.ID == l) with
    | false => simp [hc, hl] at h
    | true =>
      cases hj : db.character_labels.any (fun j => j.1 == c && j.2 == l) with
      | true => simp [hc, hl, hj] at h
      | false =>
        by_cases hn : (labelsOf db c).length ≥ 5
        · simp [hc, hl, hj, hn] at h
        · simp only [hc, hl, hj, hn, Bool.true_eq_false, Bool.false_eq_true, if_false,
            Prod.mk.injEq, and_true] at h
          obtain ⟨x, hx, hxid⟩ := List.any_eq_true.mp hc
          obtain ⟨y, hy, hyid⟩ := List.any_eq_true.mp hl
          exact ⟨⟨x, hx, by simpa using hxid⟩, ⟨y, hy, by simpa using hyid⟩,
            (hasJoin_false_iff _ c l).mp hj, Nat.lt_of_not_le hn, h.symm⟩

theorem AddLabelToCharacter_error {db db1 : DB} {c l e : String}
    (h : characterService.AddLabelToCharacter db c l = (db1, .error e)) : db1 = db := by
  rw [AddLabelToCharacter_spec] at h
  split_ifs at h <;> simp only [Prod.mk.injEq] at h
  · exact h.1.symm
  · exact h.1.symm
  · exact h.1.symm
  · exact h.1.symm
  · exact absurd h.2 (by simp)

theorem RemoveLabelFromCharacter_present (db : DB) (c l : String)
    (hc : ∃ x ∈ db.characters, x.ID = c) (hl : ∃ x ∈ db.labels, x.ID = l) :
    characterService.RemoveLabelFromCharacter db c l =
      ({ db with character_labels :=
          db.character_labels.filter (fun j => !(j.1 == c && j.2 == l)) }, .ok ()) := by
  rw [RemoveLabelFromCharacter_spec, any_true_of_exists_eq Character.ID db.characters c hc,
    any_true_of_exists_eq Label.ID db.labels l hl]
  simp

theorem AddLabelToCharacter_bounded (db : DB) (c l : String) (hb : LabelsBounded db) :
    LabelsBounded (characterService.AddLabelToCharacter db c l).1 := by
  cases h : characterService.AddLabelToCharacter db c l with
  | mk db1 res =>
    cases res with
    | error e => rw [AddLabelToCharacter_error h]; exact hb
    | ok u =>
      obtain ⟨-, -, hj, hn, hdb⟩ := AddLabelToCharacter_ok h
      show LabelsBounded db1
      intro c'
      rw [hdb, labelsOf_add]
      by_cases hcc : c = c'
      · subst hcc
        simp only [if_true, List.length_append, List.length_singleton]
        refine ⟨hn, ?_⟩
        rw [List.nodup_append]
        refine ⟨(hb c).2, List.nodup_singleton l, ?_⟩
        intro a ha hb'
        rw [List.mem_singleton.mp hb'] at ha
        exact hj ((mem_labelsOf db c l).mp ha)
      · simp only [if_neg hcc, List.append_nil]
        exact hb c'

theorem RemoveLabelFromCharacter_bounded (db : DB) (c l : String) (hb : LabelsBounded db) :
    LabelsBounded (characterService.RemoveLabelFromCharacter db c l).1 := by
  rw [RemoveLabelFromCharacter_spec]
  split_ifs
  · exact hb
  · exact hb
  · intro c'
    show (labelsOf { db with character_labels :=
        db.character_labels.filter (fun j => !(j.1 == c && j.2 == l)) } c').length ≤ 5 ∧ _
    rw [labelsOf_remove]
    by_cases hcc : c = c'
    · simp only [if_pos hcc]
      exact ⟨le_trans (List.length_filter_le _ _) (hb c').1,
        (hb c').2.sublist (List.filter_sublist _)⟩
    · simp only [if_neg hcc]
      exact hb c'

theorem labelRun_bounded (ops : List LabelOp) (db : DB) (hb : LabelsBounded db) :
    LabelsBounded (labelRun db ops) := by
  induction ops generalizing db with
  | nil => exact hb
  | cons op ops ih =>
    apply ih
    cases op with
    | addLabel c l => exact AddLabelToCharacter_bounded db c l hb
    | removeLabel c l => exact RemoveLabelFromCharacter_bounded db c l hb

theorem labelRepository_ExistsByName_eq (db : DB) (name : String) :
    labelRepository.ExistsByName db name = .ok (db.labels.any (fun l => l.Name == name)) := by
  simp only [labelRepository.ExistsByName, count_pos_iff]

theorem CreateLabel_spec (db : DB) (uuid : String) (now : Nat) (label : Label) :
    labelService.CreateLabel db uuid now label =
      if db.labels.any (fun l => l.Name == label.Name) = true then
        (db, .error "label with this name already exists")
      else if db.labels.any (fun l => l.ID == uuid) = true then
        (db, .error ("failed to create label: " ++ ErrDuplicatedKey))
      else
        ({ db with labels := db.labels ++
            [{ label with ID := uuid,
                          CreatedAt := if label.CreatedAt = 0 then now else label.CreatedAt }] },
         .ok { label with ID := uuid,
                          CreatedAt := if label.CreatedAt = 0 then now else label.CreatedAt }) := by
  unfold labelService.CreateLabel labelRepository.Create
  rw [labelRepository_ExistsByName_eq]
  cases hn : db.labels.any (fun l => l.Name == label.Name) with
  | true => simp
  | false =>
    cases hi : db.labels.any (fun l => l.ID == uuid) with
    | true => simp [hi]
    | false => simp [hi, hn]

theorem UpdateLabel_error {db db1 : DB} {id : String} {label : Label} {e : String}
    (h : labelService.UpdateLabel db id label = (db1, .error e)) : db1 = db := by
  unfold labelService.UpdateLabel at h
  cases hex : labelRepository.GetByID db id with
  | error e' =>
    simp only [hex, Prod.mk.injEq] at h
    exact h.1.symm
  | ok existing =>
    simp only [hex] at h
    split at h
    · simp only [Prod.mk.injEq] at h
      exact h.1.symm
    · cases hu : labelRepository.Update db
          { label with ID := existing.ID, CreatedAt := existing.CreatedAt } with
      | error e' =>
        simp only [hu, Prod.mk.injEq] at h
        exact h.1.symm
      | ok p =>
        simp only [hu, Prod.mk.injEq] at h
        exact absurd h.2 (by simp)

theorem groupRepository_ExistsByID_eq (db : DB) (id : String) :
    groupRepository.ExistsByID db id = .ok (db.groups.any (fun g => g.ID == id)) := by
  simp only [groupRepository.ExistsByID, count_pos_iff]

theorem CreateCharacter_cases (db : DB) (uuid : String) (now : Nat) (character : Character) :
    (characterService.CreateCharacter db uuid now character).1 = db
    ∨ ∃ c, c.GroupID = character.GroupID ∧ (∃ g ∈ db.groups, g.ID = character.GroupID)
        ∧ (characterService.CreateCharacter db uuid now character).1
            = { db with characters := db.characters ++ [c] } := by
  unfold characterService.CreateCharacter
  rw [groupRepository_ExistsByID_eq]
  cases hg : db.groups.any (fun g => g.ID == character.GroupID) with
  | false => exact Or.inl rfl
  | true =>
    obtain ⟨g, hgm, hgid⟩ := List.any_eq_true.mp hg
    simp only [Bool.not_true, Bool.false_eq_true, if_false]
    cases hc : characterRepository.Create db uuid now character with
    | error e => exact Or.inl rfl
    | ok p =>
      obtain ⟨db1, c⟩ := p
      unfold characterRepository.Create at hc
      cases hany : db.characters.any (fun c => c.ID == uuid) with
      | true => simp [hany] at hc
      | false =>
        simp only [hany, Bool.false_eq_true, if_false, Except.ok.injEq, Prod.mk.injEq] at hc
        refine Or.inr ⟨c, by rw [← hc.2], ⟨g, hgm, by simpa using hgid⟩, ?_⟩
        show db1 = _
        rw [← hc.1, ← hc.2]

theorem UpdateCharacter_error {db db1 : DB} {now : Nat} {id : String} {req : Character}
    {e : String} (h : characterService.UpdateCharacter db now id req = (db1, .error e)) :
    db1 = db := by
  unfold characterService.UpdateCharacter at h
  cases hex : characterRepository.GetByID db id with
  | error e' =>
    simp only [hex, Prod.mk.injEq] at h
    exact h.1.symm
  | ok existing =>
    simp only [hex] at h
    have hfind := characterRepository_GetByID_ok.mp hex
    split at h
    · simp only [Prod.mk.injEq] at h
      exact h.1.symm
    · cases hu : characterRepository.Update db now
          { req with ID := existing.ID, CreatedAt := existing.CreatedAt } with
      | error e' =>
        simp only [hu, Prod.mk.injEq] at h
        exact h.1.symm
      | ok p =>
        exfalso
        obtain ⟨db2, r⟩ := p
        simp only [hu, Prod.mk.injEq] at h
        have hany : db.characters.any (fun x => x.ID == existing.ID) = true :=
          List.any_eq_true.mpr ⟨existing, List.mem_of_find?_eq_some hfind, by simp⟩
        unfold characterRepository.Update at hu
        simp only [hany, and_true] at hu
        by_cases hempty : existing.ID = ""
        · simp [hempty] at hu
        · simp only [hempty, ne_eq, not_false_eq_true, if_true, Except.ok.injEq,
            Prod.mk.injEq] at hu
          have hres := h.2
          rw [← hu.1] at hres
          simp only [characterRepository.GetByID] at hres
          rw [find?_map_replace Character.ID, hfind] at hres
          · simp at hres
          · rfl

theorem UpdateCharacter_groupRefs (db : DB) (now : Nat) (id : String) (req : Character)
    (hinv : GroupRefs db) :
    GroupRefs (characterService.UpdateCharacter db now id req).1 := by
  cases h : characterService.UpdateCharacter db now id req with
  | mk db1 res =>
    cases res with
    | error e => rw [UpdateCharacter_error h]; exact hinv
    | ok r =>
      obtain ⟨existing, hex, hid, hrow, hdb⟩ := UpdateCharacter_ok h
      have hmem : existing ∈ db.characters :=
        List.mem_of_find?_eq_some (characterRepository_GetByID_ok.mp hex)
      have hrg : ∃ g ∈ db.groups, g.ID = r.GroupID := by
        have hrG : r.GroupID = req.GroupID := by rw [hrow]
        rw [hrG]
        by_cases hsame : req.GroupID = existing.GroupID
        · rw [hsame]; exact hinv existing hmem
        · unfold characterService.UpdateCharacter at h
          simp only [hex, ne_eq, hsame, not_false_eq_true, if_true] at h
          rw [groupRepository_ExistsByID_eq] at h
          cases hg : db.groups.any (fun g => g.ID == req.GroupID) with
          | false => simp [hg] at h
          | true =>
            obtain ⟨g, hgm, hgid⟩ := List.any_eq_true.mp hg
            exact ⟨g, hgm, by simpa using hgid⟩
      show GroupRefs db1
      intro c hc
      rw [hdb] at hc
      obtain ⟨c0, hc0, hc0eq⟩ := List.mem_map.mp hc
      have hgroups : db1.groups = db.groups := by rw [hdb]
      rw [hgroups]
      by_cases hk : c0.ID = existing.ID
      · simp only [hk, beq_self_eq_true, if_true] at hc0eq
        rw [← hc0eq]; exact hrg
      · have : (c0.ID == existing.ID) = false := by simpa using hk
        simp only [this, Bool.false_eq_true, if_false] at hc0eq
        rw [← hc0eq]; exact hinv c0 hc0

theorem UpdateLabel_unique {db db1 : DB} {id : String} {req r : Label}
    (h : labelService.UpdateLabel db id req = (db1, .ok r)) :
    ∀ l ∈ db.labels, l.ID ≠ id → l.Name ≠ req.Name := by
  unfold labelService.UpdateLabel at h
  cases hex : labelRepository.GetByID db id with
  | error e => simp [hex] at h
  | ok existing =>
    simp only [hex] at h
    have hfind := labelRepository_GetByID_ok.mp hex
    have hid : existing.ID = id := by simpa using List.find?_some hfind
    split at h
    · simp at h
    · unfold labelRepository.Update at h
      cases hu : db.labels.any (fun l => !(l.ID == existing.ID) && l.Name == req.Name) with
      | true => simp [hu] at h
      | false =>
        intro l hl hne hname
        have := List.any_eq_false.mp hu l hl
        rw [hid] at this
        simp [hne, hname] at this

theorem LabelsWF_append {ls : List Label} {x : Label} (hwf : LabelsWF ls)
    (hid : ∀ l ∈ ls, l.ID ≠ x.ID) (hname : ∀ l ∈ ls, l.Name ≠ x.Name) :
    LabelsWF (ls ++ [x]) := by
  unfold LabelsWF at *
  rw [List.pairwise_append]
  refine ⟨hwf, List.pairwise_singleton _ _, ?_⟩
  intro a ha b hb
  rw [List.mem_singleton.mp hb]
  exact ⟨hid a ha, hname a ha⟩

theorem LabelsWF_replace {ls : List Label} {r : Label} (hwf : LabelsWF ls)
    (hname : ∀ l ∈ ls, l.ID ≠ r.ID → l.Name ≠ r.Name) :
    LabelsWF (ls.map (fun x => if x.ID == r.ID then r else x)) := by
  unfold LabelsWF at *
  induction ls with
  | nil => simp
  | cons a rest ih =>
    rw [List.pairwise_cons] at hwf
    rw [List.map_cons, List.pairwise_cons]
    refine ⟨?_, ih hwf.2 (fun l hl => hname l (List.mem_cons_of_mem _ hl))⟩
    intro b' hb'
    obtain ⟨b, hb, rfl⟩ := List.mem_map.mp hb'
    have hab := hwf.1 b hb
    by_cases ha : a.ID = r.ID
    · have hbr : b.ID ≠ r.ID := fun h => hab.1 (ha.trans h.symm)
      have hbn := hname b (List.mem_cons_of_mem _ hb) hbr
      simp only [ha, beq_self_eq_true, if_true, beq_iff_eq, hbr, if_false]
      exact ⟨fun h => hbr h.symm, fun h => hbn h.symm⟩
    · have han := hname a (List.mem_cons_self _ _) ha
      simp only [beq_iff_eq, ha, if_false]
      by_cases hbr : b.ID = r.ID
      · simp only [hbr, if_true]
        exact ⟨ha, han⟩
      · simp only [hbr, if_false]
        exact hab

theorem CreateLabel_WF (db : DB) (uuid : String) (now : Nat) (label : Label)
    (hwf : LabelsWF db.labels) :
    LabelsWF (labelService.CreateLabel db uuid now label).1.labels := by
  rw [CreateLabel_spec]
  cases hn : db.labels.any (fun l => l.Name == label.Name) with
  | true => simpa using hwf
  | false =>
    cases hi : db.labels.any (fun l => l.ID == uuid) with
    | true => simpa using hwf
    | false =>
      simp only [Bool.false_eq_true, if_false]
      refine LabelsWF_append hwf ?_ ?_
      · intro l hl
        have := List.any_eq_false.mp hi l hl
        simpa using this
      · intro l hl
        have := List.any_eq_false.mp hn l hl
        simpa using this

theorem UpdateLabel_WF (db : DB) (id : String) (label : Label)
    (hwf : LabelsWF db.labels) :
    LabelsWF (labelService.UpdateLabel db id label).1.labels := by
  cases hres : labelService.UpdateLabel db id label with
  | mk db1 res =>
    cases res with
    | error e => rw [UpdateLabel_error hres]; exact hwf
    | ok r =>
      obtain ⟨existing, _, hid, hr, hdb⟩ := UpdateLabel_ok hres
      have huniq := UpdateLabel_unique hres
      rw [hdb]
      have hrid : r.ID = existing.ID := by rw [hr]
      have hrn : r.Name = label.Name := by rw [hr]
      show LabelsWF (db.labels.map (fun x => if x.ID == existing.ID then r else x))
      rw [← hrid]
      refine LabelsWF_replace hwf ?_
      intro l hl hne
      rw [hrn]
      exact huniq l hl (by rw [← hid, ← hrid]; exact hne)

theorem DeleteLabel_spec (db : DB) (id : String) :
    labelService.DeleteLabel db id =
      if db.labels.any (fun l => l.ID == id) = false then (db, .error "label not found")
      else
        ({ db with
            labels := db.labels.filter (fun l => !(l.ID == id))
            character_labels := db.character_labels.filter (fun j => !(j.2 == id)) },
         .ok ()) := by
  unfold labelService.DeleteLabel labelRepository.Delete
  rw [labelRepository_ExistsByID_eq]
  cases db.labels.any (fun l => l.ID == id) <;> simp

theorem DeleteLabel_WF (db : DB) (id : String) (hwf : LabelsWF db.labels) :
    LabelsWF (labelService.DeleteLabel db id).1.labels := by
  rw [DeleteLabel_spec]
  cases db.labels.any (fun l => l.ID == id) with
  | false => simpa using hwf
  | true =>
    simp only [Bool.true_eq_false, if_false]
    exact List.Pairwise.sublist (List.filter_sublist _) hwf

theorem labelCallRun_WF (calls : List LabelCall) (db : DB) (hwf : LabelsWF db.labels) :
    LabelsWF (labelCallRun db calls).labels := by
  induction calls generalizing db with
  | nil => exact hwf
  | cons c rest ih =>
    show LabelsWF (labelCallRun (labelCallStep db c) rest).labels
    apply ih
    cases c with
    | createLabel uuid now label => exact CreateLabel_WF db uuid now label hwf
    | updateLabel id label => exact UpdateLabel_WF db id label hwf
    | deleteLabel id => exact DeleteLabel_WF db id hwf

theorem LabelsWF_names {ls : List Label} (hwf : LabelsWF ls) : (ls.map Label.Name).Nodup := by
  unfold LabelsWF at hwf
  rw [List.Nodup, List.pairwise_map]
  exact hwf.imp (fun h => h.2)

theorem extFrom_append (r rest acc : List Char) (hdot : '.' ∉ r) (hsep : '/' ∉ r) :
    imageService.extFrom (r ++ rest) acc = imageService.extFrom rest (r.reverse ++ acc) := by
  induction r generalizing acc with
  | nil => rfl
  | cons c r ih =>
    have hc1 : c ≠ '/' := fun h => hsep (h ▸ List.mem_cons_self _ _)
    have hc2 : c ≠ '.' := fun h => hdot (h ▸ List.mem_cons_self _ _)
    rw [List.cons_append, imageService.extFrom, if_neg hc1, if_neg hc2,
      ih _ (fun h => hdot (List.mem_cons_of_mem _ h)) (fun h => hsep (List.mem_cons_of_mem _ h))]
    simp

theorem matchesAllowed_iff (ext : String) (l : List String) :
    imageService.matchesAllowed ext l = true ↔ ext ∈ l := by
  induction l with
  | nil => simp [imageService.matchesAllowed]
  | cons a rest ih =>
    unfold imageService.matchesAllowed
    by_cases h : ext = a
    · simp [h]
    · simp [h, ih]

theorem UpdateGroup_found (db : DB) (now : Nat) (id : String) (req : UpdateGroupRequest)
    (g : Group) (hid : id ≠ "") (hval : groupService.validateUpdateGroupRequest req = .ok ())
    (hget : groupRepository.GetByID db id = .ok g) :
    groupService.UpdateGroup db now id req =
      ({ db with groups := db.groups.map (fun x =>
          if x.ID == g.ID then
            { ID := g.ID,
              Name := (match req.Name with
                | some name => name
                | none => g.Name),
              Description := (match req.Description with
                | some description => some description
                | none => g.Description),
              CreatedAt := g.CreatedAt, UpdatedAt := now }
          else x) },
       .ok { ID := g.ID,
             Name := (match req.Name with
               | some name => name
               | none => g.Name),
             Description := (match req.Description with
               | some description => some description
               | none => g.Description),
             CreatedAt := g.CreatedAt, UpdatedAt := now }) := by
  have hfind : db.groups.find? (fun x => x.ID == id) = some g := by
    unfold groupRepository.GetByID at hget
    cases hf : db.groups.find? (fun x => x.ID == id) with
    | none => simp [hf] at hget
    | some g' =>
      simp only [hf, Except.ok.injEq] at hget
      rw [hget]
  have hgid : g.ID = id := by simpa using List.find?_some hfind
  have hany : db.groups.any (fun x => x.ID == g.ID) = true :=
    List.any_eq_true.mpr ⟨g, List.mem_of_find?_eq_some hfind, by simp⟩
  have hne : g.ID ≠ "" := by rw [hgid]; exact hid
  unfold groupService.UpdateGroup groupRepository.Update
  rw [if_neg hid, hval, hget]
  cases hn : req.Name <;> cases hd : req.Description <;> simp [hany, hne]

theorem UpdateCharacter_lookup_other (db : DB) (now : Nat) (id : String)
    (character : Character) (id' : String) (c : Character)
    (hc : characterRepository.GetByID db id' = .ok c) :
    ∃ c', characterRepository.GetByID
        (characterService.UpdateCharacter db now id character).1 id' = .ok c'
      ∧ (id' ≠ id → c' = c) := by
  cases hres : characterService.UpdateCharacter db now id character with
  | mk db1 res =>
    cases res with
    | error e =>
      rw [UpdateCharacter_error hres]
      exact ⟨c, hc, fun _ => rfl⟩
    | ok r =>
      obtain ⟨existing, hex, hid, hr, hdb⟩ := UpdateCharacter_ok hres
      have hrid : r.ID = existing.ID := by rw [hr]
      rw [characterRepository_GetByID_ok] at hc
      have hcid : c.ID = id' := by simpa using List.find?_some hc
      show ∃ c', characterRepository.GetByID db1 id' = .ok c' ∧ (id' ≠ id → c' = c)
      rw [hdb]
      simp only [characterRepository.GetByID]
      rw [find?_map_replace Character.ID, hc]
      · simp only [Option.map_some']
        refine ⟨_, rfl, ?_⟩
        intro hne
        have hx : ¬ c.ID = existing.ID := by
          rw [hcid, hid]; exact hne
        simp [hx]
      · exact hrid

theorem step_sameGroup (db : DB) (op : Op) (hkeep : keepsGroup db op)
    (hinv : SameGroupInv db) : SameGroupInv (step db op) := by
  cases op with
  | createCharacter uuid now character =>
    intro r hr
    have hr' : r ∈ db.relationships := by
      have := CreateCharacter_relationships db uuid now character
      simp only [step] at hr
      rwa [this] at hr
    exact sameGroup_mono
      (fun id c hc => ⟨c, CreateCharacter_lookup db uuid now character id c hc, rfl⟩)
      (hinv r hr')
  | updateCharacter now id character =>
    intro r hr
    have hr' : r ∈ db.relationships := by
      have := UpdateCharacter_relationships db now id character
      simp only [step] at hr
      rwa [this] at hr
    obtain ⟨c1, c2, h1, h2, hg, hrg⟩ := hinv r hr'
    have key : ∀ x c, (r.Character1ID = x ∨ r.Character2ID = x) →
        characterRepository.GetByID db x = .ok c →
        ∃ c', characterRepository.GetByID
            (characterService.UpdateCharacter db now id character).1 x = .ok c'
          ∧ c'.GroupID = c.GroupID := by
      intro x c hx hc
      obtain ⟨c', hc', hsame⟩ := UpdateCharacter_lookup_other db now id character x c hc
      by_cases hxid : x = id
      · subst hxid
        exact ⟨c', hc', hkeep ⟨r, hr', hx⟩ c c' hc hc'⟩
      · exact ⟨c', hc', by rw [hsame hxid]⟩
    obtain ⟨d1, hd1, hg1⟩ := key _ c1 (Or.inl rfl) h1
    obtain ⟨d2, hd2, hg2⟩ := key _ c2 (Or.inr rfl) h2
    exact ⟨d1, d2, hd1, hd2, by rw [hg1, hg2, hg], by rw [hrg, hg1]⟩
  | createRelationship uuid now relationship =>
    exact CreateRelationship_sameGroup db uuid now relationship hinv
  | updateRelationship id relationship =>
    exact UpdateRelationship_sameGroup db id relationship hinv
  | deleteRelationship id =>
    show SameGroupInv (DeleteRelationship db id).1
    rcases DeleteRelationship_fst db id with h | h
    · rw [h]; exact hinv
    · rw [h]
      intro r hr
      exact sameGroup_congr rfl (hinv r (List.mem_filter.mp hr).1)

theorem run_sameGroup (ops : List Op) (db : DB) (hkept : groupsKept db ops)
    (hinv : SameGroupInv db) : SameGroupInv (run db ops) := by
  induction ops generalizing db with
  | nil => exact hinv
  | cons op ops ih => exact ih (step db op) hkept.2 (step_sameGroup db op hkept.1 hinv)

theorem sample_move_then_relate :
    run sampleGroupsDB sampleMoveThenRelateOps = sampleMovedDB := by
  simp [run, step, sampleGroupsDB, sampleMoveThenRelateOps, sampleMovedDB,
    characterService.CreateCharacter, characterService.UpdateCharacter,
    characterRepository.Create, characterRepository.Update, characterRepository.GetByID,
    groupRepository.ExistsByID, CreateRelationship_spec, validatePair_eq,
    sampleGroup, sampleCharacter, sampleRequest, sampleRow, sample_min_ab, sample_max_ab]

theorem sample_move_then_relate_kept : groupsKept sampleGroupsDB sampleMoveThenRelateOps := by
  simp [groupsKept, keepsGroup, step, sampleGroupsDB, sampleMoveThenRelateOps,
    characterService.CreateCharacter, characterService.UpdateCharacter,
    characterRepository.Create, characterRepository.Update, characterRepository.GetByID,
    groupRepository.ExistsByID, CreateRelationship_spec, validatePair_eq,
    sampleGroup, sampleCharacter, sampleRequest, sample_min_ab, sample_max_ab]

theorem CreateRelationship_no_conflict {db : DB} {a b : String}
    (hex : ∀ x ∈ db.relationships, ¬ (x.Character1ID = min a b ∧ x.Character2ID = max a b))
    (uuid : String) (now : Nat) (req : Relationship)
    (hreq : (req.Character1ID = a ∧ req.Character2ID = b)
      ∨ (req.Character1ID = b ∧ req.Character2ID = a)) (db3 : DB) :
    CreateRelationship db uuid now req
      ≠ (db3, .error "relationship already exists between these characters") := by
  have hany : db.relationships.any (fun x =>
      x.Character1ID == min req.Character1ID req.Character2ID
        && x.Character2ID == max req.Character1ID req.Character2ID) = false := by
    rw [List.any_eq_false]
    intro x hx hcon
    simp only [Bool.and_eq_true, beq_iff_eq] at hcon
    rcases hreq with ⟨h1, h2⟩ | ⟨h1, h2⟩
    · rw [h1, h2] at hcon; exact hex x hx hcon
    · rw [h1, h2, min_comm, max_comm] at hcon; exact hex x hx hcon
  intro h
  rw [CreateRelationship_spec, validatePair_eq] at h
  by_cases hself : req.Character1ID = req.Character2ID
  · simp only [if_pos hself, Prod.mk.injEq, Except.error.injEq] at h
    exact absurd h.2 (by decide)
  · simp only [if_neg hself] at h
    cases h1 : db.characters.find? (fun c => c.ID == req.Character1ID) with
    | none =>
      simp only [h1, Prod.mk.injEq, Except.error.injEq] at h
      exact absurd h.2 (by decide)
    | some c1 =>
      cases h2 : db.characters.find? (fun c => c.ID == req.Character2ID) with
      | none =>
        simp only [h1, h2, Prod.mk.injEq, Except.error.injEq] at h
        exact absurd h.2 (by decide)
      | some c2 =>
        simp only [h1, h2, hany] at h
        by_cases hg : c1.GroupID = c2.GroupID
        · simp only [hg, ne_eq, not_true_eq_false, if_false, Bool.false_eq_true] at h
          cases hid : db.relationships.any (fun r => r.ID == uuid) with
          | true =>
            simp only [hid, if_true, Prod.mk.injEq, Except.error.injEq] at h
            exact absurd h.2 (by decide)
          | false => simp [hid] at h
        · simp only [ne_eq, hg, not_false_eq_true, if_true, Prod.mk.injEq,
            Except.error.injEq] at h
          exact absurd h.2 (by decide)

theorem sample_create_ab :
    CreateRelationship sampleDB "r1" 5 (sampleRequest "a" "b") = (sampleDB1, .ok sampleRow) := by
  simp [CreateRelationship_spec, validatePair_eq, sampleDB, sampleDB1, sampleRow,
    sampleRequest, sampleCharacter, sample_min_ab, sample_max_ab]

theorem sample_create_again :
    CreateRelationship sampleDB2 "r2" 6 (sampleRequest "b" "a")
      = (sampleDB5, .ok sampleRowAgain) := by
  simp [CreateRelationship_spec, validatePair_eq, sampleDB, sampleDB2, sampleDB5,
    sampleRowMoved, sampleRowAgain, sampleRequest, sampleCharacter, sample_min_ba,
    sample_max_ba]

theorem validatePair_succeeds {db : DB} {req : Relationship} {c1 c2 : Character}
    (h1 : characterRepository.GetByID db req.Character1ID = .ok c1)
    (h2 : characterRepository.GetByID db req.Character2ID = .ok c2)
    (hg : c1.GroupID = c2.GroupID)
    (hfree : ∀ x ∈ db.relationships,
      ¬ (x.Character1ID = min req.Character1ID req.Character2ID
          ∧ x.Character2ID = max req.Character1ID req.Character2ID)) :
    validatePair db req = .ok { req with GroupID := c1.GroupID } := by
  have hany : db.relationships.any (fun x =>
      x.Character1ID == min req.Character1ID req.Character2ID
        && x.Character2ID == max req.Character1ID req.Character2ID) = false := by
    rw [List.any_eq_false]
    intro x hx hcon
    simp only [Bool.and_eq_true, beq_iff_eq] at hcon
    exact hfree x hx hcon
  rw [characterRepository_GetByID_ok] at h1 h2
  rw [validatePair_eq, h1, h2]
  simp only [hg, ne_eq, not_true_eq_false, if_false, hany, Bool.false_eq_true]

theorem CreateRelationship_succeeds (db : DB) (uuid : String) (now : Nat)
    (req : Relationship) (c1 c2 : Character)
    (hself : req.Character1ID ≠ req.Character2ID)
    (h1 : characterRepository.GetByID db req.Character1ID = .ok c1)
    (h2 : characterRepository.GetByID db req.Character2ID = .ok c2)
    (hg : c1.GroupID = c2.GroupID)
    (hfree : ∀ x ∈ db.relationships,
      ¬ (x.Character1ID = min req.Character1ID req.Character2ID
          ∧ x.Character2ID = max req.Character1ID req.Character2ID))
    (hfresh : ∀ x ∈ db.relationships, x.ID ≠ uuid) :
    CreateRelationship db uuid now req =
      ({ db with relationships := db.relationships ++
          [{ ID := uuid, GroupID := c1.GroupID,
             Character1ID := min req.Character1ID req.Character2ID,
             Character2ID := max req.Character1ID req.Character2ID,
             RelationshipType := req.RelationshipType, Description := req.Description,
             CreatedAt := if req.CreatedAt = 0 then now else req.CreatedAt }] },
       .ok { ID := uuid, GroupID := c1.GroupID,
             Character1ID := min req.Character1ID req.Character2ID,
             Character2ID := max req.Character1ID req.Character2ID,
             RelationshipType := req.RelationshipType, Description := req.Description,
             CreatedAt := if req.CreatedAt = 0 then now else req.CreatedAt }) := by
  rw [CreateRelationship_spec, if_neg hself, validatePair_succeeds h1 h2 hg hfree]
  simp only [any_false_of_forall_ne Relationship.ID db.relationships uuid hfresh,
    Bool.false_eq_true, if_false]

theorem UpdateRelationship_succeeds (db : DB) (id : String) (req existing : Relationship)
    (c1 c2 : Character)
    (hex : relationshipRepository.GetByID db id = .ok existing)
    (hid : id ≠ "")
    (hch : req.Character1ID ≠ existing.Character1ID
      ∨ req.Character2ID ≠ existing.Character2ID)
    (hself : req.Character1ID ≠ req.Character2ID)
    (h1 : characterRepository.GetByID db req.Character1ID = .ok c1)
    (h2 : characterRepository.GetByID db req.Character2ID = .ok c2)
    (hg : c1.GroupID = c2.GroupID)
    (hfree : ∀ x ∈ db.relationships,
      ¬ (x.Character1ID = min req.Character1ID req.Character2ID
          ∧ x.Character2ID = max req.Character1ID req.Character2ID)) :
    UpdateRelationship db id req =
      ({ db with relationships := db.relationships.map (fun r =>
          if r.ID == id then
            { ID := id, GroupID := c1.GroupID,
              Character1ID := min req.Character1ID req.Character2ID,
              Character2ID := max req.Character1ID req.Character2ID,
              RelationshipType := req.RelationshipType, Description := req.Description,
              CreatedAt := existing.CreatedAt }
          else r) },
       .ok { ID := id, GroupID := c1.GroupID,
             Character1ID := min req.Character1ID req.Character2ID,
             Character2ID := max req.Character1ID req.Character2ID,
             RelationshipType := req.RelationshipType, Description := req.Description,
             CreatedAt := existing.CreatedAt }) := by
  have hfind : db.relationships.find? (fun r => r.ID == id) = some existing := by
    unfold relationshipRepository.GetByID at hex
    cases hf : db.relationships.find? (fun r => r.ID == id) with
    | none => simp [hf] at hex
    | some e =>
      simp only [hf, Except.ok.injEq] at hex
      rw [hex]
  have heid : existing.ID = id := by simpa using List.find?_some hfind
  have hne : ¬ existing.ID = "" := by rw [heid]; exact hid
  rw [UpdateRelationship_spec, hfind]
  simp only [if_neg hself, if_pos hch, validatePair_succeeds h1 h2 hg hfree, heid, if_neg hid]

theorem attempt_none {α : Type} (n : Nat) (call : Except String α) :
    attempt (fun _ => none) n call = call := rfl

theorem attempt_ok {α : Type} {faults : Nat → Option String} {n : Nat}
    {call : Except String α} {x : α} (h : attempt faults n call = .ok x) :
    faults n = none ∧ call = .ok x := by
  unfold attempt at h
  cases hf : faults n with
  | some err => simp [hf] at h
  | none => exact ⟨rfl, by simpa [hf] using h⟩

theorem attempt_of_none {α : Type} {faults : Nat → Option String} {n : Nat}
    (hf : faults n = none) (call : Except String α) : attempt faults n call = call := by
  unfold attempt
  rw [hf]

theorem attempt_of_some {α : Type} {faults : Nat → Option String} {n : Nat} {err : String}
    (hf : faults n = some err) (call : Except String α) :
    attempt faults n call = .error err := by
  unfold attempt
  rw [hf]

theorem faultyStore_validatePair_none (k : Nat) (db : DB) (r : Relationship) :
    faultyStore.validatePair (fun _ => none) k db r = validatePair db r := by
  unfold faultyStore.validatePair validatePair
  simp only [attempt_none]

theorem faultyStore_CreateRelationship_none (db : DB) (uuid : String) (now : Nat)
    (req : Relationship) :
    faultyStore.CreateRelationship (fun _ => none) db uuid now req
      = CreateRelationship db uuid now req := by
  rw [CreateRelationship_eq]
  unfold faultyStore.CreateRelationship
  simp only [attempt_none, faultyStore_validatePair_none]

theorem faultyStore_UpdateRelationship_none (db : DB) (id : String) (req : Relationship) :
    faultyStore.UpdateRelationship (fun _ => none) db id req
      = UpdateRelationship db id req := by
  rw [UpdateRelationship_eq]
  unfold faultyStore.UpdateRelationship
  simp only [attempt_none, faultyStore_validatePair_none]

theorem faultyStore_DeleteRelationship_none (db : DB) (id : String) :
    faultyStore.DeleteRelationship (fun _ => none) db id = DeleteRelationship db id := rfl

theorem faultyStore_AddLabelToCharacter_none (db : DB) (c l : String) :
    faultyStore.AddLabelToCharacter (fun _ => none) db c l
      = characterService.AddLabelToCharacter db c l := rfl

theorem faultyStore_RemoveLabelFromCharacter_none (db : DB) (c l : String) :
    faultyStore.RemoveLabelFromCharacter (fun _ => none) db c l
      = characterService.RemoveLabelFromCharacter db c l := rfl

theorem faultyStore_CreateLabel_none (db : DB) (uuid : String) (now : Nat) (label : Label) :
    faultyStore.CreateLabel (fun _ => none) db uuid now label
      = labelService.CreateLabel db uuid now label := rfl

theorem faultyStore_UpdateLabel_none (db : DB) (id : String) (label : Label) :
    faultyStore.UpdateLabel (fun _ => none) db id label
      = labelService.UpdateLabel db id label := rfl

theorem faultyStore_DeleteRelationship_error {faults : Nat → Option String} {db db1 : DB}
    {id e : String}
    (h : faultyStore.DeleteRelationship faults db id = (db1, .error e)) : db1 = db := by
  unfold faultyStore.DeleteRelationship at h
  split at h
  · exact (Prod.mk.inj h).1.symm
  · split at h
    · exact (Prod.mk.inj h).1.symm
    · split at h
      · exact (Prod.mk.inj h).1.symm
      · exact absurd (Prod.mk.inj h).2 (by simp)

theorem faultyStore_AddLabelToCharacter_error {faults : Nat → Option String} {db db1 : DB}
    {c l e : String}
    (h : faultyStore.AddLabelToCharacter faults db c l = (db1, .error e)) : db1 = db := by
  unfold faultyStore.AddLabelToCharacter at h
  repeat' split at h
  all_goals first
    | exact (Prod.mk.inj h).1.symm
    | exact absurd (Prod.mk.inj h).2 (by simp)

theorem faultyStore_RemoveLabelFromCharacter_error {faults : Nat → Option String}
    {db db1 : DB} {c l e : String}
    (h : faultyStore.RemoveLabelFromCharacter faults db c l = (db1, .error e)) :
    db1 = db := by
  unfold faultyStore.RemoveLabelFromCharacter at h
  repeat' split at h
  all_goals first
    | exact (Prod.mk.inj h).1.symm
    | exact absurd (Prod.mk.inj h).2 (by simp)

theorem faultyStore_CreateLabel_error {faults : Nat → Option String} {db db1 : DB}
    {uuid : String} {now : Nat} {label : Label} {e : String}
    (h : faultyStore.CreateLabel faults db uuid now label = (db1, .error e)) : db1 = db := by
  unfold faultyStore.CreateLabel at h
  repeat' split at h
  all_goals first
    | exact (Prod.mk.inj h).1.symm
    | exact absurd (Prod.mk.inj h).2 (by simp)

theorem faultyStore_UpdateLabel_error {faults : Nat → Option String} {db db1 : DB}
    {id : String} {label : Label} {e : String}
    (h : faultyStore.UpdateLabel faults db id label = (db1, .error e)) : db1 = db := by
  unfold faultyStore.UpdateLabel at h
  dsimp only at h
  repeat' split at h
  all_goals first
    | exact (Prod.mk.inj h).1.symm
    | exact absurd (Prod.mk.inj h).2 (by simp)

theorem relationshipRepository_Create_found {db db1 : DB} {uuid : String} {now : Nat}
    {v r : Relationship} (h : relationshipRepository.Create db uuid now v = .ok (db1, r)) :
    relationshipRepository.GetByID db1 r.ID = .ok r := by
  rw [relationshipRepository_Create_eq] at h
  cases hany : db.relationships.any (fun x => x.ID == uuid) with
  | true => simp [hany] at h
  | false =>
    simp only [hany, Bool.false_eq_true, if_false, Except.ok.injEq, Prod.mk.injEq] at h
    obtain ⟨hdb, hr⟩ := h
    rw [← hdb, ← hr]
    simp only [relationshipRepository.GetByID]
    rw [find?_append_fresh _ _ _ hany (by simp)]

theorem relationshipRepository_Update_found {db db1 : DB} {id : String}
    {v r existing : Relationship}
    (hex : relationshipRepository.GetByID db id = .ok existing)
    (hv : v.ID = existing.ID)
    (h : relationshipRepository.Update db v = .ok (db1, r)) :
    relationshipRepository.GetByID db1 id = .ok r := by
  have hfind : db.relationships.find? (fun x => x.ID == id) = some existing := by
    unfold relationshipRepository.GetByID at hex
    cases hf : db.relationships.find? (fun x => x.ID == id) with
    | none => simp [hf] at hex
    | some e =>
      simp only [hf, Except.ok.injEq] at hex
      rw [hex]
  have hmem : db.relationships.any (fun x => x.ID == v.ID) = true :=
    List.any_eq_true.mpr ⟨existing, List.mem_of_find?_eq_some hfind, by simp [hv]⟩
  rw [relationshipRepository_Update_eq] at h
  simp only [hmem, and_true] at h
  by_cases hempty : v.ID = ""
  · simp [hempty] at h
  · simp only [hempty, ne_eq, not_false_eq_true, if_true, Except.ok.injEq,
      Prod.mk.injEq] at h
    obtain ⟨hdb, hr⟩ := h
    rw [← hdb]
    simp only [relationshipRepository.GetByID]
    rw [hv, find?_replace db.relationships id _ existing (by simp [hv]) hfind, ← hr, hv]

theorem faultyStore_CreateRelationship_error {faults : Nat → Option String} {db db1 : DB}
    {uuid : String} {now : Nat} {req : Relationship} {e : String}
    (h : faultyStore.CreateRelationship faults db uuid now req = (db1, .error e)) :
    db1 = db
    ∨ (faults 6 = some e
        ∧ ∃ v r, faultyStore.validatePair faults 0 db req = .ok v
          ∧ relationshipRepository.Create db uuid now v = .ok (db1, r)) := by
  unfold faultyStore.CreateRelationship at h
  by_cases hself : req.Character1ID = req.Character2ID
  · rw [if_pos hself] at h
    exact Or.inl (Prod.mk.inj h).1.symm
  · rw [if_neg hself] at h
    cases hv : faultyStore.validatePair faults 0 db req with
    | error e' =>
      simp only [hv] at h
      exact Or.inl (Prod.mk.inj h).1.symm
    | ok v =>
      simp only [hv] at h
      cases hc : attempt faults 5 (relationshipRepository.Create db uuid now v) with
      | error e' =>
        simp only [hc] at h
        exact Or.inl (Prod.mk.inj h).1.symm
      | ok p =>
        obtain ⟨db1', r⟩ := p
        simp only [hc] at h
        have hcreate := (attempt_ok hc).2
        obtain ⟨hdb, hres⟩ := Prod.mk.inj h
        cases hf : faults 6 with
        | none =>
          rw [attempt_of_none hf, relationshipRepository_Create_found hcreate] at hres
          exact absurd hres (by simp)
        | some err =>
          rw [attempt_of_some hf] at hres
          refine Or.inr ⟨by rw [Except.error.inj hres], v, r, rfl, ?_⟩
          rw [← hdb]; exact hcreate

theorem faultyStore_UpdateRelationship_error {faults : Nat → Option String} {db db1 : DB}
    {id : String} {req : Relationship} {e : String}
    (h : faultyStore.UpdateRelationship faults db id req = (db1, .error e)) :
    db1 = db
    ∨ (faults 7 = some e
        ∧ ∃ v r, relationshipRepository.Update db v = .ok (db1, r)) := by
  unfold faultyStore.UpdateRelationship at h
  cases hex : attempt faults 0 (relationshipRepository.GetByID db id) with
  | error e' =>
    simp only [hex] at h
    exact Or.inl (Prod.mk.inj h).1.symm
  | ok existing =>
    simp only [hex] at h
    by_cases hself : req.Character1ID = req.Character2ID
    · rw [if_pos hself] at h
      exact Or.inl (Prod.mk.inj h).1.symm
    · rw [if_neg hself] at h
      cases hv : (if req.Character1ID ≠ existing.Character1ID
                    ∨ req.Character2ID ≠ existing.Character2ID then
                  faultyStore.validatePair faults 1 db req
                else .ok { req with GroupID := existing.GroupID }) with
      | error e' =>
        simp only [hv] at h
        exact Or.inl (Prod.mk.inj h).1.symm
      | ok v =>
        simp only [hv] at h
        cases hc : attempt faults 6 (relationshipRepository.Update db
            { v with ID := existing.ID, CreatedAt := existing.CreatedAt }) with
        | error e' =>
          simp only [hc] at h
          exact Or.inl (Prod.mk.inj h).1.symm
        | ok p =>
          obtain ⟨db1', r⟩ := p
          simp only [hc] at h
          have hupdate := (attempt_ok hc).2
          obtain ⟨hdb, hres⟩ := Prod.mk.inj h
          cases hf : faults 7 with
          | none =>
            rw [attempt_of_none hf,
              relationshipRepository_Update_found (attempt_ok hex).2 (by rfl) hupdate] at hres
            exact absurd hres (by simp)
          | some err =>
            rw [attempt_of_some hf] at hres
            refine Or.inr ⟨by rw [Except.error.inj hres],
              { v with ID := existing.ID, CreatedAt := existing.CreatedAt }, r, ?_⟩
            rw [← hdb]; exact hupdate

theorem faultyStore_validatePair_above (faults : Nat → Option String) (k : Nat) (db : DB)
    (r : Relationship) (h : ∀ n, k ≤ n → n ≤ k + 4 → faults n = none) :
    faultyStore.validatePair faults k db r = validatePair db r := by
  unfold faultyStore.validatePair validatePair
  rw [attempt_of_none (h k (le_refl _) (by omega)),
    attempt_of_none (h (k + 1) (by omega) (by omega)),
    attempt_of_none (h (k + 2) (by omega) (by omega)),
    attempt_of_none (h (k + 3) (by omega) (by omega))]
  simp only [attempt_of_none (h (k + 4) (by omega) (le_refl _))]

theorem faultyStore_CreateRelationship_readback {db db1 : DB} {uuid : String} {now : Nat}
    {req r : Relationship} (err : String)
    (h : CreateRelationship db uuid now req = (db1, .ok r)) :
    faultyStore.CreateRelationship (fun n => if n = 6 then some err else none) db uuid now req
      = (db1, .error err) := by
  rw [CreateRelationship_eq] at h
  unfold faultyStore.CreateRelationship
  rw [faultyStore_validatePair_above _ 0 db req (by intro n _ h2; simp; omega)]
  by_cases hself : req.Character1ID = req.Character2ID
  · simp [hself] at h
  · rw [if_neg hself] at h ⊢
    cases hv : validatePair db req with
    | error e => simp [hv] at h
    | ok v =>
      simp only [hv] at h ⊢
      rw [attempt_of_none (by simp)]
      cases hc : relationshipRepository.Create db uuid now v with
      | error e => simp [hc] at h
      | ok p =>
        obtain ⟨db1', r'⟩ := p
        simp only [hc] at h ⊢
        rw [@attempt_of_some _ _ _ err (by simp) _, (Prod.mk.inj h).1]

theorem faultyStore_UpdateRelationship_readback {db db1 : DB} {id : String}
    {req r : Relationship} (err : String)
    (h : UpdateRelationship db id req = (db1, .ok r)) :
    faultyStore.UpdateRelationship (fun n => if n = 7 then some err else none) db id req
      = (db1, .error err) := by
  rw [UpdateRelationship_eq] at h
  unfold faultyStore.UpdateRelationship
  rw [faultyStore_validatePair_above _ 1 db req (by intro n _ h2; simp; omega),
    attempt_of_none (by simp)]
  cases hex : relationshipRepository.GetByID db id with
  | error e => simp [hex] at h
  | ok existing =>
    simp only [hex] at h ⊢
    by_cases hself : req.Character1ID = req.Character2ID
    · simp [hself] at h
    · rw [if_neg hself] at h ⊢
      cases hv : (if req.Character1ID ≠ existing.Character1ID
                    ∨ req.Character2ID ≠ existing.Character2ID then
                  validatePair db req
                else .ok { req with GroupID := existing.GroupID }) with
      | error e => simp [hv] at h
      | ok v =>
        simp only [hv] at h ⊢
        rw [attempt_of_none (by simp)]
        cases hc : relationshipRepository.Update db
            { v with ID := existing.ID, CreatedAt := existing.CreatedAt } with
        | error e => simp [hc] at h
        | ok p =>
          obtain ⟨db1', r'⟩ := p
          simp only [hc] at h ⊢
          rw [@attempt_of_some _ _ _ err (by simp) _, (Prod.mk.inj h).1]

/-! ## The claims -/

/-- C1, counterexample. In the sample database the characters `a`, `b` and `d` are stored in
group `g1`. `CreateRelationship` for `(a, b)` succeeds and stores `r1`. `UpdateRelationship`
then moves `r1` to the pair `(d, a)`; it succeeds, and `r1` is still stored: nothing was
deleted. The later `CreateRelationship` for `(b, a)` does not fail: it succeeds and stores a
second relationship `r2`. -/
theorem C1_create_after_repoint_succeeds :
    CreateRelationship sampleDB "r1" 5 (sampleRequest "a" "b") = (sampleDB1, .ok sampleRow)
    ∧ UpdateRelationship sampleDB1 "r1" sampleMoveRequest = (sampleDB2, .ok sampleRowMoved)
    ∧ (∃ r ∈ sampleDB2.relationships, r.ID = sampleRow.ID)
    ∧ CreateRelationship sampleDB2 "r2" 6 (sampleRequest "b" "a")
        = (sampleDB5, .ok sampleRowAgain)
    ∧ sampleDB5.relationships = [sampleRowMoved, sampleRowAgain] :=
  ⟨sample_create_ab, sample_update_move, ⟨sampleRowMoved, by simp [sampleDB2], rfl⟩,
   sample_create_again, rfl⟩

/-- C1, amended. Let `CreateRelationship` have succeeded for the characters `a` and `b` (the
request `req`, result `created`). A further `CreateRelationship` whose request names the same
two characters, as `(b, a)` or again as `(a, b)`, fails with
"relationship already exists between these characters" and leaves the database as it is:
(i) when it is called on the state right after the first call, and (ii) when it is called on
any later state `db2` in which a relationship between the two characters is stored (the
created one, neither deleted nor moved to another pair, or any other one) and both
characters are still stored in one group. (iii) On a state in which no relationship between
the two characters is stored, the call never fails with this error. -/
theorem C1_second_create_conflicts (db db1 : DB) (uuid : String) (now : Nat)
    (req created : Relationship)
    (hok : CreateRelationship db uuid now req = (db1, .ok created)) :
    (∀ (uuid2 : String) (now2 : Nat) (req2 : Relationship),
      ((req2.Character1ID = req.Character1ID ∧ req2.Character2ID = req.Character2ID)
        ∨ (req2.Character1ID = req.Character2ID ∧ req2.Character2ID = req.Character1ID)) →
      CreateRelationship db1 uuid2 now2 req2
        = (db1, .error "relationship already exists between these characters"))
    ∧ (∀ (db2 : DB) (c1 c2 : Character) (uuid2 : String) (now2 : Nat) (req2 : Relationship),
      (∃ r ∈ db2.relationships,
        r.Character1ID = created.Character1ID ∧ r.Character2ID = created.Character2ID) →
      characterRepository.GetByID db2 req.Character1ID = .ok c1 →
      characterRepository.GetByID db2 req.Character2ID = .ok c2 →
      c1.GroupID = c2.GroupID →
      ((req2.Character1ID = req.Character1ID ∧ req2.Character2ID = req.Character2ID)
        ∨ (req2.Character1ID = req.Character2ID ∧ req2.Character2ID = req.Character1ID)) →
      CreateRelationship db2 uuid2 now2 req2
        = (db2, .error "relationship already exists between these characters"))
    ∧ (∀ (db2 db3 : DB) (uuid2 : String) (now2 : Nat) (req2 : Relationship),
      (∀ r ∈ db2.relationships,
        ¬ (r.Character1ID = created.Character1ID ∧ r.Character2ID = created.Character2ID)) →
      ((req2.Character1ID = req.Character1ID ∧ req2.Character2ID = req.Character2ID)
        ∨ (req2.Character1ID = req.Character2ID ∧ req2.Character2ID = req.Character1ID)) →
      CreateRelationship db2 uuid2 now2 req2
        ≠ (db3, .error "relationship already exists between these characters")) := by
  obtain ⟨hself, c1, c2, h1, h2, hg, -, -, hrow, hdb⟩ := CreateRelationship_ok hok
  have hc1 : created.Character1ID = min req.Character1ID req.Character2ID := by rw [hrow]
  have hc2 : created.Character2ID = max req.Character1ID req.Character2ID := by rw [hrow]
  have later : ∀ (db2 : DB) (c1 c2 : Character) (uuid2 : String) (now2 : Nat)
      (req2 : Relationship),
      (∃ r ∈ db2.relationships,
        r.Character1ID = created.Character1ID ∧ r.Character2ID = created.Character2ID) →
      characterRepository.GetByID db2 req.Character1ID = .ok c1 →
      characterRepository.GetByID db2 req.Character2ID = .ok c2 →
      c1.GroupID = c2.GroupID →
      ((req2.Character1ID = req.Character1ID ∧ req2.Character2ID = req.Character2ID)
        ∨ (req2.Character1ID = req.Character2ID ∧ req2.Character2ID = req.Character1ID)) →
      CreateRelationship db2 uuid2 now2 req2
        = (db2, .error "relationship already exists between these characters") := by
    intro db2 d1 d2 uuid2 now2 req2 hstored hd1 hd2 hdg hreq
    obtain ⟨r, hr, hr1, hr2⟩ := hstored
    exact CreateRelationship_conflict hself hd1 hd2 hdg
      ⟨r, hr, by rw [hr1, hc1], by rw [hr2, hc2]⟩ uuid2 now2 req2 hreq
  refine ⟨?_, later, ?_⟩
  · intro uuid2 now2 req2 hreq
    have hchars : db1.characters = db.characters := by rw [hdb]
    have hmem : created ∈ db1.relationships := by rw [hdb]; simp
    refine later db1 c1 c2 uuid2 now2 req2 ⟨created, hmem, rfl, rfl⟩ ?_ ?_ hg hreq
    · simpa only [characterRepository.GetByID, hchars] using h1
    · simpa only [characterRepository.GetByID, hchars] using h2
  · intro db2 db3 uuid2 now2 req2 hnone hreq
    exact CreateRelationship_no_conflict
      (fun x hx hcon => hnone x hx ⟨by rw [hcon.1, hc1], by rw [hcon.2, hc2]⟩)
      uuid2 now2 req2 hreq db3

/-- C1 (amended) at the sample data: after `a` and `b` are related by a request `(b, a)`, the
request `(a, b)` is refused as a duplicate, right afterwards and in the later state
`sampleDB4`, which also stores a relationship between `a` and `d`. -/
theorem C1_witness :
    CreateRelationship sampleDB "r1" 5 (sampleRequest "b" "a") = (sampleDB1, .ok sampleRow)
    ∧ CreateRelationship sampleDB1 "r2" 6 (sampleRequest "a" "b")
        = (sampleDB1, .error "relationship already exists between these characters")
    ∧ CreateRelationship sampleDB4 "r3" 8 (sampleRequest "a" "b")
        = (sampleDB4, .error "relationship already exists between these characters") :=
  ⟨sample_create,
   (C1_second_create_conflicts sampleDB sampleDB1 "r1" 5 (sampleRequest "b" "a") sampleRow
      sample_create).1 "r2" 6 (sampleRequest "a" "b") (Or.inr ⟨rfl, rfl⟩),
   (C1_second_create_conflicts sampleDB sampleDB1 "r1" 5 (sampleRequest "b" "a") sampleRow
      sample_create).2.1 sampleDB4 (sampleCharacter "b" "g1") (sampleCharacter "a" "g1")
      "r3" 8 (sampleRequest "a" "b") ⟨sampleRow, by simp [sampleDB4], rfl, rfl⟩ rfl rfl rfl
      (Or.inr ⟨rfl, rfl⟩)⟩

/-- C2. Uniqueness invariant. Start from any database with no relationship stored and apply
any sequence of service calls (`CreateRelationship`, `UpdateRelationship`,
`DeleteRelationship`, and also `CreateCharacter` and `UpdateCharacter`), each succeeding or
failing. In the resulting database, for all character ids `A` and `B`, at most one stored
relationship has `A` and `B` as its two characters, in either of the two positions. -/
theorem C2_at_most_one_relationship_per_pair (db0 : DB) (h0 : db0.relationships = [])
    (ops : List Op) (A B : String) :
    ((run db0 ops).relationships.filter (linksPair A B)).length ≤ 1 :=
  RelationshipsWF_count_le_one (run_WF ops db0 (by rw [h0]; exact RelationshipsWF_nil)) A B

/-- C2 at the sample data: after the four calls of `sampleRegroupOps` at most one stored
relationship links `a` and `b`. -/
theorem C2_witness :
    ((run sampleGroupsDB sampleRegroupOps).relationships.filter (linksPair "a" "b")).length
      ≤ 1 :=
  C2_at_most_one_relationship_per_pair sampleGroupsDB rfl sampleRegroupOps "a" "b"

/-- C3. Canonical storage order. A successful `CreateRelationship` appends to the table, and
a successful `UpdateRelationship` writes into the row with the given id, a relationship whose
`Character1ID` is the smaller and whose `Character2ID` is the larger of the two character ids
of the request (in the order of strings); so `Character1ID ≤ Character2ID`, and the two
stored ids are the two requested ones. -/
theorem C3_canonical_storage_order :
    (∀ (db db1 : DB) (uuid : String) (now : Nat) (req r : Relationship),
      CreateRelationship db uuid now req = (db1, .ok r) →
      db1.relationships = db.relationships ++ [r]
      ∧ r.Character1ID = min req.Character1ID req.Character2ID
      ∧ r.Character2ID = max req.Character1ID req.Character2ID
      ∧ r.Character1ID ≤ r.Character2ID
      ∧ linksPair req.Character1ID req.Character2ID r = true)
    ∧ (∀ (db db1 : DB) (id : String) (req r : Relationship),
      UpdateRelationship db id req = (db1, .ok r) →
      db1.relationships = db.relationships.map (fun x => if x.ID == id then r else x)
      ∧ (∃ x ∈ db.relationships, x.ID = id)
      ∧ r.ID = id
      ∧ r.Character1ID = min req.Character1ID req.Character2ID
      ∧ r.Character2ID = max req.Character1ID req.Character2ID
      ∧ r.Character1ID ≤ r.Character2ID
      ∧ linksPair req.Character1ID req.Character2ID r = true) := by
  have hlinks : ∀ (a b : String) (r : Relationship), r.Character1ID = min a b →
      r.Character2ID = max a b → linksPair a b r = true := by
    intro a b r h1 h2
    unfold linksPair
    rcases le_total a b with h | h
    · simp [h1, h2, min_eq_left h, max_eq_right h]
    · simp [h1, h2, min_eq_right h, max_eq_left h]
  constructor
  · intro db db1 uuid now req r hok
    obtain ⟨-, c1, c2, -, -, -, -, -, hrow, hdb⟩ := CreateRelationship_ok hok
    have h1 : r.Character1ID = min req.Character1ID req.Character2ID := by rw [hrow]
    have h2 : r.Character2ID = max req.Character1ID req.Character2ID := by rw [hrow]
    refine ⟨by rw [hdb], h1, h2, ?_, hlinks _ _ r h1 h2⟩
    rw [h1, h2]
    exact min_le_max
  · intro db db1 id req r hok
    obtain ⟨existing, -, hmem, hid, -, -, -, hrow, hdb⟩ := UpdateRelationship_ok hok
    have h1 : r.Character1ID = min req.Character1ID req.Character2ID := by rw [hrow]
    have h2 : r.Character2ID = max req.Character1ID req.Character2ID := by rw [hrow]
    have h0 : r.ID = id := by rw [hrow]; exact hid
    refine ⟨by rw [hdb, hid], ⟨existing, hmem, hid⟩, h0, h1, h2, ?_, hlinks _ _ r h1 h2⟩
    rw [h1, h2]
    exact min_le_max

/-- C3 at the sample data: the rows written by a create with the request `(b, a)` and by an
update with the request `(d, a)` are stored in order. -/
theorem C3_witness :
    CreateRelationship sampleDB "r1" 5 (sampleRequest "b" "a") = (sampleDB1, .ok sampleRow)
    ∧ sampleRow.Character1ID ≤ sampleRow.Character2ID
    ∧ UpdateRelationship sampleDB1 "r1" sampleMoveRequest = (sampleDB2, .ok sampleRowMoved)
    ∧ sampleRowMoved.Character1ID ≤ sampleRowMoved.Character2ID :=
  ⟨sample_create,
   (C3_canonical_storage_order.1 sampleDB sampleDB1 "r1" 5 (sampleRequest "b" "a") sampleRow
      sample_create).2.2.2.1,
   sample_update_move,
   (C3_canonical_storage_order.2 sampleDB1 sampleDB2 "r1" sampleMoveRequest sampleRowMoved
      sample_update_move).2.2.2.2.2.1⟩

/-- C4. Self-relationships are never stored. (1) In every database, `CreateRelationship` with
a request whose two character ids are equal fails with
"cannot create relationship between the same character" and leaves the database unchanged,
whether or not the character exists. (2) So does `UpdateRelationship` on the id of a stored
relationship. (3) In every database reached from one with no relationship stored by any
sequence of service calls, every stored relationship has
`Character1ID ≠ Character2ID`. -/
theorem C4_self_relationship_rejected :
    (∀ (db : DB) (uuid : String) (now : Nat) (req : Relationship),
      req.Character1ID = req.Character2ID →
      CreateRelationship db uuid now req
        = (db, .error "cannot create relationship between the same character"))
    ∧ (∀ (db : DB) (id : String) (req existing : Relationship),
      relationshipRepository.GetByID db id = .ok existing →
      req.Character1ID = req.Character2ID →
      UpdateRelationship db id req
        = (db, .error "cannot create relationship between the same character"))
    ∧ (∀ (db0 : DB) (ops : List Op), db0.relationships = [] →
      ∀ r ∈ (run db0 ops).relationships, r.Character1ID ≠ r.Character2ID) := by
  refine ⟨?_, ?_, ?_⟩
  · intro db uuid now req hself
    rw [CreateRelationship_spec, if_pos hself]
  · intro db id req existing hex hself
    rw [UpdateRelationship_spec]
    unfold relationshipRepository.GetByID at hex
    cases hfind : db.relationships.find? (fun r => r.ID == id) with
    | none => simp [hfind] at hex
    | some e => simp only [if_pos hself]
  · intro db0 ops h0 r hr
    have hwf := run_WF ops db0 (by rw [h0]; exact RelationshipsWF_nil)
    exact (hwf.1 r hr).ne

/-- C4 at the sample data: a create and an update with twice the same character are refused,
and no stored relationship of the sample run links a character to itself. -/
theorem C4_witness :
    CreateRelationship sampleDB "r9" 5 (sampleRequest "zz" "zz")
      = (sampleDB, .error "cannot create relationship between the same character")
    ∧ UpdateRelationship sampleDB1 "r1" (sampleRequest "a" "a")
      = (sampleDB1, .error "cannot create relationship between the same character")
    ∧ ∀ r ∈ (run sampleGroupsDB sampleRegroupOps).relationships,
        r.Character1ID ≠ r.Character2ID :=
  ⟨C4_self_relationship_rejected.1 sampleDB "r9" 5 (sampleRequest "zz" "zz") rfl,
   C4_self_relationship_rejected.2.1 sampleDB1 "r1" (sampleRequest "a" "a") sampleRow rfl rfl,
   C4_self_relationship_rejected.2.2 sampleGroupsDB sampleRegroupOps rfl⟩

/-- C5. Cross-group rejection. When the two characters of the request are distinct, both are
stored, and their GroupIDs differ, `CreateRelationship` fails with
"characters must be in the same group" and the database is unchanged, whatever relationships
are stored (so also when one is stored between the two). -/
theorem C5_cross_group_rejected (db : DB) (uuid : String) (now : Nat) (req : Relationship)
    (c1 c2 : Character)
    (hne : req.Character1ID ≠ req.Character2ID)
    (h1 : characterRepository.GetByID db req.Character1ID = .ok c1)
    (h2 : characterRepository.GetByID db req.Character2ID = .ok c2)
    (hg : c1.GroupID ≠ c2.GroupID) :
    CreateRelationship db uuid now req
      = (db, .error "characters must be in the same group") := by
  rw [CreateRelationship_spec, validatePair_eq]
  simp only [characterRepository.GetByID] at h1 h2
  cases h1f : db.characters.find? (fun c => c.ID == req.Character1ID) with
  | none => simp [h1f] at h1
  | some char1 =>
    cases h2f : db.characters.find? (fun c => c.ID == req.Character2ID) with
    | none => simp [h2f] at h2
    | some char2 =>
      simp only [h1f, h2f, Except.ok.injEq] at h1 h2
      subst h1 h2
      simp [hne, hg]

/-- C5 at the sample data: `a` is in group `g1` and `c` in group `g2`, the create is refused. -/
theorem C5_witness :
    CreateRelationship sampleDB "r9" 5 (sampleRequest "a" "c")
      = (sampleDB, .error "characters must be in the same group") :=
  C5_cross_group_rejected sampleDB "r9" 5 (sampleRequest "a" "c")
    (sampleCharacter "a" "g1") (sampleCharacter "c" "g2") (by decide) rfl rfl (by decide)

/-- C6. Missing characters. For a request with two distinct character ids:
when no stored character has the first id, `CreateRelationship` fails with
"character1 not found"; when some stored character has the first id and none has the second,
it fails with "character2 not found"; in both cases the database is unchanged. -/
theorem C6_missing_character_not_found (db : DB) (uuid : String) (now : Nat)
    (req : Relationship) (hne : req.Character1ID ≠ req.Character2ID) :
    ((∀ c ∈ db.characters, c.ID ≠ req.Character1ID) →
      CreateRelationship db uuid now req = (db, .error "character1 not found"))
    ∧ ((∃ c ∈ db.characters, c.ID = req.Character1ID) →
      (∀ c ∈ db.characters, c.ID ≠ req.Character2ID) →
      CreateRelationship db uuid now req = (db, .error "character2 not found")) := by
  constructor
  · intro hmiss
    have h1f : db.characters.find? (fun c => c.ID == req.Character1ID) = none := by
      rw [List.find?_eq_none]
      intro c hc
      simpa using hmiss c hc
    rw [CreateRelationship_spec, validatePair_eq]
    simp [hne, h1f]
  · intro hex hmiss
    have h2f : db.characters.find? (fun c => c.ID == req.Character2ID) = none := by
      rw [List.find?_eq_none]
      intro c hc
      simpa using hmiss c hc
    rw [CreateRelationship_spec, validatePair_eq]
    cases h1f : db.characters.find? (fun c => c.ID == req.Character1ID) with
    | none =>
      rw [List.find?_eq_none] at h1f
      obtain ⟨c, hc, hcid⟩ := hex
      exact absurd (by simpa using hcid) (h1f c hc)
    | some char1 => simp [hne, h2f]

/-- C6 at the sample data: no character `zz` is stored; as first character it gives
"character1 not found", as second one "character2 not found". -/
theorem C6_witness :
    CreateRelationship sampleDB "r9" 5 (sampleRequest "zz" "a")
      = (sampleDB, .error "character1 not found")
    ∧ CreateRelationship sampleDB "r9" 5 (sampleRequest "a" "zz")
      = (sampleDB, .error "character2 not found") :=
  ⟨(C6_missing_character_not_found sampleDB "r9" 5 (sampleRequest "zz" "a") (by decide)).1
      (by decide),
   (C6_missing_character_not_found sampleDB "r9" 5 (sampleRequest "a" "zz") (by decide)).2
      ⟨sampleCharacter "a" "g1", by decide, rfl⟩ (by decide)⟩

/-- C7. Derived GroupID. (1) When `CreateRelationship` succeeds, the row it appends has the
GroupID that both characters of the request have in the store, whatever GroupID the request
carried. (2) The same holds for the row written by a successful `UpdateRelationship` whose
request differs from the stored relationship in `Character1ID` or in `Character2ID` (as
every request for another pair of characters does). In both cases the stored row then has the
same-group property in the resulting database. (3) `CreateRelationship` does succeed, and
appends the row with the GroupID of the two characters, when the two ids differ, both
characters are stored with one GroupID, no relationship is stored between them and the new
id is not in use. (4) `UpdateRelationship` does succeed, and writes the GroupID of the two
characters into the row, when the relationship is stored under a non-empty id, the request
names another pair of two different characters stored with one GroupID, and no relationship
is stored between them. -/
theorem C7_group_id_derived :
    (∀ (db db1 : DB) (uuid : String) (now : Nat) (req r : Relationship),
      CreateRelationship db uuid now req = (db1, .ok r) →
      db1.relationships = db.relationships ++ [r]
      ∧ (∃ c1 c2, characterRepository.GetByID db req.Character1ID = .ok c1
          ∧ characterRepository.GetByID db req.Character2ID = .ok c2
          ∧ c1.GroupID = c2.GroupID ∧ r.GroupID = c1.GroupID)
      ∧ sameGroup db1 r)
    ∧ (∀ (db db1 : DB) (id : String) (req r existing : Relationship),
      relationshipRepository.GetByID db id = .ok existing →
      (req.Character1ID ≠ existing.Character1ID ∨ req.Character2ID ≠ existing.Character2ID) →
      UpdateRelationship db id req = (db1, .ok r) →
      db1.relationships = db.relationships.map (fun x => if x.ID == id then r else x)
      ∧ (∃ c1 c2, characterRepository.GetByID db req.Character1ID = .ok c1
          ∧ characterRepository.GetByID db req.Character2ID = .ok c2
          ∧ c1.GroupID = c2.GroupID ∧ r.GroupID = c1.GroupID)
      ∧ sameGroup db1 r)
    ∧ (∀ (db : DB) (uuid : String) (now : Nat) (req : Relationship) (c1 c2 : Character),
      req.Character1ID ≠ req.Character2ID →
      characterRepository.GetByID db req.Character1ID = .ok c1 →
      characterRepository.GetByID db req.Character2ID = .ok c2 →
      c1.GroupID = c2.GroupID →
      (∀ x ∈ db.relationships,
        ¬ (x.Character1ID = min req.Character1ID req.Character2ID
            ∧ x.Character2ID = max req.Character1ID req.Character2ID)) →
      (∀ x ∈ db.relationships, x.ID ≠ uuid) →
      CreateRelationship db uuid now req =
        ({ db with relationships := db.relationships ++
            [{ ID := uuid, GroupID := c1.GroupID,
               Character1ID := min req.Character1ID req.Character2ID,
               Character2ID := max req.Character1ID req.Character2ID,
               RelationshipType := req.RelationshipType, Description := req.Description,
               CreatedAt := if req.CreatedAt = 0 then now else req.CreatedAt }] },
         .ok { ID := uuid, GroupID := c1.GroupID,
               Character1ID := min req.Character1ID req.Character2ID,
               Character2ID := max req.Character1ID req.Character2ID,
               RelationshipType := req.RelationshipType, Description := req.Description,
               CreatedAt := if req.CreatedAt = 0 then now else req.CreatedAt }))
    ∧ (∀ (db : DB) (id : String) (req existing : Relationship) (c1 c2 : Character),
      relationshipRepository.GetByID db id = .ok existing →
      id ≠ "" →
      (req.Character1ID ≠ existing.Character1ID ∨ req.Character2ID ≠ existing.Character2ID) →
      req.Character1ID ≠ req.Character2ID →
      characterRepository.GetByID db req.Character1ID = .ok c1 →
      characterRepository.GetByID db req.Character2ID = .ok c2 →
      c1.GroupID = c2.GroupID →
      (∀ x ∈ db.relationships,
        ¬ (x.Character1ID = min req.Character1ID req.Character2ID
            ∧ x.Character2ID = max req.Character1ID req.Character2ID)) →
      UpdateRelationship db id req =
        ({ db with relationships := db.relationships.map (fun r =>
            if r.ID == id then
              { ID := id, GroupID := c1.GroupID,
                Character1ID := min req.Character1ID req.Character2ID,
                Character2ID := max req.Character1ID req.Character2ID,
                RelationshipType := req.RelationshipType, Description := req.Description,
                CreatedAt := existing.CreatedAt }
            else r) },
         .ok { ID := id, GroupID := c1.GroupID,
               Character1ID := min req.Character1ID req.Character2ID,
               Character2ID := max req.Character1ID req.Character2ID,
               RelationshipType := req.RelationshipType, Description := req.Description,
               CreatedAt := existing.CreatedAt })) := by
  refine ⟨?_, ?_, ?_, ?_⟩
  · intro db db1 uuid now req r hok
    obtain ⟨-, c1, c2, h1, h2, hg, -, -, hrow, hdb⟩ := CreateRelationship_ok hok
    have hgr : r.GroupID = c1.GroupID := by rw [hrow]
    have hchars : db1.characters = db.characters := by rw [hdb]
    refine ⟨by rw [hdb], ⟨c1, c2, h1, h2, hg, hgr⟩, ?_⟩
    refine sameGroup_of_lookups (a := req.Character1ID) (b := req.Character2ID) ?_ ?_ hg hgr
      (by rw [hrow]) (by rw [hrow])
    · simpa only [characterRepository.GetByID, hchars] using h1
    · simpa only [characterRepository.GetByID, hchars] using h2
  · intro db db1 id req r existing hex hch hok
    obtain ⟨existing', hex', -, hid, -, -, hbranch, hrow, hdb⟩ := UpdateRelationship_ok hok
    have heq : existing' = existing := by
      rw [hex] at hex'
      exact (Except.ok.inj hex').symm
    subst heq
    have hchars : db1.characters = db.characters := by rw [hdb]
    rcases hbranch with ⟨-, hv⟩ | ⟨⟨hs1, hs2⟩, -⟩
    · obtain ⟨c1, c2, h1, h2, hg, hveq, -⟩ := validatePair_ok hv
      have hgr : r.GroupID = c1.GroupID := by
        have := congrArg Relationship.GroupID hveq
        simpa using this
      refine ⟨by rw [hdb, hid], ⟨c1, c2, h1, h2, hg, hgr⟩, ?_⟩
      refine sameGroup_of_lookups (a := req.Character1ID) (b := req.Character2ID) ?_ ?_ hg hgr
        (by rw [hrow]) (by rw [hrow])
      · simpa only [characterRepository.GetByID, hchars] using h1
      · simpa only [characterRepository.GetByID, hchars] using h2
    · rcases hch with h | h
      · exact absurd hs1 h
      · exact absurd hs2 h
  · intro db uuid now req c1 c2 hself h1 h2 hg hfree hfresh
    exact CreateRelationship_succeeds db uuid now req c1 c2 hself h1 h2 hg hfree hfresh
  · intro db id req existing c1 c2 hex hid hch hself h1 h2 hg hfree
    exact UpdateRelationship_succeeds db id req existing c1 c2 hex hid hch hself h1 h2 hg
      hfree

/-- C7 at the sample data: the requests carry the GroupID `spurious`; `CreateRelationship`
for `b` and `a` succeeds and stores `r1` with the GroupID `g1` of the two characters, and
`UpdateRelationship` of `r1` to the pair `d`, `a` succeeds and writes the GroupID `g1` of
these two; both rows have the same-group property. -/
theorem C7_witness :
    (sampleRequest "b" "a").GroupID = "spurious" ∧ sampleMoveRequest.GroupID = "spurious"
    ∧ CreateRelationship sampleDB "r1" 5 (sampleRequest "b" "a") = (sampleDB1, .ok sampleRow)
    ∧ sampleRow.GroupID = "g1"
    ∧ UpdateRelationship sampleDB1 "r1" sampleMoveRequest = (sampleDB2, .ok sampleRowMoved)
    ∧ sampleRowMoved.GroupID = "g1"
    ∧ sameGroup sampleDB1 sampleRow ∧ sameGroup sampleDB2 sampleRowMoved := by
  have hc := C7_group_id_derived.2.2.1 sampleDB "r1" 5 (sampleRequest "b" "a")
    (sampleCharacter "b" "g1") (sampleCharacter "a" "g1") (by decide) rfl rfl rfl
    (by simp [sampleDB]) (by simp [sampleDB])
  have hu := C7_group_id_derived.2.2.2 sampleDB1 "r1" sampleMoveRequest sampleRow
    (sampleCharacter "d" "g1") (sampleCharacter "a" "g1") rfl (by decide)
    (Or.inl (by decide)) (by decide) rfl rfl rfl
    (by simp [sampleDB1, sampleRow, sampleMoveRequest, sample_min_da, sample_max_da])
  have hc1 : CreateRelationship sampleDB "r1" 5 (sampleRequest "b" "a")
      = (sampleDB1, .ok sampleRow) := by
    rw [hc]
    simp [sampleDB, sampleDB1, sampleRow, sampleRequest, sampleCharacter, sample_min_ba,
      sample_max_ba]
  have hu1 : UpdateRelationship sampleDB1 "r1" sampleMoveRequest
      = (sampleDB2, .ok sampleRowMoved) := by
    rw [hu]
    simp [sampleDB, sampleDB1, sampleDB2, sampleRow, sampleRowMoved, sampleMoveRequest,
      sampleCharacter, sample_min_da, sample_max_da]
  exact ⟨rfl, rfl, hc1, rfl, hu1, rfl,
    (C7_group_id_derived.1 sampleDB sampleDB1 "r1" 5 (sampleRequest "b" "a") sampleRow
      hc1).2.2,
    (C7_group_id_derived.2.1 sampleDB1 sampleDB2 "r1" sampleMoveRequest sampleRowMoved
      sampleRow rfl (Or.inl (by decide)) hu1).2.2⟩

/-- C8, counterexample. From a database with two groups, no character and no relationship,
the four calls of `sampleRegroupOps` (create `a` and `b` in group `g1`, relate them, move `a`
to group `g2` by `UpdateCharacter`) all succeed and reach a state whose stored relationship
`r1` has GroupID `g1` while its first character is in `g2`: the same-group property fails
for it. -/
theorem C8_regrouping_breaks_same_group :
    sampleGroupsDB.characters = [] ∧ sampleGroupsDB.relationships = []
    ∧ ∃ r ∈ (run sampleGroupsDB sampleRegroupOps).relationships,
        ¬ sameGroup (run sampleGroupsDB sampleRegroupOps) r := by
  refine ⟨rfl, rfl, sampleRow, ?_, ?_⟩
  · rw [sample_regroup]
    simp [sampleRegroupedDB]
  · rw [sample_regroup]
    rintro ⟨c1, c2, h1, h2, hg, hr⟩
    simp [characterRepository.GetByID, sampleRegroupedDB, sampleRow, sampleCharacter] at h1
    rw [← h1] at hr
    simp [sampleRow] at hr

/-- C8, amended. (1) Start from any database with no relationship stored and apply any
sequence of `CreateCharacter`, `UpdateCharacter`, `CreateRelationship`, `UpdateRelationship`
and `DeleteRelationship` calls in which no `UpdateCharacter` changes the GroupID of a
character that a relationship stored at that moment references (`groupsKept`); an
`UpdateCharacter` of a character that no stored relationship references may move it to
another group. In the resulting database, for every stored relationship both referenced
characters are stored with one GroupID, and it is the GroupID of the relationship. (2) The
condition cannot be dropped: in a state with the same-group property, an `UpdateCharacter`
after which a character referenced by a stored relationship has another GroupID than before
leaves that relationship without the same-group property. -/
theorem C8_same_group_while_related_kept :
    (∀ (db0 : DB) (ops : List Op), db0.relationships = [] → groupsKept db0 ops →
      ∀ r ∈ (run db0 ops).relationships, sameGroup (run db0 ops) r)
    ∧ (∀ (db : DB) (now : Nat) (id : String) (character : Character) (r : Relationship)
        (existing updated : Character),
      SameGroupInv db → r ∈ db.relationships →
      (r.Character1ID = id ∨ r.Character2ID = id) →
      characterRepository.GetByID db id = .ok existing →
      characterRepository.GetByID (characterService.UpdateCharacter db now id character).1 id
        = .ok updated →
      updated.GroupID ≠ existing.GroupID →
      r ∈ (characterService.UpdateCharacter db now id character).1.relationships
      ∧ ¬ sameGroup (characterService.UpdateCharacter db now id character).1 r) := by
  constructor
  · intro db0 ops h0 hkept
    exact run_sameGroup ops db0 hkept (by
      intro r hr
      rw [h0] at hr
      exact absurd hr (List.not_mem_nil _))
  · intro db now id character r existing updated hinv hr href hex hup hne
    refine ⟨by rw [UpdateCharacter_relationships]; exact hr, ?_⟩
    obtain ⟨c1, c2, h1, h2, hg, hrg⟩ := hinv r hr
    rintro ⟨d1, d2, hd1, hd2, hdg, hrd⟩
    rcases href with h | h
    · rw [h] at h1 hd1
      rw [hex] at h1
      rw [hup] at hd1
      have e1 : existing = c1 := Except.ok.inj h1
      have e2 : updated = d1 := Except.ok.inj hd1
      apply hne
      rw [e1, e2, ← hrg, ← hrd]
    · rw [h] at h2 hd2
      rw [hex] at h2
      rw [hup] at hd2
      have e1 : existing = c2 := Except.ok.inj h2
      have e2 : updated = d2 := Except.ok.inj hd2
      apply hne
      rw [e1, e2, ← hg, ← hdg, ← hrg, ← hrd]

/-- C8 (amended) at the sample data: in `sampleMoveThenRelateOps` the characters `a` and `b`
are moved to group `g2` while no relationship names them, then related, then `a` is renamed;
no call changes the group of a character that a stored relationship references, and the
stored relationship has the same-group property afterwards. -/
theorem C8_witness :
    groupsKept sampleGroupsDB sampleMoveThenRelateOps
    ∧ run sampleGroupsDB sampleMoveThenRelateOps = sampleMovedDB
    ∧ ∀ r ∈ (run sampleGroupsDB sampleMoveThenRelateOps).relationships,
        sameGroup (run sampleGroupsDB sampleMoveThenRelateOps) r :=
  ⟨sample_move_then_relate_kept, sample_move_then_relate,
   C8_same_group_while_related_kept.1 sampleGroupsDB sampleMoveThenRelateOps rfl
     sample_move_then_relate_kept⟩

/-- C9, the code at the failing input. The sample database stores the relationship `r1`
between `a` and `b` (both in group `g1`). An `UpdateRelationship` on `r1` whose request names
the same two characters as `(b, a)` is not treated as an unchanged pair: it runs the
duplicate check, which finds `r1` itself, and fails with
"relationship already exists between these characters", leaving the database unchanged. The
request naming them as `(a, b)` succeeds and keeps the stored GroupID. -/
theorem C9_reversed_pair_update_conflicts :
    relationshipRepository.GetByID sampleDB1 "r1" = .ok sampleRow
    ∧ UpdateRelationship sampleDB1 "r1" sampleReversedRequest
      = (sampleDB1, .error "relationship already exists between these characters")
    ∧ UpdateRelationship sampleDB1 "r1" sampleKeepRequest = (sampleDB3, .ok sampleRowKept) := by
  refine ⟨rfl, ?_, sample_update_keep⟩
  simp [UpdateRelationship_spec, validatePair_eq, sampleDB, sampleDB1, sampleRow,
    sampleReversedRequest, sampleCharacter, sample_min_ba, sample_max_ba]

/-- C10. GroupID is not settable on update. For a stored relationship `existing` with id
`id` and a request whose `Character1ID` and `Character2ID` equal the stored ones, a successful
`UpdateRelationship` writes into that row a relationship with the stored GroupID, for every
GroupID (and ID and CreatedAt) of the request: ID, GroupID and CreatedAt are the stored ones,
type and description are the requested ones, and a pair stored in order stays as it is. -/
theorem C10_update_keeps_group_id (db db1 : DB) (id : String)
    (req r existing : Relationship)
    (hex : relationshipRepository.GetByID db id = .ok existing)
    (h1 : req.Character1ID = existing.Character1ID)
    (h2 : req.Character2ID = existing.Character2ID)
    (hok : UpdateRelationship db id req = (db1, .ok r)) :
    db1.relationships = db.relationships.map (fun x => if x.ID == id then r else x)
    ∧ r.GroupID = existing.GroupID
    ∧ r.ID = existing.ID
    ∧ r.CreatedAt = existing.CreatedAt
    ∧ r.RelationshipType = req.RelationshipType
    ∧ r.Description = req.Description
    ∧ (existing.Character1ID ≤ existing.Character2ID →
        r.Character1ID = existing.Character1ID ∧ r.Character2ID = existing.Character2ID) := by
  obtain ⟨existing', hex', -, hid, -, -, hbranch, hrow, hdb⟩ := UpdateRelationship_ok hok
  have heq : existing' = existing := by
    rw [hex] at hex'
    exact (Except.ok.inj hex').symm
  subst heq
  have hg : r.GroupID = existing'.GroupID := by
    rcases hbranch with ⟨hch, -⟩ | ⟨-, hg⟩
    · rcases hch with h | h
      · exact absurd h1 h
      · exact absurd h2 h
    · exact hg
  refine ⟨by rw [hdb, hid], hg, by rw [hrow], by rw [hrow], by rw [hrow], by rw [hrow], ?_⟩
  intro hle
  constructor
  · rw [hrow]
    show min req.Character1ID req.Character2ID = existing'.Character1ID
    rw [h1, h2, min_eq_left hle]
  · rw [hrow]
    show max req.Character1ID req.Character2ID = existing'.Character2ID
    rw [h1, h2, max_eq_right hle]

/-- C10 at the sample data: the request carries the GroupID `spurious`, the row written keeps
the stored GroupID `g1`. -/
theorem C10_witness :
    UpdateRelationship sampleDB1 "r1" sampleKeepRequest = (sampleDB3, .ok sampleRowKept)
    ∧ sampleKeepRequest.GroupID ≠ sampleRow.GroupID
    ∧ sampleRowKept.GroupID = sampleRow.GroupID :=
  ⟨sample_update_keep, by decide,
   (C10_update_keeps_group_id sampleDB1 sampleDB3 "r1" sampleKeepRequest sampleRowKept
      sampleRow rfl rfl rfl sample_update_keep).2.1⟩

/-- C11. Update to a pair that is already taken. (1) In a database whose relationship rows
are stored in order (`Character1ID ≤ Character2ID`): let `r` be the relationship stored under
`id`, and let the request name two distinct characters, both stored and in one group, that
are not the two characters of `r`. If some stored relationship `other` (necessarily another
one than `r`) links the two requested characters, in either position, then
`UpdateRelationship` fails with "relationship already exists between these characters" and
the database, `r` included, is unchanged. (2) Every database reached from one with no
relationship by service calls has its rows stored in order, so there the same holds without
that assumption. -/
theorem C11_update_to_taken_pair_conflicts :
    (∀ (db : DB) (id : String) (req r other : Relationship) (ca cb : Character),
      (∀ x ∈ db.relationships, x.Character1ID ≤ x.Character2ID) →
      relationshipRepository.GetByID db id = .ok r →
      req.Character1ID ≠ req.Character2ID →
      linksPair req.Character1ID req.Character2ID r = false →
      characterRepository.GetByID db req.Character1ID = .ok ca →
      characterRepository.GetByID db req.Character2ID = .ok cb →
      ca.GroupID = cb.GroupID →
      other ∈ db.relationships →
      linksPair req.Character1ID req.Character2ID other = true →
      UpdateRelationship db id req
        = (db, .error "relationship already exists between these characters"))
    ∧ (∀ (db0 : DB) (ops : List Op) (id : String) (req r other : Relationship)
        (ca cb : Character),
      db0.relationships = [] →
      relationshipRepository.GetByID (run db0 ops) id = .ok r →
      req.Character1ID ≠ req.Character2ID →
      linksPair req.Character1ID req.Character2ID r = false →
      characterRepository.GetByID (run db0 ops) req.Character1ID = .ok ca →
      characterRepository.GetByID (run db0 ops) req.Character2ID = .ok cb →
      ca.GroupID = cb.GroupID →
      other ∈ (run db0 ops).relationships →
      linksPair req.Character1ID req.Character2ID other = true →
      UpdateRelationship (run db0 ops) id req
        = (run db0 ops, .error "relationship already exists between these characters")) := by
  constructor
  · intro db id req r other ca cb hord hex hne hdiff ha hb hg hother hlinks
    exact UpdateRelationship_taken_pair db id req r other ca cb hord hex hne hdiff ha hb hg
      hother hlinks
  · intro db0 ops id req r other ca cb h0 hex hne hdiff ha hb hg hother hlinks
    have hwf := run_WF ops db0 (by rw [h0]; exact RelationshipsWF_nil)
    exact UpdateRelationship_taken_pair (run db0 ops) id req r other ca cb
      (fun x hx => (hwf.1 x hx).le) hex hne hdiff ha hb hg hother hlinks

/-- C11 at the sample data: `r1` links `a` and `b`, `r2` links `a` and `d`; the update of `r1`
to the pair `(d, a)` is refused and nothing changes. -/
theorem C11_witness :
    UpdateRelationship sampleDB4 "r1" sampleMoveRequest
      = (sampleDB4, .error "relationship already exists between these characters") :=
  C11_update_to_taken_pair_conflicts.1 sampleDB4 "r1" sampleMoveRequest sampleRow sampleRow2
    (sampleCharacter "d" "g1") (sampleCharacter "a" "g1")
    (by
      intro x hx
      simp only [sampleDB4, List.mem_cons, List.mem_singleton, List.not_mem_nil, or_false] at hx
      rcases hx with rfl | rfl
      · exact sample_a_lt_b.le
      · exact sample_a_lt_d.le)
    rfl (by decide) (by decide) rfl rfl rfl (by simp [sampleDB4]) (by decide)

/-- C12. Updates preserve identity. For a successful `UpdateRelationship`, `UpdateCharacter`
and `UpdateLabel` on the id of the stored record `existing`: the record `r` that is written
into the row with that id (and returned) has `existing.ID` as its ID and
`existing.CreatedAt` as its CreatedAt, for every ID and CreatedAt of the request. -/
theorem C12_updates_preserve_identity :
    (∀ (db db1 : DB) (id : String) (req r existing : Relationship),
      relationshipRepository.GetByID db id = .ok existing →
      UpdateRelationship db id req = (db1, .ok r) →
      db1.relationships = db.relationships.map (fun x => if x.ID == id then r else x)
      ∧ r.ID = existing.ID ∧ r.CreatedAt = existing.CreatedAt)
    ∧ (∀ (db db1 : DB) (now : Nat) (id : String) (req r existing : Character),
      characterRepository.GetByID db id = .ok existing →
      characterService.UpdateCharacter db now id req = (db1, .ok r) →
      db1.characters = db.characters.map (fun x => if x.ID == id then r else x)
      ∧ r.ID = existing.ID ∧ r.CreatedAt = existing.CreatedAt)
    ∧ (∀ (db db1 : DB) (id : String) (req r existing : Label),
      labelRepository.GetByID db id = .ok existing →
      labelService.UpdateLabel db id req = (db1, .ok r) →
      db1.labels = db.labels.map (fun x => if x.ID == id then r else x)
      ∧ r.ID = existing.ID ∧ r.CreatedAt = existing.CreatedAt) := by
  refine ⟨?_, ?_, ?_⟩
  · intro db db1 id req r existing hex hok
    obtain ⟨e, he, -, hid, -, -, -, hrow, hdb⟩ := UpdateRelationship_ok hok
    have heq : e = existing := by
      rw [hex] at he
      exact (Except.ok.inj he).symm
    subst heq
    exact ⟨by rw [hdb, hid], by rw [hrow], by rw [hrow]⟩
  · intro db db1 now id req r existing hex hok
    obtain ⟨e, he, hid, hrow, hdb⟩ := UpdateCharacter_ok hok
    have heq : e = existing := by
      rw [hex] at he
      exact (Except.ok.inj he).symm
    subst heq
    exact ⟨by rw [hdb, hid], by rw [hrow], by rw [hrow]⟩
  · intro db db1 id req r existing hex hok
    obtain ⟨e, he, hid, hrow, hdb⟩ := UpdateLabel_ok hok
    have heq : e = existing := by
      rw [hex] at he
      exact (Except.ok.inj he).symm
    subst heq
    exact ⟨by rw [hdb, hid], by rw [hrow], by rw [hrow]⟩

/-- C12 at the sample data: the three requests carry the id `other` and the creation time 99;
the records written keep the stored ids `r1`, `x`, `L1` and the stored creation times. -/
theorem C12_witness :
    (sampleRowKept.ID = sampleRow.ID ∧ sampleRowKept.CreatedAt = sampleRow.CreatedAt)
    ∧ (sampleCharacterUpdated.ID = "x" ∧ sampleCharacterUpdated.CreatedAt = 1)
    ∧ (sampleLabelUpdated.ID = "L1" ∧ sampleLabelUpdated.CreatedAt = 1) :=
  ⟨(C12_updates_preserve_identity.1 sampleDB1 sampleDB3 "r1" sampleKeepRequest sampleRowKept
      sampleRow rfl sample_update_keep).2,
   (C12_updates_preserve_identity.2.1 sampleLabelsDB _ 7 "x" sampleCharacterRequest
      sampleCharacterUpdated (sampleCharacter "x" "g1") rfl sample_update_character).2,
   (C12_updates_preserve_identity.2.2 sampleLabelsDB _ "L1" sampleLabelRequest
      sampleLabelUpdated (sampleLabel "L1") rfl sample_update_label).2⟩

/-- C13. `DeleteRelationship` never succeeds twice. (1) In every database, when no stored
relationship has the id, `DeleteRelationship` fails with "relationship not found" and the
database is unchanged. (2) After a successful `DeleteRelationship` of an id (which was stored)
no stored relationship has that id, so the same call on the resulting database fails with
"relationship not found" and changes nothing. -/
theorem C13_delete_never_succeeds_twice :
    (∀ (db : DB) (id : String), (∀ r ∈ db.relationships, r.ID ≠ id) →
      DeleteRelationship db id = (db, .error "relationship not found"))
    ∧ (∀ (db db1 : DB) (id : String), DeleteRelationship db id = (db1, .ok ()) →
      (∃ r ∈ db.relationships, r.ID = id)
      ∧ (∀ r ∈ db1.relationships, r.ID ≠ id)
      ∧ DeleteRelationship db1 id = (db1, .error "relationship not found")) := by
  have first : ∀ (db : DB) (id : String), (∀ r ∈ db.relationships, r.ID ≠ id) →
      DeleteRelationship db id = (db, .error "relationship not found") := by
    intro db id hmiss
    rw [DeleteRelationship_spec,
      any_false_of_forall_ne Relationship.ID db.relationships id hmiss]
    simp
  refine ⟨first, ?_⟩
  intro db db1 id hok
  rw [DeleteRelationship_spec] at hok
  cases hany : db.relationships.any (fun r => r.ID == id) with
  | false => simp [hany] at hok
  | true =>
    simp only [hany, Bool.true_eq_false, if_false, Prod.mk.injEq, and_true] at hok
    have hgone : ∀ r ∈ db1.relationships, r.ID ≠ id := by
      intro r hr
      rw [← hok] at hr
      simpa using (List.mem_filter.mp hr).2
    obtain ⟨r, hr, hrid⟩ := List.any_eq_true.mp hany
    exact ⟨⟨r, hr, by simpa using hrid⟩, hgone, first db1 id hgone⟩

/-- C13 at the sample data: `r1` is deleted from the database that stores it; the second
delete of `r1` fails. -/
theorem C13_witness :
    DeleteRelationship sampleDB1 "r1" = (sampleDB, .ok ())
    ∧ DeleteRelationship sampleDB "r1" = (sampleDB, .error "relationship not found") :=
  have h : DeleteRelationship sampleDB1 "r1" = (sampleDB, .ok ()) := by
    simp [DeleteRelationship_spec, sampleDB1, sampleDB, sampleRow]
  ⟨h, (C13_delete_never_succeeds_twice.2 sampleDB1 sampleDB "r1" h).2.2⟩

/-- C14. `GetRelationshipsByCharacterID x`. (1) When no stored character has the id `x` it
fails with "character not found". (2) When some stored character has the id `x` it succeeds
and returns the stored relationships whose `Character1ID` or `Character2ID` is `x`, all of
them and no other, in table order. (3) In particular it returns the empty list when no stored
relationship names `x`. (4) After a successful `CreateRelationship` the created relationship
is in the list returned for the first and for the second character of the request. -/
theorem C14_relationships_of_character :
    (∀ (db : DB) (x : String), (∀ c ∈ db.characters, c.ID ≠ x) →
      GetRelationshipsByCharacterID db x = .error "character not found")
    ∧ (∀ (db : DB) (x : String), (∃ c ∈ db.characters, c.ID = x) →
      GetRelationshipsByCharacterID db x
          = .ok (db.relationships.filter
              (fun r => r.Character1ID == x || r.Character2ID == x))
      ∧ ∀ r, r ∈ db.relationships.filter (fun r => r.Character1ID == x || r.Character2ID == x)
          ↔ r ∈ db.relationships ∧ (r.Character1ID = x ∨ r.Character2ID = x))
    ∧ (∀ (db : DB) (x : String), (∃ c ∈ db.characters, c.ID = x) →
      (∀ r ∈ db.relationships, r.Character1ID ≠ x ∧ r.Character2ID ≠ x) →
      GetRelationshipsByCharacterID db x = .ok [])
    ∧ (∀ (db db1 : DB) (uuid : String) (now : Nat) (req created : Relationship),
      CreateRelationship db uuid now req = (db1, .ok created) →
      ∃ l1 l2, GetRelationshipsByCharacterID db1 req.Character1ID = .ok l1 ∧ created ∈ l1
        ∧ GetRelationshipsByCharacterID db1 req.Character2ID = .ok l2 ∧ created ∈ l2) := by
  have found : ∀ (db : DB) (x : String), (∃ c ∈ db.characters, c.ID = x) →
      GetRelationshipsByCharacterID db x
          = .ok (db.relationships.filter
              (fun r => r.Character1ID == x || r.Character2ID == x)) := by
    intro db x hex
    rw [GetRelationshipsByCharacterID_spec,
      any_true_of_exists_eq Character.ID db.characters x hex]
    simp
  refine ⟨?_, ?_, ?_, ?_⟩
  · intro db x hmiss
    rw [GetRelationshipsByCharacterID_spec,
      any_false_of_forall_ne Character.ID db.characters x hmiss]
    simp
  · intro db x hex
    refine ⟨found db x hex, ?_⟩
    intro r
    simp [List.mem_filter]
  · intro db x hex hnone
    rw [found db x hex]
    congr 1
    rw [List.filter_eq_nil_iff]
    intro r hr
    have := hnone r hr
    simp [this.1, this.2]
  · intro db db1 uuid now req created hok
    obtain ⟨-, c1, c2, h1, h2, -, -, -, hrow, hdb⟩ := CreateRelationship_ok hok
    have hchars : db1.characters = db.characters := by rw [hdb]
    have hmem : created ∈ db1.relationships := by rw [hdb]; simp
    have hc1 : created.Character1ID = min req.Character1ID req.Character2ID := by rw [hrow]
    have hc2 : created.Character2ID = max req.Character1ID req.Character2ID := by rw [hrow]
    have hex1 : ∃ c ∈ db1.characters, c.ID = req.Character1ID := by
      rw [hchars]
      have hf := characterRepository_GetByID_ok.mp h1
      exact ⟨c1, List.mem_of_find?_eq_some hf, by simpa using List.find?_some hf⟩
    have hex2 : ∃ c ∈ db1.characters, c.ID = req.Character2ID := by
      rw [hchars]
      have hf := characterRepository_GetByID_ok.mp h2
      exact ⟨c2, List.mem_of_find?_eq_some hf, by simpa using List.find?_some hf⟩
    refine ⟨_, _, found db1 _ hex1, ?_, found db1 _ hex2, ?_⟩
    · rw [List.mem_filter]
      refine ⟨hmem, ?_⟩
      rcases le_total req.Character1ID req.Character2ID with h | h
      · simp [hc1, min_eq_left h]
      · simp [hc2, max_eq_left h]
    · rw [List.mem_filter]
      refine ⟨hmem, ?_⟩
      rcases le_total req.Character1ID req.Character2ID with h | h
      · simp [hc2, max_eq_right h]
      · simp [hc1, min_eq_right h]

/-- C14 at the sample data: `zz` is no character; `c` is a character with no relationship;
the relationship `r1`, created for the request `(b, a)`, is returned for `a` and for `b`. -/
theorem C14_witness :
    GetRelationshipsByCharacterID sampleDB1 "zz" = .error "character not found"
    ∧ GetRelationshipsByCharacterID sampleDB1 "c" = .ok []
    ∧ ∃ l1 l2, GetRelationshipsByCharacterID sampleDB1 "b" = .ok l1 ∧ sampleRow ∈ l1
        ∧ GetRelationshipsByCharacterID sampleDB1 "a" = .ok l2 ∧ sampleRow ∈ l2 :=
  ⟨C14_relationships_of_character.1 sampleDB1 "zz" (by decide),
   C14_relationships_of_character.2.2.1 sampleDB1 "c"
     ⟨sampleCharacter "c" "g2", by decide, rfl⟩ (by decide),
   C14_relationships_of_character.2.2.2 sampleDB sampleDB1 "r1" 5 (sampleRequest "b" "a")
     sampleRow sample_create⟩

/-- C15. `AddLabelToCharacter` checks its preconditions in a fixed order and reports the
first that fails, leaving the database unchanged: (1) no stored character has the id:
"character not found"; (2) otherwise, no stored label has the id: "label not found";
(3) otherwise, the label is already attached: "character already has this label";
(4) otherwise, the character has 5 labels or more:
"character cannot have more than 5 labels"; (5) otherwise the call succeeds and the
association is appended to the join table. (6) Conversely a successful call passed all four
checks, and (7) a failed call wrote nothing. -/
theorem C15_add_label_check_order (db : DB) (c l : String) :
    ((∀ x ∈ db.characters, x.ID ≠ c) →
      characterService.AddLabelToCharacter db c l = (db, .error "character not found"))
    ∧ ((∃ x ∈ db.characters, x.ID = c) → (∀ x ∈ db.labels, x.ID ≠ l) →
      characterService.AddLabelToCharacter db c l = (db, .error "label not found"))
    ∧ ((∃ x ∈ db.characters, x.ID = c) → (∃ x ∈ db.labels, x.ID = l) →
      (c, l) ∈ db.character_labels →
      characterService.AddLabelToCharacter db c l
        = (db, .error "character already has this label"))
    ∧ ((∃ x ∈ db.characters, x.ID = c) → (∃ x ∈ db.labels, x.ID = l) →
      (c, l) ∉ db.character_labels → 5 ≤ (labelsOf db c).length →
      characterService.AddLabelToCharacter db c l
        = (db, .error "character cannot have more than 5 labels"))
    ∧ ((∃ x ∈ db.characters, x.ID = c) → (∃ x ∈ db.labels, x.ID = l) →
      (c, l) ∉ db.character_labels → (labelsOf db c).length < 5 →
      characterService.AddLabelToCharacter db c l
        = ({ db with character_labels := db.character_labels ++ [(c, l)] }, .ok ()))
    ∧ (∀ db1, characterService.AddLabelToCharacter db c l = (db1, .ok ()) →
      (∃ x ∈ db.characters, x.ID = c) ∧ (∃ x ∈ db.labels, x.ID = l)
      ∧ (c, l) ∉ db.character_labels ∧ (labelsOf db c).length < 5
      ∧ db1 = { db with character_labels := db.character_labels ++ [(c, l)] })
    ∧ (∀ db1 e, characterService.AddLabelToCharacter db c l = (db1, .error e) → db1 = db) := by
  refine ⟨?_, ?_, ?_, ?_, ?_, ?_, ?_⟩
  · intro hc
    rw [AddLabelToCharacter_spec, any_false_of_forall_ne Character.ID db.characters c hc]
    simp
  · intro hc hl
    rw [AddLabelToCharacter_spec, any_true_of_exists_eq Character.ID db.characters c hc,
      any_false_of_forall_ne Label.ID db.labels l hl]
    simp
  · intro hc hl hj
    rw [AddLabelToCharacter_present db c l hc hl, if_pos hj]
  · intro hc hl hj hn
    rw [AddLabelToCharacter_present db c l hc hl, if_neg hj, if_pos hn]
  · intro hc hl hj hn
    rw [AddLabelToCharacter_present db c l hc hl, if_neg hj, if_neg (Nat.not_le.mpr hn)]
  · intro db1 h
    exact AddLabelToCharacter_ok h
  · intro db1 e h
    exact AddLabelToCharacter_error h

/-- C15 at the sample data, one call for each outcome: an unknown character (with an unknown
label), an unknown label, an attached label (on a character with 5 labels), a sixth label, and
a fifth label, which is written. -/
theorem C15_witness :
    characterService.AddLabelToCharacter sampleLabelsDB "nobody" "nothing"
      = (sampleLabelsDB, .error "character not found")
    ∧ characterService.AddLabelToCharacter sampleLabelsDB "x" "nothing"
      = (sampleLabelsDB, .error "label not found")
    ∧ characterService.AddLabelToCharacter sampleLabelsDB "x" "L1"
      = (sampleLabelsDB, .error "character already has this label")
    ∧ characterService.AddLabelToCharacter sampleLabelsDB "x" "L6"
      = (sampleLabelsDB, .error "character cannot have more than 5 labels")
    ∧ characterService.AddLabelToCharacter sampleLabelsDB "y" "L5"
      = (sampleLabelsDB1, .ok ()) :=
  ⟨(C15_add_label_check_order sampleLabelsDB "nobody" "nothing").1 (by decide),
   (C15_add_label_check_order sampleLabelsDB "x" "nothing").2.1
     ⟨sampleCharacter "x" "g1", by decide, rfl⟩ (by decide),
   (C15_add_label_check_order sampleLabelsDB "x" "L1").2.2.1
     ⟨sampleCharacter "x" "g1", by decide, rfl⟩ ⟨sampleLabel "L1", by decide, rfl⟩
     (by decide),
   (C15_add_label_check_order sampleLabelsDB "x" "L6").2.2.2.1
     ⟨sampleCharacter "x" "g1", by decide, rfl⟩ ⟨sampleLabel "L6", by decide, rfl⟩
     (by decide) (by decide),
   (C15_add_label_check_order sampleLabelsDB "y" "L5").2.2.2.2.1
     ⟨sampleCharacter "y" "g1", by decide, rfl⟩ ⟨sampleLabel "L5", by decide, rfl⟩
     (by decide) (by decide)⟩

/-- C16, counterexample. The sample character `x` exists and has exactly 5 attached labels.
`AddLabelToCharacter` fails for it with "character already has this label" when the label
passed is the attached, existing label `L1`, and with "label not found" when the label id
passed is not stored: neither is the limit error. -/
theorem C16_five_labels_other_errors :
    (∃ ch ∈ sampleLabelsDB.characters, ch.ID = "x")
    ∧ characterRepository.GetLabelsCount sampleLabelsDB "x" = .ok 5
    ∧ characterService.AddLabelToCharacter sampleLabelsDB "x" "L1"
      = (sampleLabelsDB, .error "character already has this label")
    ∧ characterService.AddLabelToCharacter sampleLabelsDB "x" "nothing"
      = (sampleLabelsDB, .error "label not found") := by
  refine ⟨⟨sampleCharacter "x" "g1", by decide, rfl⟩, rfl, ?_, ?_⟩
  · simp [AddLabelToCharacter_spec, sampleLabelsDB, sampleCharacter, sampleLabel]
  · simp [AddLabelToCharacter_spec, sampleLabelsDB, sampleCharacter, sampleLabel]

/-- C16, amended. For every stored character with exactly 5 attached labels
`AddLabelToCharacter` fails for every label id passed, and the database is unchanged: with
"character cannot have more than 5 labels" when the label is stored and not attached to the
character, with "character already has this label" when it is stored and attached, and with
"label not found" when no label with the id is stored. -/
theorem C16_five_labels_add_fails (db : DB) (c : String)
    (hc : ∃ x ∈ db.characters, x.ID = c) (h5 : (labelsOf db c).length = 5) (l : String) :
    (∃ e, characterService.AddLabelToCharacter db c l = (db, .error e))
    ∧ ((∃ x ∈ db.labels, x.ID = l) → (c, l) ∉ db.character_labels →
      characterService.AddLabelToCharacter db c l
        = (db, .error "character cannot have more than 5 labels"))
    ∧ ((∃ x ∈ db.labels, x.ID = l) → (c, l) ∈ db.character_labels →
      characterService.AddLabelToCharacter db c l
        = (db, .error "character already has this label"))
    ∧ ((∀ x ∈ db.labels, x.ID ≠ l) →
      characterService.AddLabelToCharacter db c l = (db, .error "label not found")) := by
  have hmiss : (∀ x ∈ db.labels, x.ID ≠ l) →
      characterService.AddLabelToCharacter db c l = (db, .error "label not found") := by
    intro hl
    rw [AddLabelToCharacter_spec, any_true_of_exists_eq Character.ID db.characters c hc,
      any_false_of_forall_ne Label.ID db.labels l hl]
    simp
  have hlimit : (∃ x ∈ db.labels, x.ID = l) → (c, l) ∉ db.character_labels →
      characterService.AddLabelToCharacter db c l
        = (db, .error "character cannot have more than 5 labels") := by
    intro hl hj
    rw [AddLabelToCharacter_present db c l hc hl, if_neg hj, if_pos (by rw [h5])]
  have hconf : (∃ x ∈ db.labels, x.ID = l) → (c, l) ∈ db.character_labels →
      characterService.AddLabelToCharacter db c l
        = (db, .error "character already has this label") := by
    intro hl hj
    rw [AddLabelToCharacter_present db c l hc hl, if_pos hj]
  refine ⟨?_, hlimit, hconf, hmiss⟩
  by_cases hl : ∃ x ∈ db.labels, x.ID = l
  · by_cases hj : (c, l) ∈ db.character_labels
    · exact ⟨_, hconf hl hj⟩
    · exact ⟨_, hlimit hl hj⟩
  · refine ⟨_, hmiss ?_⟩
    intro x hx hxl
    exact hl ⟨x, hx, hxl⟩

/-- C16 (amended) at the sample data: `x` has 5 labels, the stored and unattached label `L6`
is refused with the limit error. -/
theorem C16_witness :
    characterService.AddLabelToCharacter sampleLabelsDB "x" "L6"
      = (sampleLabelsDB, .error "character cannot have more than 5 labels") :=
  (C16_five_labels_add_fails sampleLabelsDB "x" ⟨sampleCharacter "x" "g1", by decide, rfl⟩
    (by decide) "L6").2.1 ⟨sampleLabel "L6", by decide, rfl⟩ (by decide)

/-- C17. For every stored character with fewer than 5 attached labels (so also with exactly
4) and every stored label not attached to it, `AddLabelToCharacter` succeeds; afterwards
the association is stored, the character carries the label, and it carries one label more
than before (`HasLabel` answers true and `GetLabelsCount` the old count plus one). -/
theorem C17_add_label_succeeds_below_limit (db : DB) (c l : String)
    (hc : ∃ x ∈ db.characters, x.ID = c) (hl : ∃ x ∈ db.labels, x.ID = l)
    (hj : (c, l) ∉ db.character_labels) (hn : (labelsOf db c).length < 5) :
    ∃ db1, characterService.AddLabelToCharacter db c l = (db1, .ok ())
      ∧ db1.character_labels = db.character_labels ++ [(c, l)]
      ∧ l ∈ labelsOf db1 c
      ∧ labelsOf db1 c = labelsOf db c ++ [l]
      ∧ (labelsOf db1 c).length = (labelsOf db c).length + 1
      ∧ characterRepository.HasLabel db1 c l = .ok true
      ∧ characterRepository.GetLabelsCount db c = .ok (labelsOf db c).length
      ∧ characterRepository.GetLabelsCount db1 c = .ok ((labelsOf db c).length + 1) := by
  have hcount : ∀ d : DB, (∃ x ∈ d.characters, x.ID = c) →
      characterRepository.GetLabelsCount d c = .ok (labelsOf d c).length := by
    intro d hd
    obtain ⟨ch, hch, hchid⟩ := find?_of_any _ _
      (any_true_of_exists_eq Character.ID d.characters c hd)
    have hchid' : ch.ID = c := by simpa using hchid
    simp only [characterRepository.GetLabelsCount, hch, hchid', labelsOf_length]
  refine ⟨{ db with character_labels := db.character_labels ++ [(c, l)] }, ?_, rfl, ?_, ?_,
    ?_, ?_, hcount db hc, ?_⟩
  · rw [AddLabelToCharacter_present db c l hc hl, if_neg hj, if_neg (Nat.not_le.mpr hn)]
  · rw [mem_labelsOf]
    simp
  · rw [labelsOf_add, if_pos rfl]
  · rw [labelsOf_add, if_pos rfl, List.length_append, List.length_singleton]
  · rw [characterRepository_HasLabel_eq]
    congr 1
    rw [hasJoin_iff]
    simp
  · rw [hcount { db with character_labels := db.character_labels ++ [(c, l)] } hc,
      labelsOf_add, if_pos rfl, List.length_append, List.length_singleton]

/-- C17 at the sample data: `y` has 4 labels, the stored label `L5` is attached to it. -/
theorem C17_witness :
    ∃ db1, characterService.AddLabelToCharacter sampleLabelsDB "y" "L5" = (db1, .ok ())
      ∧ "L5" ∈ labelsOf db1 "y" ∧ (labelsOf db1 "y").length = 4 + 1 :=
  have h := C17_add_label_succeeds_below_limit sampleLabelsDB "y" "L5"
    ⟨sampleCharacter "y" "g1", by decide, rfl⟩ ⟨sampleLabel "L5", by decide, rfl⟩
    (by decide) (by decide)
  h.elim fun db1 hdb1 => ⟨db1, hdb1.1, hdb1.2.2.1, hdb1.2.2.2.2.1⟩

/-- C18. Label cardinality invariant. From every database in which each character has at
most 5 attached labels and none twice, every sequence of `AddLabelToCharacter` and
`RemoveLabelFromCharacter` calls, each succeeding or failing, leads to a database in which
each character again has at most 5 attached labels and none twice. -/
theorem C18_label_cardinality_invariant (db0 : DB) (h0 : LabelsBounded db0)
    (ops : List LabelOp) (c : String) :
    (labelsOf (labelRun db0 ops) c).length ≤ 5 ∧ (labelsOf (labelRun db0 ops) c).Nodup :=
  labelRun_bounded ops db0 h0 c

/-- C18 at the sample data: the sample label database is bounded, and so is the state
after the six calls of `sampleLabelOps`, for the character `x`. -/
theorem C18_witness :
    LabelsBounded sampleLabelsDB
    ∧ (labelsOf (labelRun sampleLabelsDB sampleLabelOps) "x").length ≤ 5
    ∧ (labelsOf (labelRun sampleLabelsDB sampleLabelOps) "x").Nodup :=
  have hb : LabelsBounded sampleLabelsDB := by
    intro c
    by_cases hx : c = "x"
    · subst hx; decide
    · by_cases hy : c = "y"
      · subst hy; decide
      · have hx' : ("x" == c) = false := by simpa using fun e : "x" = c => hx e.symm
        have hy' : ("y" == c) = false := by simpa using fun e : "y" = c => hy e.symm
        simp [labelsOf, sampleLabelsDB, List.filter_cons, hx', hy']
  ⟨hb, C18_label_cardinality_invariant sampleLabelsDB hb sampleLabelOps "x"⟩

/-- C19. Adding is not idempotent. After `AddLabelToCharacter c l` has succeeded, the same
call fails with "character already has this label" and leaves the database unchanged:
(i) on the state right after the first call, and (ii) on every later state in which the
character and the label are still stored and the label is still attached to the
character. -/
theorem C19_repeated_add_conflicts (db db1 : DB) (c l : String)
    (hok : characterService.AddLabelToCharacter db c l = (db1, .ok ())) :
    characterService.AddLabelToCharacter db1 c l
      = (db1, .error "character already has this label")
    ∧ ∀ db2 : DB, (∃ x ∈ db2.characters, x.ID = c) → (∃ x ∈ db2.labels, x.ID = l) →
        (c, l) ∈ db2.character_labels →
        characterService.AddLabelToCharacter db2 c l
          = (db2, .error "character already has this label") := by
  have later : ∀ db2 : DB, (∃ x ∈ db2.characters, x.ID = c) → (∃ x ∈ db2.labels, x.ID = l) →
      (c, l) ∈ db2.character_labels →
      characterService.AddLabelToCharacter db2 c l
        = (db2, .error "character already has this label") := by
    intro db2 hc hl hj
    rw [AddLabelToCharacter_present db2 c l hc hl, if_pos hj]
  obtain ⟨hc, hl, -, -, hdb⟩ := AddLabelToCharacter_ok hok
  refine ⟨later db1 ?_ ?_ ?_, later⟩
  · rw [hdb]; exact hc
  · rw [hdb]; exact hl
  · rw [hdb]; simp

/-- C19 at the sample data: `L5` is attached to `y`, the second attempt is refused. -/
theorem C19_witness :
    characterService.AddLabelToCharacter sampleLabelsDB "y" "L5" = (sampleLabelsDB1, .ok ())
    ∧ characterService.AddLabelToCharacter sampleLabelsDB1 "y" "L5"
      = (sampleLabelsDB1, .error "character already has this label") :=
  have h : characterService.AddLabelToCharacter sampleLabelsDB "y" "L5"
      = (sampleLabelsDB1, .ok ()) := by
    simp [AddLabelToCharacter_spec, sampleLabelsDB, sampleLabelsDB1, sampleCharacter,
      sampleLabel, labelsOf]
  ⟨h, (C19_repeated_add_conflicts sampleLabelsDB sampleLabelsDB1 "y" "L5" h).1⟩

/-- C20. `RemoveLabelFromCharacter c l`. (1) When no stored character has the id `c` it
fails with "character not found", whether or not the label exists. (2) Otherwise, when no
stored label has the id `l`, it fails with "label not found". In both cases the database is
unchanged. (3) When both are stored it succeeds and deletes the join rows of the two: the
character then carries its former labels without `l`. (4) When both are stored and `l` is
not attached to `c` it succeeds and the database is unchanged. (5) When both are stored, a
second removal succeeds and changes nothing: twice is the same as once. -/
theorem C20_remove_label (db : DB) (c l : String) :
    ((∀ x ∈ db.characters, x.ID ≠ c) →
      characterService.RemoveLabelFromCharacter db c l = (db, .error "character not found"))
    ∧ ((∃ x ∈ db.characters, x.ID = c) → (∀ x ∈ db.labels, x.ID ≠ l) →
      characterService.RemoveLabelFromCharacter db c l = (db, .error "label not found"))
    ∧ ((∃ x ∈ db.characters, x.ID = c) → (∃ x ∈ db.labels, x.ID = l) →
      ∃ db1, characterService.RemoveLabelFromCharacter db c l = (db1, .ok ())
        ∧ db1.character_labels = db.character_labels.filter (fun j => !(j.1 == c && j.2 == l))
        ∧ labelsOf db1 c = (labelsOf db c).filter (fun x => !(x == l))
        ∧ (c, l) ∉ db1.character_labels
        ∧ characterService.RemoveLabelFromCharacter db1 c l = (db1, .ok ()))
    ∧ ((∃ x ∈ db.characters, x.ID = c) → (∃ x ∈ db.labels, x.ID = l) →
      (c, l) ∉ db.character_labels →
      characterService.RemoveLabelFromCharacter db c l = (db, .ok ())) := by
  have absent : ∀ d : DB, (∃ x ∈ d.characters, x.ID = c) → (∃ x ∈ d.labels, x.ID = l) →
      (c, l) ∉ d.character_labels →
      characterService.RemoveLabelFromCharacter d c l = (d, .ok ()) := by
    intro d hc hl hj
    rw [RemoveLabelFromCharacter_present d c l hc hl]
    have hfilter : d.character_labels.filter (fun j => !(j.1 == c && j.2 == l))
        = d.character_labels := by
      rw [List.filter_eq_self]
      rintro ⟨a, b⟩ hab
      simp only [Bool.not_eq_true', Bool.and_eq_false_iff, beq_eq_false_iff_ne, ne_eq]
      by_contra hcon
      simp only [not_or, not_not] at hcon
      exact hj (by rw [← hcon.1, ← hcon.2]; exact hab)
    rw [hfilter, db_eta_character_labels]
  refine ⟨?_, ?_, ?_, absent db⟩
  · intro hc
    rw [RemoveLabelFromCharacter_spec, any_false_of_forall_ne Character.ID db.characters c hc]
    simp
  · intro hc hl
    rw [RemoveLabelFromCharacter_spec, any_true_of_exists_eq Character.ID db.characters c hc,
      any_false_of_forall_ne Label.ID db.labels l hl]
    simp
  · intro hc hl
    have hgone : (c, l) ∉ db.character_labels.filter (fun j => !(j.1 == c && j.2 == l)) := by
      intro hmem
      have := (List.mem_filter.mp hmem).2
      simp at this
    refine ⟨_, RemoveLabelFromCharacter_present db c l hc hl, rfl, ?_, hgone, ?_⟩
    · rw [labelsOf_remove, if_pos rfl]
    · exact absent _ hc hl hgone

/-- C20 at the sample data: an unknown character, an unknown label, the removal of the
attached label `L1` from `x`, and the removal of the unattached label `L6` from `x`, which
succeeds and changes nothing. -/
theorem C20_witness :
    characterService.RemoveLabelFromCharacter sampleLabelsDB "nobody" "nothing"
      = (sampleLabelsDB, .error "character not found")
    ∧ characterService.RemoveLabelFromCharacter sampleLabelsDB "x" "nothing"
      = (sampleLabelsDB, .error "label not found")
    ∧ (∃ db1, characterService.RemoveLabelFromCharacter sampleLabelsDB "x" "L1" = (db1, .ok ())
        ∧ labelsOf db1 "x" = ["L2", "L3", "L4", "L5"])
    ∧ characterService.RemoveLabelFromCharacter sampleLabelsDB "x" "L6"
      = (sampleLabelsDB, .ok ()) :=
  ⟨(C20_remove_label sampleLabelsDB "nobody" "nothing").1 (by decide),
   (C20_remove_label sampleLabelsDB "x" "nothing").2.1
     ⟨sampleCharacter "x" "g1", by decide, rfl⟩ (by decide),
   ((C20_remove_label sampleLabelsDB "x" "L1").2.2.1
     ⟨sampleCharacter "x" "g1", by decide, rfl⟩ ⟨sampleLabel "L1", by decide, rfl⟩).elim
     fun db1 h => ⟨db1, h.1, h.2.2.1.trans (by decide)⟩,
   (C20_remove_label sampleLabelsDB "x" "L6").2.2.2
     ⟨sampleCharacter "x" "g1", by decide, rfl⟩ ⟨sampleLabel "L6", by decide, rfl⟩
     (by decide)⟩

/-- C21. Remove frees a slot. Let the stored character `X` carry exactly 5 labels (none
twice), among them `L`, and let `L6` be a stored label not attached to `X`. Then
(1) `AddLabelToCharacter X L6` fails with "character cannot have more than 5 labels" and
changes nothing; (2) `RemoveLabelFromCharacter X L` succeeds, for the stored label `L`;
(3) on the resulting database `AddLabelToCharacter X L6` succeeds, and afterwards `X`
carries exactly 5 labels, `L6` among them and `L` not. -/
theorem C21_remove_frees_a_slot (db : DB) (X L L6 : String)
    (hX : ∃ x ∈ db.characters, x.ID = X)
    (h5 : (labelsOf db X).length = 5) (hnodup : (labelsOf db X).Nodup)
    (hL6 : ∃ x ∈ db.labels, x.ID = L6) (hfree : (X, L6) ∉ db.character_labels)
    (hL : ∃ x ∈ db.labels, x.ID = L) (hattached : (X, L) ∈ db.character_labels) :
    characterService.AddLabelToCharacter db X L6
      = (db, .error "character cannot have more than 5 labels")
    ∧ ∃ db1 db2, characterService.RemoveLabelFromCharacter db X L = (db1, .ok ())
        ∧ characterService.AddLabelToCharacter db1 X L6 = (db2, .ok ())
        ∧ (labelsOf db2 X).length = 5
        ∧ L6 ∈ labelsOf db2 X
        ∧ L ∉ labelsOf db2 X := by
  have hne : L6 ≠ L := by
    intro e
    rw [e] at hfree
    exact hfree hattached
  have hLmem : L ∈ labelsOf db X := (mem_labelsOf db X L).mpr hattached
  have hlen : ((labelsOf db X).filter (fun x => !(x == L))).length = 4 := by
    have h1 := List.length_eq_length_filter_add (l := labelsOf db X) (fun x => x == L)
    have h2 : ((labelsOf db X).filter (fun x => x == L)).length = 1 := by
      have := List.count_eq_one_of_mem hnodup hLmem
      rw [List.count, List.countP_eq_length_filter] at this
      exact this
    omega
  have hfree1 : (X, L6) ∉ db.character_labels.filter (fun j => !(j.1 == X && j.2 == L)) :=
    fun hm => hfree (List.mem_filter.mp hm).1
  have hlen1 : (labelsOf
      { db with character_labels :=
          db.character_labels.filter (fun j => !(j.1 == X && j.2 == L)) } X).length = 4 := by
    rw [labelsOf_remove, if_pos rfl, hlen]
  refine ⟨?_,
    { db with character_labels :=
        db.character_labels.filter (fun j => !(j.1 == X && j.2 == L)) },
    { db with character_labels :=
        (db.character_labels.filter (fun j => !(j.1 == X && j.2 == L))) ++ [(X, L6)] },
    RemoveLabelFromCharacter_present db X L hX hL, ?_, ?_, ?_, ?_⟩
  · rw [AddLabelToCharacter_present db X L6 hX hL6, if_neg hfree, if_pos (by rw [h5])]
  · have hadd := AddLabelToCharacter_present
      { db with character_labels :=
          db.character_labels.filter (fun j => !(j.1 == X && j.2 == L)) } X L6 hX hL6
    rw [hadd, if_neg hfree1, hlen1]
    simp
  · have := labelsOf_add
      { db with character_labels :=
          db.character_labels.filter (fun j => !(j.1 == X && j.2 == L)) } X L6 X
    simp only [if_true] at this
    rw [this, List.length_append, List.length_singleton, hlen1]
  · rw [mem_labelsOf]
    simp
  · rw [mem_labelsOf]
    intro hm
    rcases List.mem_append.mp hm with h | h
    · have := (List.mem_filter.mp h).2
      simp at this
    · have := List.mem_singleton.mp h
      exact hne (Prod.mk.inj this).2.symm

/-- C21 at the sample data: the scenario of the specification, with the character `x`, its
labels `L1` .. `L5`, the removed label `L1` and the new label `L6`. -/
theorem C21_witness :
    characterService.AddLabelToCharacter sampleLabelsDB "x" "L6"
      = (sampleLabelsDB, .error "character cannot have more than 5 labels")
    ∧ ∃ db1 db2, characterService.RemoveLabelFromCharacter sampleLabelsDB "x" "L1"
          = (db1, .ok ())
        ∧ characterService.AddLabelToCharacter db1 "x" "L6" = (db2, .ok ())
        ∧ (labelsOf db2 "x").length = 5
        ∧ "L6" ∈ labelsOf db2 "x"
        ∧ "L1" ∉ labelsOf db2 "x" :=
  C21_remove_frees_a_slot sampleLabelsDB "x" "L1" "L6"
    ⟨sampleCharacter "x" "g1", by decide, rfl⟩ (by decide) (by decide)
    ⟨sampleLabel "L6", by decide, rfl⟩ (by decide)
    ⟨sampleLabel "L1", by decide, rfl⟩ (by decide)

/-- C22. Label-name uniqueness. (1) `CreateLabel` with the name of a stored label fails with
"label with this name already exists" and leaves the database unchanged. (2) `UpdateLabel`
with a name other than the stored name of the label, which is the name of a stored label,
fails in the same way. (3) From a label table whose rows have pairwise different keys and
names (the empty table is one), every sequence of `CreateLabel`, `UpdateLabel` and
`DeleteLabel` calls leads to such a table again: no two stored labels share a name. (4)
`UpdateLabel` with the stored name of the label never fails with the duplicate-name error,
and (5) on such a table, for a non-empty id, it succeeds. -/
theorem C22_label_names_unique :
    (∀ (db : DB) (uuid : String) (now : Nat) (label : Label),
      (∃ l ∈ db.labels, l.Name = label.Name) →
      labelService.CreateLabel db uuid now label
        = (db, .error "label with this name already exists"))
    ∧ (∀ (db : DB) (id : String) (label existing : Label),
      labelRepository.GetByID db id = .ok existing →
      label.Name ≠ existing.Name →
      (∃ l ∈ db.labels, l.Name = label.Name) →
      labelService.UpdateLabel db id label
        = (db, .error "label with this name already exists"))
    ∧ (∀ (db : DB) (calls : List LabelCall),
      LabelsWF db.labels →
      LabelsWF (labelCallRun db calls).labels
      ∧ ((labelCallRun db calls).labels.map Label.Name).Nodup)
    ∧ (∀ (db db1 : DB) (id : String) (label existing : Label),
      labelRepository.GetByID db id = .ok existing →
      label.Name = existing.Name →
      labelService.UpdateLabel db id label
        ≠ (db1, .error "label with this name already exists"))
    ∧ (∀ (db : DB) (id : String) (label existing : Label),
      LabelsWF db.labels →
      labelRepository.GetByID db id = .ok existing →
      id ≠ "" →
      label.Name = existing.Name →
      ∃ db1, labelService.UpdateLabel db id label
        = (db1, .ok { label with ID := existing.ID, CreatedAt := existing.CreatedAt })) := by
  refine ⟨?_, ?_, ?_, ?_, ?_⟩
  · rintro db uuid now label ⟨l, hl, hname⟩
    rw [CreateLabel_spec, any_true_of_exists_eq Label.Name db.labels label.Name ⟨l, hl, hname⟩]
    simp
  · rintro db id label existing hex hne ⟨l, hl, hname⟩
    unfold labelService.UpdateLabel
    have hne1 : ¬ existing.Name = label.Name := fun h => hne h.symm
    rw [hex, labelRepository_ExistsByName_eq,
      any_true_of_exists_eq Label.Name db.labels label.Name ⟨l, hl, hname⟩]
    simp [hne1]
  · intro db calls hwf
    exact ⟨labelCallRun_WF calls db hwf, LabelsWF_names (labelCallRun_WF calls db hwf)⟩
  · intro db db1 id label existing hex hname h
    unfold labelService.UpdateLabel at h
    rw [hex] at h
    have hn : (existing.Name ≠ label.Name) = False := by simp [hname]
    simp only [hn, if_false] at h
    cases hu : labelRepository.Update db
        { label with ID := existing.ID, CreatedAt := existing.CreatedAt } with
    | error e =>
      simp only [hu, Prod.mk.injEq, Except.error.injEq] at h
      have := congrArg String.data h.2
      simp at this
    | ok p =>
      simp only [hu, Prod.mk.injEq] at h
      exact absurd h.2 (by simp)
  · intro db id label existing hwf hex hid hname
    have hfind := labelRepository_GetByID_ok.mp hex
    have heid : existing.ID = id := by simpa using List.find?_some hfind
    have hmem : existing ∈ db.labels := List.mem_of_find?_eq_some hfind
    have hany : db.labels.any (fun x => x.ID == existing.ID) = true :=
      List.any_eq_true.mpr ⟨existing, hmem, by simp⟩
    have hsymm : Symmetric distinctLabels :=
      fun a b hab => ⟨fun h => hab.1 h.symm, fun h => hab.2 h.symm⟩
    have hu : db.labels.any (fun l => !(l.ID == existing.ID) && l.Name == label.Name)
        = false := by
      rw [List.any_eq_false]
      intro l hl hcon
      simp only [Bool.and_eq_true, Bool.not_eq_true', beq_eq_false_iff_ne, ne_eq,
        beq_iff_eq] at hcon
      have hd := List.Pairwise.forall hsymm hwf hl hmem (fun h => hcon.1 (by rw [h]))
      exact hd.2 (hcon.2.trans hname)
    have hne : existing.ID ≠ "" := by rw [heid]; exact hid
    unfold labelService.UpdateLabel labelRepository.Update
    rw [hex]
    simp only [hname, ne_eq, not_true_eq_false, if_false]
    rw [hname] at hu
    simp [hu, hany, hne]

/-- C22 at the sample data: a second label named `L1` is refused; renaming `L2` to `L3` is
refused; after a refused create, a refused rename, a delete and a create no two labels share
a name; saving `L1` under its own name succeeds. -/
theorem C22_witness :
    labelService.CreateLabel sampleLabelsDB "n" 5 (sampleLabel "L1")
      = (sampleLabelsDB, .error "label with this name already exists")
    ∧ labelService.UpdateLabel sampleLabelsDB "L2" (sampleLabel "L3")
      = (sampleLabelsDB, .error "label with this name already exists")
    ∧ ((labelCallRun sampleLabelsDB
          [.createLabel "n" 5 (sampleLabel "L1"), .updateLabel "L2" (sampleLabel "L3"),
           .deleteLabel "L4", .createLabel "n" 5 (sampleLabel "L7")]).labels.map
        Label.Name).Nodup
    ∧ ∃ db1, labelService.UpdateLabel sampleLabelsDB "L1" (sampleLabel "L1")
        = (db1, .ok { sampleLabel "L1" with ID := "L1", CreatedAt := 1 }) :=
  have hwf : LabelsWF sampleLabelsDB.labels := by
    simp [LabelsWF, distinctLabels, sampleLabelsDB, sampleLabel]
  ⟨C22_label_names_unique.1 sampleLabelsDB "n" 5 (sampleLabel "L1")
     ⟨sampleLabel "L1", by simp [sampleLabelsDB], rfl⟩,
   C22_label_names_unique.2.1 sampleLabelsDB "L2" (sampleLabel "L3") (sampleLabel "L2") rfl
     (by decide) ⟨sampleLabel "L3", by simp [sampleLabelsDB], rfl⟩,
   (C22_label_names_unique.2.2.1 sampleLabelsDB _ hwf).2,
   C22_label_names_unique.2.2.2.2 sampleLabelsDB "L1" (sampleLabel "L1") (sampleLabel "L1")
     hwf rfl (by decide) rfl⟩

/-- C23. Validate-then-commit, on a store whose calls can fail (`faults`). (1) For
`DeleteRelationship`, `AddLabelToCharacter`, `RemoveLabelFromCharacter`, `CreateLabel` and
`UpdateLabel`: whenever the call returns an error, from a check that refuses, from a read of a
check that fails, or from the mutating call that fails, the database (groups, characters,
labels, label associations and relationships) is exactly the one before the call. (2) The
same holds for `CreateRelationship` and `UpdateRelationship`, whose checks all precede the
mutating call, with one exception that is no check: after the row is written both functions
read it back and return the result of that read; when that read fails, its error is returned
and the row is in the store. Every other error leaves the database as it was. (3) A read
that fails in a check does give an error with the database unchanged: so for the first read
of each of the seven functions. (4) The exception is real: when the call succeeds on a store
without faults, then on the store where only the read-back fails it returns that error
together with the written database. (5) Without faults the seven functions are the functions
of `relationshipService`, `characterService` and `labelService`. -/
theorem C23_error_leaves_store_unchanged :
    ((∀ (faults : Nat → Option String) (db db1 : DB) (id e : String),
        faultyStore.DeleteRelationship faults db id = (db1, .error e) → db1 = db)
      ∧ (∀ (faults : Nat → Option String) (db db1 : DB) (c l e : String),
        faultyStore.AddLabelToCharacter faults db c l = (db1, .error e) → db1 = db)
      ∧ (∀ (faults : Nat → Option String) (db db1 : DB) (c l e : String),
        faultyStore.RemoveLabelFromCharacter faults db c l = (db1, .error e) → db1 = db)
      ∧ (∀ (faults : Nat → Option String) (db db1 : DB) (uuid : String) (now : Nat)
          (label : Label) (e : String),
        faultyStore.CreateLabel faults db uuid now label = (db1, .error e) → db1 = db)
      ∧ (∀ (faults : Nat → Option String) (db db1 : DB) (id : String) (label : Label)
          (e : String),
        faultyStore.UpdateLabel faults db id label = (db1, .error e) → db1 = db))
    ∧ ((∀ (faults : Nat → Option String) (db db1 : DB) (uuid : String) (now : Nat)
          (req : Relationship) (e : String),
        faultyStore.CreateRelationship faults db uuid now req = (db1, .error e) →
        db1 = db
        ∨ (faults 6 = some e
            ∧ ∃ v r, faultyStore.validatePair faults 0 db req = .ok v
              ∧ relationshipRepository.Create db uuid now v = .ok (db1, r)))
      ∧ (∀ (faults : Nat → Option String) (db db1 : DB) (id : String) (req : Relationship)
          (e : String),
        faultyStore.UpdateRelationship faults db id req = (db1, .error e) →
        db1 = db
        ∨ (faults 7 = some e
            ∧ ∃ v r, relationshipRepository.Update db v = .ok (db1, r))))
    ∧ ((∀ (faults : Nat → Option String) (db : DB) (uuid : String) (now : Nat)
          (req : Relationship) (err : String),
        req.Character1ID ≠ req.Character2ID → faults 0 = some err →
        faultyStore.CreateRelationship faults db uuid now req
          = (db, .error ("failed to check character1 existence: " ++ err)))
      ∧ (∀ (faults : Nat → Option String) (db : DB) (id : String) (req : Relationship)
          (err : String),
        faults 0 = some err →
        faultyStore.UpdateRelationship faults db id req
          = (db, .error ("relationship not found: " ++ err)))
      ∧ (∀ (faults : Nat → Option String) (db : DB) (id err : String),
        faults 0 = some err →
        faultyStore.DeleteRelationship faults db id
          = (db, .error ("failed to check relationship existence: " ++ err)))
      ∧ (∀ (faults : Nat → Option String) (db : DB) (c l err : String),
        faults 0 = some err →
        faultyStore.AddLabelToCharacter faults db c l
          = (db, .error ("failed to check character existence: " ++ err)))
      ∧ (∀ (faults : Nat → Option String) (db : DB) (c l err : String),
        faults 0 = some err →
        faultyStore.RemoveLabelFromCharacter faults db c l
          = (db, .error ("failed to check character existence: " ++ err)))
      ∧ (∀ (faults : Nat → Option String) (db : DB) (uuid : String) (now : Nat)
          (label : Label) (err : String),
        faults 0 = some err →
        faultyStore.CreateLabel faults db uuid now label
          = (db, .error ("failed to check label name existence: " ++ err)))
      ∧ (∀ (faults : Nat → Option String) (db : DB) (id : String) (label : Label)
          (err : String),
        faults 0 = some err →
        faultyStore.UpdateLabel faults db id label
          = (db, .error ("label not found: " ++ err))))
    ∧ ((∀ (db db1 : DB) (uuid : String) (now : Nat) (req r : Relationship) (err : String),
        CreateRelationship db uuid now req = (db1, .ok r) →
        faultyStore.CreateRelationship (fun n => if n = 6 then some err else none)
            db uuid now req
          = (db1, .error err))
      ∧ (∀ (db db1 : DB) (id : String) (req r : Relationship) (err : String),
        UpdateRelationship db id req = (db1, .ok r) →
        faultyStore.UpdateRelationship (fun n => if n = 7 then some err else none) db id req
          = (db1, .error err)))
    ∧ ((∀ (db : DB) (uuid : String) (now : Nat) (req : Relationship),
        faultyStore.CreateRelationship (fun _ => none) db uuid now req
          = CreateRelationship db uuid now req)
      ∧ (∀ (db : DB) (id : String) (req : Relationship),
        faultyStore.UpdateRelationship (fun _ => none) db id req
          = UpdateRelationship db id req)
      ∧ (∀ (db : DB) (id : String),
        faultyStore.DeleteRelationship (fun _ => none) db id = DeleteRelationship db id)
      ∧ (∀ (db : DB) (c l : String),
        faultyStore.AddLabelToCharacter (fun _ => none) db c l
          = characterService.AddLabelToCharacter db c l)
      ∧ (∀ (db : DB) (c l : String),
        faultyStore.RemoveLabelFromCharacter (fun _ => none) db c l
          = characterService.RemoveLabelFromCharacter db c l)
      ∧ (∀ (db : DB) (uuid : String) (now : Nat) (label : Label),
        faultyStore.CreateLabel (fun _ => none) db uuid now label
          = labelService.CreateLabel db uuid now label)
      ∧ (∀ (db : DB) (id : String) (label : Label),
        faultyStore.UpdateLabel (fun _ => none) db id label
          = labelService.UpdateLabel db id label)) := by
  refine ⟨⟨?_, ?_, ?_, ?_, ?_⟩, ⟨?_, ?_⟩, ⟨?_, ?_, ?_, ?_, ?_, ?_, ?_⟩, ⟨?_, ?_⟩,
    ⟨?_, ?_, ?_, ?_, ?_, ?_, ?_⟩⟩
  · intro faults db db1 id e h
    exact faultyStore_DeleteRelationship_error h
  · intro faults db db1 c l e h
    exact faultyStore_AddLabelToCharacter_error h
  · intro faults db db1 c l e h
    exact faultyStore_RemoveLabelFromCharacter_error h
  · intro faults db db1 uuid now label e h
    exact faultyStore_CreateLabel_error h
  · intro faults db db1 id label e h
    exact faultyStore_UpdateLabel_error h
  · intro faults db db1 uuid now req e h
    exact faultyStore_CreateRelationship_error h
  · intro faults db db1 id req e h
    exact faultyStore_UpdateRelationship_error h
  · intro faults db uuid now req err hself hf
    unfold faultyStore.CreateRelationship faultyStore.validatePair
    rw [if_neg hself, attempt_of_some hf]
  · intro faults db id req err hf
    unfold faultyStore.UpdateRelationship
    rw [attempt_of_some hf]
  · intro faults db id err hf
    unfold faultyStore.DeleteRelationship
    rw [attempt_of_some hf]
  · intro faults db c l err hf
    unfold faultyStore.AddLabelToCharacter
    rw [attempt_of_some hf]
  · intro faults db c l err hf
    unfold faultyStore.RemoveLabelFromCharacter
    rw [attempt_of_some hf]
  · intro faults db uuid now label err hf
    unfold faultyStore.CreateLabel
    rw [attempt_of_some hf]
  · intro faults db id label err hf
    unfold faultyStore.UpdateLabel
    rw [attempt_of_some hf]
  · intro db db1 uuid now req r err h
    exact faultyStore_CreateRelationship_readback err h
  · intro db db1 id req r err h
    exact faultyStore_UpdateRelationship_readback err h
  · exact faultyStore_CreateRelationship_none
  · exact faultyStore_UpdateRelationship_none
  · exact faultyStore_DeleteRelationship_none
  · exact faultyStore_AddLabelToCharacter_none
  · exact faultyStore_RemoveLabelFromCharacter_none
  · exact faultyStore_CreateLabel_none
  · exact faultyStore_UpdateLabel_none

/-- C23 at the sample data. On a store where the duplicate check of `CreateRelationship`
(call 4) fails, the call returns the error of that read and the database it was given; so
does `AddLabelToCharacter` when the count of the labels (call 3) fails. On a store without
faults a refused `CreateLabel` (name taken) returns the database it was given. On a store
where only the read-back (call 6) fails, `CreateRelationship` returns that error after the
relationship `r1` was written. -/
theorem C23_witness :
    (faultyStore.CreateRelationship (sampleFaultAt 4) sampleDB "r1" 5 (sampleRequest "a" "b")
        = (sampleDB, .error "failed to check relationship existence: connection lost")
      ∧ (sampleDB = sampleDB
          ∨ (sampleFaultAt 4 6
                = some "failed to check relationship existence: connection lost"
              ∧ ∃ v r, faultyStore.validatePair (sampleFaultAt 4) 0 sampleDB
                    (sampleRequest "a" "b") = .ok v
                ∧ relationshipRepository.Create sampleDB "r1" 5 v = .ok (sampleDB, r))))
    ∧ (faultyStore.AddLabelToCharacter (sampleFaultAt 3) sampleLabelsDB "y" "L5"
        = (sampleLabelsDB, .error "failed to get labels count: connection lost")
      ∧ sampleLabelsDB = sampleLabelsDB)
    ∧ (faultyStore.CreateLabel (fun _ => none) sampleLabelsDB "n" 5 (sampleLabel "L1")
        = (sampleLabelsDB, .error "label with this name already exists")
      ∧ sampleLabelsDB = sampleLabelsDB)
    ∧ (faultyStore.CreateRelationship (fun n => if n = 6 then some "connection lost" else none)
          sampleDB "r1" 5 (sampleRequest "a" "b")
        = (sampleDB1, .error "connection lost")
      ∧ sampleDB1 ≠ sampleDB) :=
  have h1 : faultyStore.CreateRelationship (sampleFaultAt 4) sampleDB "r1" 5
      (sampleRequest "a" "b")
      = (sampleDB, .error "failed to check relationship existence: connection lost") := rfl
  have h2 : faultyStore.AddLabelToCharacter (sampleFaultAt 3) sampleLabelsDB "y" "L5"
      = (sampleLabelsDB, .error "failed to get labels count: connection lost") := rfl
  have h3 : faultyStore.CreateLabel (fun _ => none) sampleLabelsDB "n" 5 (sampleLabel "L1")
      = (sampleLabelsDB, .error "label with this name already exists") := rfl
  ⟨⟨h1, C23_error_leaves_store_unchanged.2.1.1 _ _ _ _ _ _ _ h1⟩,
   ⟨h2, C23_error_leaves_store_unchanged.1.2.1 _ _ _ _ _ _ h2⟩,
   ⟨h3, C23_error_leaves_store_unchanged.1.2.2.2.1 _ _ _ _ _ _ _ h3⟩,
   ⟨C23_error_leaves_store_unchanged.2.2.2.1.1 sampleDB sampleDB1 "r1" 5
      (sampleRequest "a" "b") sampleRow "connection lost" sample_create_ab,
    by decide⟩⟩

/-- C24. Character group reference. (1) When no stored group has the GroupID of the
character, `CreateCharacter` fails with "group not found" and the database is unchanged.
(2) When the request of `UpdateCharacter` carries another GroupID than the stored character
has and no stored group has it, the call fails with "group not found" and the database is
unchanged. (3) If the GroupID of every stored character is the id of a stored group, the
same holds after a `CreateCharacter` and after an `UpdateCharacter`, successful or not. -/
theorem C24_character_group_reference :
    (∀ (db : DB) (uuid : String) (now : Nat) (character : Character),
      (∀ g ∈ db.groups, g.ID ≠ character.GroupID) →
      characterService.CreateCharacter db uuid now character = (db, .error "group not found"))
    ∧ (∀ (db : DB) (now : Nat) (id : String) (character existing : Character),
      characterRepository.GetByID db id = .ok existing →
      character.GroupID ≠ existing.GroupID →
      (∀ g ∈ db.groups, g.ID ≠ character.GroupID) →
      characterService.UpdateCharacter db now id character = (db, .error "group not found"))
    ∧ (∀ (db : DB) (uuid : String) (now : Nat) (character : Character),
      GroupRefs db → GroupRefs (characterService.CreateCharacter db uuid now character).1)
    ∧ (∀ (db : DB) (now : Nat) (id : String) (character : Character),
      GroupRefs db → GroupRefs (characterService.UpdateCharacter db now id character).1) := by
  refine ⟨?_, ?_, ?_, ?_⟩
  · intro db uuid now character hmiss
    unfold characterService.CreateCharacter
    rw [groupRepository_ExistsByID_eq,
      any_false_of_forall_ne Group.ID db.groups character.GroupID hmiss]
    simp
  · intro db now id character existing hex hne hmiss
    unfold characterService.UpdateCharacter
    rw [hex]
    simp only [ne_eq, hne, not_false_eq_true, if_true]
    rw [groupRepository_ExistsByID_eq,
      any_false_of_forall_ne Group.ID db.groups character.GroupID hmiss]
    simp
  · intro db uuid now character hinv
    rcases CreateCharacter_cases db uuid now character with h | ⟨c, hcg, hg, h⟩
    · rw [h]; exact hinv
    · rw [h]
      intro x hx
      rcases List.mem_append.mp hx with hx | hx
      · exact hinv x hx
      · rw [List.mem_singleton.mp hx, hcg]; exact hg
  · intro db now id character hinv
    exact UpdateCharacter_groupRefs db now id character hinv

/-- C24 at the sample data: no group `g9` is stored; creating a character in it, and moving
the character `a` into it, both fail with "group not found"; the references of the sample
database are kept by a successful create. -/
theorem C24_witness :
    characterService.CreateCharacter sampleDB "n" 5 (sampleCharacter "" "g9")
      = (sampleDB, .error "group not found")
    ∧ characterService.UpdateCharacter sampleDB 7 "a" (sampleCharacter "" "g9")
      = (sampleDB, .error "group not found")
    ∧ GroupRefs (characterService.CreateCharacter sampleDB "n" 5 (sampleCharacter "" "g2")).1 :=
  ⟨C24_character_group_reference.1 sampleDB "n" 5 (sampleCharacter "" "g9") (by decide),
   C24_character_group_reference.2.1 sampleDB 7 "a" (sampleCharacter "" "g9")
     (sampleCharacter "a" "g1") rfl (by decide) (by decide),
   C24_character_group_reference.2.2.1 sampleDB "n" 5 (sampleCharacter "" "g2") (by
     intro c hc
     simp only [sampleDB, List.mem_cons, List.mem_singleton, List.not_mem_nil, or_false] at hc
     rcases hc with rfl | rfl | rfl | rfl
     · exact ⟨sampleGroup "g1", by simp [sampleDB], rfl⟩
     · exact ⟨sampleGroup "g1", by simp [sampleDB], rfl⟩
     · exact ⟨sampleGroup "g2", by simp [sampleDB], rfl⟩
     · exact ⟨sampleGroup "g1", by simp [sampleDB], rfl⟩)⟩

/-- C25, the code at the failing input. The validation of an `UpdateGroupRequest` accepts a
`Name` that points to the empty string; `UpdateGroup` on the stored group `g1` with that
request succeeds and writes the group with the empty name. `CreateGroup` with the empty name
is refused by the `required` rule, with the database unchanged. -/
theorem C25_update_group_writes_empty_name :
    groupService.validateUpdateGroupRequest sampleEmptyNameRequest = .ok ()
    ∧ groupService.UpdateGroup sampleDB 7 "g1" sampleEmptyNameRequest
      = ({ sampleDB with groups := [sampleGroupUnnamed, sampleGroup "g2"] },
         .ok sampleGroupUnnamed)
    ∧ sampleGroupUnnamed.Name = ""
    ∧ groupService.CreateGroup sampleDB "g3" 7 { Name := "", Description := none }
      = (sampleDB, .error (fieldError "CreateGroupRequest.Name" "Name" "required")) :=
  ⟨rfl, rfl, rfl, rfl⟩

/-- C26, the code at the failing input. `CreateRelationship` for the stored characters `a`
and `b` of one group with an empty relationship type succeeds and stores the row with the
empty type; `UpdateRelationship` on the stored relationship `r1` with an empty type succeeds
and writes the empty type into the row. -/
theorem C26_empty_relationship_type_stored :
    CreateRelationship sampleDB "r1" 5 sampleUntypedRequest
      = ({ sampleDB with relationships := [sampleRowUntyped] }, .ok sampleRowUntyped)
    ∧ UpdateRelationship sampleDB1 "r1" sampleUntypedUpdate
      = ({ sampleDB with relationships := [sampleRowUntyped] }, .ok sampleRowUntyped)
    ∧ sampleRowUntyped.RelationshipType = "" := by
  refine ⟨?_, ?_, rfl⟩
  · simp [CreateRelationship_spec, validatePair_eq, sampleDB, sampleRow, sampleRowUntyped,
      sampleUntypedRequest, sampleRequest, sampleCharacter, sample_min_ab, sample_max_ab]
  · simp [UpdateRelationship_spec, sampleDB, sampleDB1, sampleRow, sampleRowUntyped,
      sampleUntypedUpdate, sampleKeepRequest, sample_min_ab, sample_max_ab]

/-- C27. The duplicate-pair lookup is pair-symmetric. (1) For every database and all ids
`a`, `b`, `ExistsBetweenCharacters a b` and `ExistsBetweenCharacters b a` give the same
answer. (2) When every stored relationship is in order (`Character1ID ≤ Character2ID`), the
answer is true exactly when some stored relationship links `a` and `b`, in either
position. -/
theorem C27_exists_between_symmetric :
    (∀ (db : DB) (a b : String),
      relationshipRepository.ExistsBetweenCharacters db a b
        = relationshipRepository.ExistsBetweenCharacters db b a)
    ∧ (∀ (db : DB) (a b : String),
      (∀ x ∈ db.relationships, x.Character1ID ≤ x.Character2ID) →
      relationshipRepository.ExistsBetweenCharacters db a b
          = .ok (db.relationships.any (linksPair a b))
      ∧ (relationshipRepository.ExistsBetweenCharacters db a b = .ok true
          ↔ ∃ r ∈ db.relationships, linksPair a b r = true)) := by
  constructor
  · intro db a b
    rw [relationshipRepository_ExistsBetweenCharacters_eq,
      relationshipRepository_ExistsBetweenCharacters_eq, min_comm, max_comm]
  · intro db a b hord
    have heq : db.relationships.any
          (fun r => r.Character1ID == min a b && r.Character2ID == max a b)
        = db.relationships.any (linksPair a b) := by
      rw [Bool.eq_iff_iff, List.any_eq_true, List.any_eq_true]
      constructor
      · rintro ⟨r, hr, hp⟩
        refine ⟨r, hr, ?_⟩
        simp only [Bool.and_eq_true, beq_iff_eq] at hp
        unfold linksPair
        rcases le_total a b with h | h
        · simp [hp.1, hp.2, min_eq_left h, max_eq_right h]
        · simp [hp.1, hp.2, min_eq_right h, max_eq_left h]
      · rintro ⟨r, hr, hp⟩
        obtain ⟨h1, h2⟩ := linksPair_canonical (hord r hr) hp
        exact ⟨r, hr, by simp [h1, h2]⟩
    rw [relationshipRepository_ExistsBetweenCharacters_eq, heq]
    refine ⟨rfl, ?_⟩
    rw [← List.any_eq_true]
    constructor
    · intro h
      exact Except.ok.inj h
    · intro h
      rw [h]

/-- C27 at the sample data: `r1` links `a` and `b`; the lookup answers true for `(b, a)`. -/
theorem C27_witness :
    relationshipRepository.ExistsBetweenCharacters sampleDB1 "b" "a" = .ok true :=
  ((C27_exists_between_symmetric.2 sampleDB1 "b" "a" (by
      intro x hx
      simp only [sampleDB1, List.mem_singleton] at hx
      rw [hx]
      exact sample_a_lt_b.le)).2).mpr ⟨sampleRow, by simp [sampleDB1], by decide⟩

/-- C28. `ValidateImageFile` returns no error exactly when the file name is not empty and
its extension (`filepath.Ext`), in lower case, is one of `.jpg`, `.jpeg`, `.png`, `.gif`,
`.webp`; in every other case it returns an error, so for the empty file name and for a file
name without extension. The extension is the suffix from the last dot of the last path
element: `.` followed by `ext` for a name that ends in a dot and an `ext` without dot and
slash, and empty when the last path element has no dot. -/
theorem C28_validate_image_file (toLower : Char → Char) (filename : String) :
    (imageService.ValidateImageFile toLower filename = .ok ()
      ↔ filename ≠ ""
        ∧ imageService.ToLower toLower (imageService.Ext filename)
            ∈ [".jpg", ".jpeg", ".png", ".gif", ".webp"])
    ∧ (¬ (filename ≠ ""
          ∧ imageService.ToLower toLower (imageService.Ext filename)
              ∈ [".jpg", ".jpeg", ".png", ".gif", ".webp"]) →
        ∃ e, imageService.ValidateImageFile toLower filename = .error e)
    ∧ (filename = "" →
        imageService.ValidateImageFile toLower filename = .error "filename is required")
    ∧ (imageService.Ext filename = "" →
        ∃ e, imageService.ValidateImageFile toLower filename = .error e)
    ∧ (∀ pre ext : List Char, '.' ∉ ext → '/' ∉ ext →
        filename = String.mk (pre ++ '.' :: ext) →
        imageService.Ext filename = String.mk ('.' :: ext))
    ∧ (∀ pre name : List Char, '.' ∉ name → '/' ∉ name →
        filename = String.mk name ∨ filename = String.mk (pre ++ '/' :: name) →
        imageService.Ext filename = "") := by
  have hiff : imageService.ValidateImageFile toLower filename = .ok ()
      ↔ filename ≠ ""
        ∧ imageService.ToLower toLower (imageService.Ext filename)
            ∈ [".jpg", ".jpeg", ".png", ".gif", ".webp"] := by
    unfold imageService.ValidateImageFile
    by_cases hempty : filename = ""
    · simp [hempty]
    · rw [if_neg hempty]
      simp only [ne_eq, hempty, not_false_eq_true, true_and]
      rw [← matchesAllowed_iff]
      simp only [imageService.allowedExts]
      by_cases hm : imageService.matchesAllowed
          (imageService.ToLower toLower (imageService.Ext filename))
          [".jpg", ".jpeg", ".png", ".gif", ".webp"] = true
      · rw [if_pos hm]
        exact ⟨fun _ => hm, fun _ => rfl⟩
      · rw [if_neg hm]
        exact ⟨fun h => by simp at h, fun h => absurd h hm⟩
  have hrej : ¬ (filename ≠ ""
        ∧ imageService.ToLower toLower (imageService.Ext filename)
            ∈ [".jpg", ".jpeg", ".png", ".gif", ".webp"]) →
      ∃ e, imageService.ValidateImageFile toLower filename = .error e := by
    intro hnot
    cases hres : imageService.ValidateImageFile toLower filename with
    | error e => exact ⟨e, rfl⟩
    | ok u => exact absurd (hiff.mp hres) hnot
  refine ⟨hiff, hrej, ?_, ?_, ?_, ?_⟩
  · intro hempty
    simp [imageService.ValidateImageFile, hempty]
  · intro hext
    apply hrej
    rintro ⟨_, hmem⟩
    rw [hext] at hmem
    simp [imageService.ToLower] at hmem
  · intro pre ext hdot hsep hname
    rw [hname, imageService.Ext]
    show imageService.extFrom (pre ++ '.' :: ext).reverse [] = _
    rw [List.reverse_append, List.reverse_cons, List.append_assoc,
      extFrom_append _ _ _ (by simpa using hdot) (by simpa using hsep)]
    simp [imageService.extFrom]
  · intro pre name hdot hsep hname
    rcases hname with hname | hname
    · rw [hname, imageService.Ext]
      show imageService.extFrom name.reverse [] = _
      have := extFrom_append name.reverse [] [] (by simpa using hdot) (by simpa using hsep)
      rw [List.append_nil] at this
      rw [this]
      rfl
    · rw [hname, imageService.Ext]
      show imageService.extFrom (pre ++ '/' :: name).reverse [] = _
      rw [List.reverse_append, List.reverse_cons, List.append_assoc,
        extFrom_append _ _ _ (by simpa using hdot) (by simpa using hsep)]
      simp [imageService.extFrom]

/-- C28 at sample file names: `photo.JPG` and `dir.v2/a.webp` are accepted; the empty name,
`README`, `archive.tar.gz` and `photo.jpg/notes` are refused. -/
theorem C28_witness :
    imageService.ValidateImageFile Char.toLower "photo.JPG" = .ok ()
    ∧ imageService.ValidateImageFile Char.toLower "dir.v2/a.webp" = .ok ()
    ∧ imageService.ValidateImageFile Char.toLower "" = .error "filename is required"
    ∧ (∃ e, imageService.ValidateImageFile Char.toLower "README" = .error e)
    ∧ (∃ e, imageService.ValidateImageFile Char.toLower "archive.tar.gz" = .error e)
    ∧ (∃ e, imageService.ValidateImageFile Char.toLower "photo.jpg/notes" = .error e) :=
  ⟨(C28_validate_image_file Char.toLower "photo.JPG").1.mpr ⟨by decide, by decide⟩,
   (C28_validate_image_file Char.toLower "dir.v2/a.webp").1.mpr ⟨by decide, by decide⟩,
   (C28_validate_image_file Char.toLower "").2.2.1 rfl,
   (C28_validate_image_file Char.toLower "README").2.2.2.1 (by decide),
   (C28_validate_image_file Char.toLower "archive.tar.gz").2.1 (by decide),
   (C28_validate_image_file Char.toLower "photo.jpg/notes").2.2.2.1 (by decide)⟩

/-- C29, the code at the failing input. A service constructed with the upload directory
`test_uploads` saves a JPEG image: the file is written at `test_uploads/5_0a1b2c3d.jpg`, the
path returned is `/uploads/5_0a1b2c3d.jpg`. The returned path ends in `.jpg`; it does not
start with the upload directory, and no file of that path was written. -/
theorem C29_save_image_returns_other_path :
    imageService.SaveImage Char.toLower sampleJoin "test_uploads" [] sampleImageEnv "test.jpg"
      = (["test_uploads/5_0a1b2c3d.jpg"], .ok "/uploads/5_0a1b2c3d.jpg")
    ∧ ".jpg".data <:+ "/uploads/5_0a1b2c3d.jpg".data
    ∧ ¬ ("test_uploads".data <+: "/uploads/5_0a1b2c3d.jpg".data)
    ∧ "/uploads/5_0a1b2c3d.jpg" ∉ ["test_uploads/5_0a1b2c3d.jpg"] :=
  ⟨rfl, by decide, by decide, by decide⟩

/-- C30. `UpdateGroup` is a partial update. (1) For a non-empty id, a request that passes
validation and a stored group `g` with that id, the call succeeds and writes into the row of
`g` the group with the ID and CreatedAt of `g`, the `Name` of the request when it is set and
that of `g` otherwise, and the `Description` of the request when it is set and that of `g`
otherwise; the other rows are kept. (2) Every successful `UpdateGroup` is of this kind. (3)
With an empty id the call returns "group ID is required" together with the database as it
was, whatever the database holds. -/
theorem C30_update_group_partial :
    (∀ (db : DB) (now : Nat) (id : String) (req : UpdateGroupRequest) (g : Group),
      id ≠ "" →
      groupService.validateUpdateGroupRequest req = .ok () →
      groupRepository.GetByID db id = .ok g →
      ∃ w, groupService.UpdateGroup db now id req
          = ({ db with groups := db.groups.map (fun x => if x.ID == g.ID then w else x) },
             .ok w)
        ∧ w.ID = g.ID
        ∧ w.CreatedAt = g.CreatedAt
        ∧ w.Name = (match req.Name with
            | some name => name
            | none => g.Name)
        ∧ w.Description = (match req.Description with
            | some description => some description
            | none => g.Description))
    ∧ (∀ (db db1 : DB) (now : Nat) (id : String) (req : UpdateGroupRequest) (w : Group),
      groupService.UpdateGroup db now id req = (db1, .ok w) →
      id ≠ "" ∧ groupService.validateUpdateGroupRequest req = .ok ()
        ∧ ∃ g, groupRepository.GetByID db id = .ok g)
    ∧ (∀ (db : DB) (now : Nat) (req : UpdateGroupRequest),
      groupService.UpdateGroup db now "" req = (db, .error "group ID is required")) := by
  refine ⟨?_, ?_, ?_⟩
  · intro db now id req g hid hval hget
    exact ⟨_, UpdateGroup_found db now id req g hid hval hget, rfl, rfl, rfl, rfl⟩
  · intro db db1 now id req w h
    unfold groupService.UpdateGroup at h
    by_cases hid : id = ""
    · simp [hid] at h
    · rw [if_neg hid] at h
      cases hval : groupService.validateUpdateGroupRequest req with
      | error e => simp [hval] at h
      | ok u =>
        cases hget : groupRepository.GetByID db id with
        | error e => simp [hval, hget] at h
        | ok g => exact ⟨hid, rfl, g, rfl⟩
  · intro db now req
    simp [groupService.UpdateGroup]

/-- C30 at the sample data: the group `g1` has the description `first`; an update that sets
only the name keeps the description, the ID and the creation time. -/
theorem C30_witness :
    ∃ w, groupService.UpdateGroup sampleDescribedDB 7 "g1" sampleGroupRequest
        = ({ sampleDescribedDB with groups := sampleDescribedDB.groups.map (fun x =>
              if x.ID == "g1" then w else x) },
           .ok w)
      ∧ w.ID = "g1"
      ∧ w.CreatedAt = 1
      ∧ w.Name = "renamed"
      ∧ w.Description = some "first" :=
  C30_update_group_partial.1 sampleDescribedDB 7 "g1" sampleGroupRequest
    { sampleGroup "g1" with Description := some "first" } (by decide) rfl rfl

end CharacterManagement
